import Mathlib

/-!
# Scene-plan canonicalization and validation engine: a shallow embedding

This file is a Lean 4 shallow embedding of the scene-plan validation engine of
the `stem_3d_visualizer` repository:

* `src/schemas/schemaRegistry.ts` — the registry and the `validateScenePlan`
  pipeline (the combined file also holds the pipeline after the registry);
* `src/schemas/scene/*.v1.ts` plus the unnamed schema modules — the nine
  per-concept schema modules (`harmonic_oscillator`, `damped_oscillator`,
  `driven_oscillator`, `coupled_oscillators_2mass`, `projectile_motion`,
  `uniform_circular_motion`, `kepler_two_body_orbit`, `laminar_internal_flow`,
  `fluid_system`);
* `src/schemas/pillars/*.ts` — the pillar (state/domain/material/constraints/
  forcing/evolution) zod schemas used by the structural validators.

Modelling conventions:

* JavaScript numbers are modelled by `JsNum`: a rational (`ℚ`) for finite
  doubles plus `inf`, `negInf` and `nan`.  Numeric literals of the source are
  read as the corresponding rationals; double rounding is not modelled (no
  claim in this development depends on it).  Negative zero is identified with
  zero.  Arithmetic and comparisons follow the IEEE rules JavaScript uses
  (`NaN` propagates, comparisons with `NaN` are false).
* JavaScript values are modelled by `JsVal` (number, string, boolean, object).
  JavaScript objects are association lists in insertion order; property
  assignment (`setKey`) overwrites in place or appends, exactly as JS
  preserves key insertion order.  Coercion of non-numeric values by arithmetic
  (`toNum`) sends booleans to 0/1 and strings/objects to `NaN`; parsing of
  numeric strings is not modelled (never exercised by the engine's callers or
  by any theorem below).
* `Math.cos`, `Math.sin` and `Math.sqrt` are transcendental; they are modelled
  by computable rational stand-ins (`jsCosQ`, `jsSinQ`, `jsSqrtQ`).  Every
  pipeline verdict proved below is shown (or holds by parametricity over the
  stand-in value) to be insensitive to the stand-in values, so no theorem
  depends on double-precision trigonometry.
* Thrown `Error`s of the normalizers are modelled with `Except String`; the
  pipeline catches them and prefixes `Normalization failed: `.
* zod error *texts* are not reproduced verbatim (no claim depends on them);
  what is reproduced faithfully is **which** checks a zod schema performs
  (type, finiteness, positivity, enums, strictness/unknown keys) and hence
  whether the resulting issue list is empty.  Contract messages, which the
  source writes by hand, are reproduced verbatim.  Template interpolation of a
  number (`${x}`) is modelled by `JsNum.render`, exact for integers (the only
  values interpolated inside any theorem below).
-/

/-- Model of a JavaScript number: finite double (as a rational), the two
infinities, or `NaN`. -/
inductive JsNum where
  | fin (q : ℚ)
  | inf
  | negInf
  | nan
deriving Repr, DecidableEq

namespace JsNum

/-- JS `Number.isNaN`. -/
def isNan : JsNum → Bool
  | nan => true
  | _ => false

/-- JS `Number.isFinite`. -/
def isFinite : JsNum → Bool
  | fin _ => true
  | _ => false

/-- JS `<` (false whenever an operand is `NaN`). -/
def lt : JsNum → JsNum → Bool
  | nan, _ => false
  | _, nan => false
  | fin a, fin b => a < b
  | fin _, inf => true
  | fin _, negInf => false
  | inf, _ => false
  | negInf, negInf => false
  | negInf, _ => true

/-- JS `<=` (false whenever an operand is `NaN`). -/
def le : JsNum → JsNum → Bool
  | nan, _ => false
  | _, nan => false
  | a, b => !(lt b a)

/-- JS `>`. -/
def gt (a b : JsNum) : Bool := lt b a

/-- JS `>=`. -/
def ge (a b : JsNum) : Bool := le b a

/-- JS unary minus. -/
def neg : JsNum → JsNum
  | fin a => fin (-a)
  | inf => negInf
  | negInf => inf
  | nan => nan

/-- JS `+` on numbers. -/
def add : JsNum → JsNum → JsNum
  | nan, _ => nan
  | _, nan => nan
  | fin a, fin b => fin (a + b)
  | inf, negInf => nan
  | negInf, inf => nan
  | inf, _ => inf
  | _, inf => inf
  | negInf, _ => negInf
  | _, negInf => negInf

/-- JS `-` on numbers. -/
def sub (a b : JsNum) : JsNum := add a (neg b)

/-- JS `*` on numbers. -/
def mul : JsNum → JsNum → JsNum
  | nan, _ => nan
  | _, nan => nan
  | fin a, fin b => fin (a * b)
  | inf, inf => inf
  | inf, negInf => negInf
  | negInf, inf => negInf
  | negInf, negInf => inf
  | inf, fin b => if b = 0 then nan else if 0 < b then inf else negInf
  | fin a, inf => if a = 0 then nan else if 0 < a then inf else negInf
  | negInf, fin b => if b = 0 then nan else if 0 < b then negInf else inf
  | fin a, negInf => if a = 0 then nan else if 0 < a then negInf else inf

/-- JS `/` on numbers (negative zero identified with zero, so `a / 0` with
`a > 0` is `Infinity`). -/
def div : JsNum → JsNum → JsNum
  | nan, _ => nan
  | _, nan => nan
  | fin a, fin b =>
    if b = 0 then (if a = 0 then nan else if 0 < a then inf else negInf)
    else fin (a / b)
  | fin _, inf => fin 0
  | fin _, negInf => fin 0
  | inf, fin b => if 0 ≤ b then inf else negInf
  | negInf, fin b => if 0 ≤ b then negInf else inf
  | inf, _ => nan
  | negInf, _ => nan

/-- JS `Math.max` of two numbers (`NaN` if either argument is `NaN`). -/
def max2 : JsNum → JsNum → JsNum
  | nan, _ => nan
  | _, nan => nan
  | a, b => if lt a b then b else a

/-- JS `Math.max` of three numbers. -/
def max3 (a b c : JsNum) : JsNum := max2 (max2 a b) c

/-- Template interpolation of a number.  Exact for integers (the only numbers
interpolated inside any theorem of this development); non-integral rationals
render as `num/den` rather than JS decimal notation. -/
def render : JsNum → String
  | fin q => if q.den = 1 then toString q.num else toString q
  | inf => "Infinity"
  | negInf => "-Infinity"
  | nan => "NaN"

end JsNum

/-- Model of a JavaScript value as the engine consumes it: number, string,
boolean, or object (association list in insertion order).  `null` and arrays
are not consumed by any modelled code path. -/
inductive JsVal where
  | num (n : JsNum)
  | str (s : String)
  | bool (b : Bool)
  | obj (fields : List (String × JsVal))

namespace JsVal

/-- Numeric coercion applied implicitly by JS arithmetic: numbers unchanged,
booleans to 0/1, everything else to `NaN` (numeric-string parsing is not
modelled; see the file header). -/
def toNum : JsVal → JsNum
  | num n => n
  | bool b => .fin (if b then 1 else 0)
  | str _ => .nan
  | obj _ => .nan

end JsVal

/-- A parameter map: a JS object in insertion order. -/
abbrev Params := List (String × JsVal)

/-- JS property read `o[k]` (`none` models `undefined`). -/
def getKey : Params → String → Option JsVal
  | [], _ => none
  | (k0, v0) :: rest, k => if k0 = k then some v0 else getKey rest k

/-- JS property write `o[k] = v`: overwrite in place if the key exists,
append otherwise (JS preserves insertion order). -/
def setKey : Params → String → JsVal → Params
  | [], k, v => [(k, v)]
  | (k0, v0) :: rest, k, v =>
    if k0 = k then (k, v) :: rest else (k0, v0) :: setKey rest k v

/-- The keys of a parameter map, in order. -/
def keysOf (p : Params) : List String := p.map Prod.fst

/-- Read a parameter as a number, as JS arithmetic would
(`undefined` coerces to `NaN`). -/
def numField (p : Params) (k : String) : JsNum :=
  match getKey p k with
  | some v => v.toNum
  | none => .nan

/-- Read an optional parameter as a number (`none` models `undefined`). -/
def optNumField (p : Params) (k : String) : Option JsNum :=
  (getKey p k).map JsVal.toNum

/-- Read a parameter as a string (non-strings yield `""`, which fails every
enum check exactly as the zod type error would). -/
def strField (p : Params) (k : String) : String :=
  match getKey p k with
  | some (.str s) => s
  | _ => ""

/-- Read a parameter as a boolean (non-booleans yield `false`; only reached
after the canonical zod check has certified the field is a boolean). -/
def boolField (p : Params) (k : String) : Bool :=
  match getKey p k with
  | some (.bool b) => b
  | _ => false

/-- Lookup in a `PARAM_MAP` alias table (JS object property access). -/
def lookupMap : List (String × String) → String → Option String
  | [], _ => none
  | (k0, c0) :: rest, k => if k0 = k then some c0 else lookupMap rest k

/-- `Object.keys(PARAM_MAP).join(", ")`. -/
def allowedKeys (m : List (String × String)) : String :=
  String.intercalate ", " (m.map Prod.fst)

/-- The `Unknown parameter` error text shared by every normalizer. -/
def unknownParamMsg (m : List (String × String)) (k : String) : String :=
  "Unknown parameter: \"" ++ k ++ "\". Allowed: " ++ allowedKeys m

/-- The `Duplicate mapping` error text shared by every normalizer. -/
def duplicateMsg (c k : String) : String :=
  "Duplicate mapping for \"" ++ c ++ "\" via key \"" ++ k ++ "\"."

/-- The alias-resolution loop shared verbatim by every schema module's
`normalize`: walk the raw keys in order, reject unknown keys and duplicate
canonical targets, and build the canonical map.  `seen` is the JS `Set`,
`acc` the `result` object. -/
def resolveAliasesAux (m : List (String × String)) :
    List (String × JsVal) → List String → Params →
    Except String (List String × Params)
  | [], seen, acc => .ok (seen, acc)
  | (k, v) :: rest, seen, acc =>
    match lookupMap m k with
    | none => .error (unknownParamMsg m k)
    | some c =>
      if c ∈ seen then .error (duplicateMsg c k)
      else resolveAliasesAux m rest (c :: seen) (setKey acc c v)

/-- The `for (const key of Object.keys(rawParams))` loop of each
`normalize`, started from an empty `seen` set and empty `result`. -/
def resolveAliases (m : List (String × String)) (raw : List (String × JsVal)) :
    Except String Params :=
  (resolveAliasesAux m raw [] []).map Prod.snd

/-- `if (result.k === undefined) throw new Error(msg)`. -/
def requireKey (p : Params) (k msg : String) : Except String Params :=
  match getKey p k with
  | some _ => .ok p
  | none => .error msg

/-- `if (result.k === undefined) result.k = v`. -/
def defaultKey (p : Params) (k : String) (v : JsVal) : Params :=
  match getKey p k with
  | some _ => p
  | none => setKey p k v

/-! ## zod modelling

A zod `z.object({...}).strict()` check is modelled by `zodStrictObject` over a
list of field specifications.  Issue texts are summaries, not zod's wording;
which fields produce an issue (and hence emptiness of the list) is faithful. -/

/-- One field of a strict zod object: key, whether it is required, and the
value check (`none` = pass). -/
structure FieldSpec where
  key : String
  required : Bool
  check : JsVal → Option String

/-- `z.number().finite().positive()`. -/
def zPositiveFiniteNumber : JsVal → Option String
  | .num (.fin q) => if 0 < q then none else some "must be a positive finite number"
  | _ => some "must be a positive finite number"

/-- `z.number().finite()`. -/
def zFiniteNumber : JsVal → Option String
  | .num (.fin _) => none
  | _ => some "must be a finite number"

/-- `z.number().finite().min(0)`. -/
def zNonNegativeFiniteNumber : JsVal → Option String
  | .num (.fin q) => if 0 ≤ q then none else some "must be a non-negative finite number"
  | _ => some "must be a non-negative finite number"

/-- `z.number().finite().gt(lo).lt(hi)`. -/
def zFiniteOpenRange (lo hi : ℚ) : JsVal → Option String
  | .num (.fin q) => if lo < q ∧ q < hi then none else some "out of range"
  | _ => some "must be a finite number"

/-- `z.number().finite().min(lo).lt(hi)`. -/
def zFiniteMinLt (lo hi : ℚ) : JsVal → Option String
  | .num (.fin q) => if lo ≤ q ∧ q < hi then none else some "out of range"
  | _ => some "must be a finite number"

/-- `z.number().finite().min(lo).max(hi)`. -/
def zFiniteClosedRange (lo hi : ℚ) : JsVal → Option String
  | .num (.fin q) => if lo ≤ q ∧ q ≤ hi then none else some "out of range"
  | _ => some "must be a finite number"

/-- `z.boolean()`. -/
def zBoolean : JsVal → Option String
  | .bool _ => none
  | _ => some "must be a boolean"

/-- `z.enum([...])`. -/
def zEnum (options : List String) : JsVal → Option String
  | .str s => if s ∈ options then none else some "invalid enum value"
  | _ => some "must be a string"

/-- `z.object(shape).strict().safeParse(p)`: one issue per failing declared
field (missing required field, or failing value check), then one issue per
unrecognized key. -/
def zodStrictObject (fields : List FieldSpec) (p : Params) : List String :=
  let fieldErrs := fields.filterMap fun f =>
    match getKey p f.key with
    | none => if f.required then some (f.key ++ ": required") else none
    | some v => (f.check v).map fun m => f.key ++ ": " ++ m
  let declared := fields.map FieldSpec.key
  let unknownErrs := p.filterMap fun kv =>
    if kv.1 ∈ declared then none else some ("unrecognized key: " ++ kv.1)
  fieldErrs ++ unknownErrs

/-! ## Transcendental stand-ins (see the file header) -/

/-- The double-precision value of `Math.PI`, exactly. -/
def jsPI : ℚ := 884279719003555 / 281474976710656

/-- Computable rational stand-in for double `Math.cos` on finite input.
Every pipeline verdict below is insensitive to its value. -/
def jsCosQ (x : ℚ) : ℚ := 1 - x ^ 2 / 2 + x ^ 4 / 24 - x ^ 6 / 720

/-- Computable rational stand-in for double `Math.sin` on finite input.
Every pipeline verdict below is insensitive to its value. -/
def jsSinQ (x : ℚ) : ℚ := x - x ^ 3 / 6 + x ^ 5 / 120

/-- Computable rational stand-in for double `Math.sqrt` on non-negative
finite input. -/
def jsSqrtQ (q : ℚ) : ℚ := (Int.sqrt q.num : ℚ) / (Nat.sqrt q.den : ℚ)

/-- JS `Math.cos` on a `JsNum` (`NaN` on non-finite input). -/
def jsCosN : JsNum → JsNum
  | .fin q => .fin (jsCosQ q)
  | _ => .nan

/-- JS `Math.sin` on a `JsNum`. -/
def jsSinN : JsNum → JsNum
  | .fin q => .fin (jsSinQ q)
  | _ => .nan

/-- JS `Math.sqrt` on a `JsNum` (`NaN` on negative or `NaN` input). -/
def jsSqrtN : JsNum → JsNum
  | .fin q => if 0 ≤ q then .fin (jsSqrtQ q) else .nan
  | .inf => .inf
  | _ => .nan

/-! ## Pillar assemblies (src/schemas/pillars)

The pillar zod schemas are discriminated unions; every assembly builder of the
source constructs one specific variant with a literal `kind`, so the Lean model
uses one inductive per pillar family whose constructors carry the variant's
fields.  A check function per pillar schema mirrors the zod field checks. -/

/-- `{axis, direction}` orientation object shared by the domain schemas. -/
structure OrientationV where
  axis : String
  direction : String

/-- State pillar variants used by the registered concepts
(src/schemas/pillars/state, unnamed part). -/
inductive StateV where
  | pointMass (dof : String) (mass : JsNum)
  | fieldVector (dimension : String) (components : Int)
  | particleEnsemble (count : Int) (particleMass : Option JsNum)

/-- Domain pillar variants used by the registered concepts. -/
inductive DomainV where
  | interval_1d (characteristicLength length : JsNum) (orientation : OrientationV)
  | rect_2d (characteristicLength width height : JsNum) (orientation : OrientationV)
  | box_3d (characteristicLength width height depth : JsNum) (orientation : OrientationV)
  | pipe (characteristicLength length diameter : JsNum) (orientation : OrientationV)
  | channel (characteristicLength length width height : JsNum) (orientation : OrientationV)

/-- Material pillar variants used by the registered concepts. -/
inductive MaterialV where
  | ideal_spring (stiffness : JsNum) (dampingRatio : Option JsNum)
  | inertial_particle (dragCoefficient : JsNum)
  | newtonian_fluid (density dynamicViscosity : JsNum)
      (thermalConductivity specificHeat : Option JsNum)

/-- Forcing pillar variants. -/
inductive ForcingV where
  | none
  | constant_field (quantity : String) (magnitude : JsNum) (direction : Option String)
  | harmonic_drive (amplitude frequency phase : JsNum)
  | pressure_gradient (gradient : JsNum) (axis : String)
  | central_inverse_square (mu : JsNum) (center : JsNum × JsNum × JsNum)

/-- Evolution pillar variants. -/
inductive EvolutionV where
  | damped_shm (dampingRatio : JsNum)
  | kinematic (transient : Bool) (referenceFrame : String)
  | uniform_circular (transient : Bool) (plane : String)
  | orbital_two_body (transient : Bool) (frame : String)
  | navier_stokes (incompressible newtonian transient : Bool)
  | wave_equation (waveSpeed : JsNum) (transient : Bool)

/-- Constraint variants (src/schemas/pillars/constraints). -/
inductive ConstraintV where
  | fixed (target : String)
  | free (target : String)
  | periodic (target pairedTarget : String)
  | no_slip (target : String)
  | specified_value (target quantity : String) (value : JsNum)

/-- An assembly: the object each `buildXAssembly` returns, parsed by the
concept's strict assembly zod schema. -/
structure AssemblyV where
  state : StateV
  domain : DomainV
  material : MaterialV
  constraints : List ConstraintV
  forcing : ForcingV
  evolution : EvolutionV

/-- Issue list for a `PositiveFiniteNumber` assembly field. -/
def posFinIssue (field : String) (n : JsNum) : List String :=
  match n with
  | .fin q => if 0 < q then [] else [field ++ ": must be a positive finite number"]
  | _ => [field ++ ": must be a positive finite number"]

/-- Issue list for a `FiniteNumber` assembly field. -/
def finIssue (field : String) (n : JsNum) : List String :=
  match n with
  | .fin _ => []
  | _ => [field ++ ": must be a finite number"]

/-- Issue list for a `z.number().finite().min(0)` assembly field. -/
def nonNegFinIssue (field : String) (n : JsNum) : List String :=
  match n with
  | .fin q => if 0 ≤ q then [] else [field ++ ": must be a non-negative finite number"]
  | _ => [field ++ ": must be a non-negative finite number"]

/-- Issue list for a `z.string().min(1)` assembly field. -/
def strMin1Issue (field : String) (s : String) : List String :=
  if 1 ≤ s.length then [] else [field ++ ": must be a non-empty string"]

/-- Issue list for a `z.enum(options)` assembly field. -/
def enumIssue (field : String) (options : List String) (s : String) : List String :=
  if s ∈ options then [] else [field ++ ": invalid enum value"]

/-- `Orientation` zod object. -/
def checkOrientation (o : OrientationV) : List String :=
  enumIssue "orientation.axis" ["x", "y", "z"] o.axis ++
    enumIssue "orientation.direction" ["positive", "negative"] o.direction

/-- `PointMassState` zod schema. -/
def checkPointMassState : StateV → List String
  | .pointMass dof mass =>
    enumIssue "state.dof" ["1d", "2d", "3d"] dof ++ posFinIssue "state.mass" mass
  | _ => ["state.kind: expected point_mass"]

/-- `FieldVectorState` zod schema. -/
def checkFieldVectorState : StateV → List String
  | .fieldVector dimension components =>
    enumIssue "state.dimension" ["1d", "2d", "3d"] dimension ++
      (if 1 ≤ components ∧ components ≤ 3 then []
       else ["state.components: must be an integer between 1 and 3"])
  | _ => ["state.kind: expected field_vector"]

/-- `ParticleEnsembleState` zod schema. -/
def checkParticleEnsembleState : StateV → List String
  | .particleEnsemble count particleMass =>
    (if 0 < count then [] else ["state.count: must be a positive integer"]) ++
      (match particleMass with
       | some m => posFinIssue "state.particleMass" m
       | none => [])
  | _ => ["state.kind: expected particle_ensemble"]

/-- `Interval1DDomain` zod schema. -/
def checkInterval1DDomain : DomainV → List String
  | .interval_1d cl len o =>
    posFinIssue "domain.characteristicLength" cl ++
      posFinIssue "domain.dimensions.length" len ++ checkOrientation o
  | _ => ["domain.kind: expected interval_1d"]

/-- `Rect2DDomain` zod schema. -/
def checkRect2DDomain : DomainV → List String
  | .rect_2d cl w h o =>
    posFinIssue "domain.characteristicLength" cl ++
      posFinIssue "domain.dimensions.width" w ++
      posFinIssue "domain.dimensions.height" h ++ checkOrientation o
  | _ => ["domain.kind: expected rect_2d"]

/-- `Box3DDomain` zod schema. -/
def checkBox3DDomain : DomainV → List String
  | .box_3d cl w h d o =>
    posFinIssue "domain.characteristicLength" cl ++
      posFinIssue "domain.dimensions.width" w ++
      posFinIssue "domain.dimensions.height" h ++
      posFinIssue "domain.dimensions.depth" d ++ checkOrientation o
  | _ => ["domain.kind: expected box_3d"]

/-- `PipeDomain` zod schema. -/
def checkPipeDomain : DomainV → List String
  | .pipe cl len dia o =>
    posFinIssue "domain.characteristicLength" cl ++
      posFinIssue "domain.dimensions.length" len ++
      posFinIssue "domain.dimensions.diameter" dia ++ checkOrientation o
  | _ => ["domain.kind: expected pipe"]

/-- `ChannelDomain` zod schema. -/
def checkChannelDomain : DomainV → List String
  | .channel cl len w h o =>
    posFinIssue "domain.characteristicLength" cl ++
      posFinIssue "domain.dimensions.length" len ++
      posFinIssue "domain.dimensions.width" w ++
      posFinIssue "domain.dimensions.height" h ++ checkOrientation o
  | _ => ["domain.kind: expected channel"]

/-- `z.union([PipeDomain, ChannelDomain])` used by the laminar assembly. -/
def checkPipeOrChannelDomain : DomainV → List String
  | .pipe cl len dia o => checkPipeDomain (.pipe cl len dia o)
  | .channel cl len w h o => checkChannelDomain (.channel cl len w h o)
  | _ => ["domain.kind: expected pipe or channel"]

/-- `IdealSpringMaterial` zod schema. -/
def checkIdealSpringMaterial : MaterialV → List String
  | .ideal_spring stiffness dampingRatio =>
    posFinIssue "material.stiffness" stiffness ++
      (match dampingRatio with
       | some d => nonNegFinIssue "material.dampingRatio" d
       | none => [])
  | _ => ["material.kind: expected ideal_spring"]

/-- `InertialParticleMaterial` zod schema. -/
def checkInertialParticleMaterial : MaterialV → List String
  | .inertial_particle dragCoefficient =>
    nonNegFinIssue "material.dragCoefficient" dragCoefficient
  | _ => ["material.kind: expected inertial_particle"]

/-- `NewtonianFluidMaterial` zod schema. -/
def checkNewtonianFluidMaterial : MaterialV → List String
  | .newtonian_fluid density viscosity thermal specificHeat =>
    posFinIssue "material.density" density ++
      posFinIssue "material.dynamicViscosity" viscosity ++
      (match thermal with
       | some t => posFinIssue "material.thermalConductivity" t
       | none => []) ++
      (match specificHeat with
       | some s => posFinIssue "material.specificHeat" s
       | none => [])
  | _ => ["material.kind: expected newtonian_fluid"]

/-- `Constraint` zod discriminated union. -/
def checkConstraint : ConstraintV → List String
  | .fixed target => strMin1Issue "constraints.target" target
  | .free target => strMin1Issue "constraints.target" target
  | .periodic target pairedTarget =>
    strMin1Issue "constraints.target" target ++
      strMin1Issue "constraints.pairedTarget" pairedTarget
  | .no_slip target => strMin1Issue "constraints.target" target
  | .specified_value target quantity value =>
    strMin1Issue "constraints.target" target ++
      strMin1Issue "constraints.quantity" quantity ++
      finIssue "constraints.value" value

/-- `Constraints = z.array(Constraint).min(1)`. -/
def checkConstraints (cs : List ConstraintV) : List String :=
  (if 1 ≤ cs.length then [] else ["constraints: at least one constraint required"]) ++
    cs.flatMap checkConstraint

/-- `NoForcing` zod schema. -/
def checkNoForcing : ForcingV → List String
  | .none => []
  | _ => ["forcing.kind: expected none"]

/-- `ConstantFieldForcing` zod schema. -/
def checkConstantFieldForcing : ForcingV → List String
  | .constant_field quantity magnitude direction =>
    strMin1Issue "forcing.quantity" quantity ++
      finIssue "forcing.magnitude" magnitude ++
      (match direction with
       | some d => enumIssue "forcing.direction" ["x", "y", "z"] d
       | none => [])
  | _ => ["forcing.kind: expected constant_field"]

/-- `HarmonicDriveForcing` zod schema. -/
def checkHarmonicDriveForcing : ForcingV → List String
  | .harmonic_drive amplitude frequency phase =>
    posFinIssue "forcing.amplitude" amplitude ++
      posFinIssue "forcing.frequency" frequency ++
      finIssue "forcing.phase" phase
  | _ => ["forcing.kind: expected harmonic_drive"]

/-- `PressureGradientForcing` zod schema. -/
def checkPressureGradientForcing : ForcingV → List String
  | .pressure_gradient gradient axis =>
    finIssue "forcing.gradient" gradient ++
      enumIssue "forcing.axis" ["x", "y", "z"] axis
  | _ => ["forcing.kind: expected pressure_gradient"]

/-- `CentralInverseSquareForcing` zod schema. -/
def checkCentralInverseSquareForcing : ForcingV → List String
  | .central_inverse_square mu center =>
    posFinIssue "forcing.mu" mu ++
      finIssue "forcing.center.x" center.1 ++
      finIssue "forcing.center.y" center.2.1 ++
      finIssue "forcing.center.z" center.2.2
  | _ => ["forcing.kind: expected central_inverse_square"]

/-- `z.union([NoForcing, PressureGradientForcing])` used by the laminar
assembly. -/
def checkNoOrPressureGradientForcing : ForcingV → List String
  | .none => []
  | .pressure_gradient gradient axis =>
    checkPressureGradientForcing (.pressure_gradient gradient axis)
  | _ => ["forcing.kind: expected none or pressure_gradient"]

/-- `DampedShmEvolution` zod schema. -/
def checkDampedShmEvolution : EvolutionV → List String
  | .damped_shm dampingRatio => nonNegFinIssue "evolution.dampingRatio" dampingRatio
  | _ => ["evolution.kind: expected damped_shm"]

/-- `KinematicEvolution` zod schema (`transient: z.literal(true)`). -/
def checkKinematicEvolution : EvolutionV → List String
  | .kinematic transient referenceFrame =>
    (if transient then [] else ["evolution.transient: expected literal true"]) ++
      enumIssue "evolution.referenceFrame" ["inertial", "non_inertial"] referenceFrame
  | _ => ["evolution.kind: expected kinematic"]

/-- `UniformCircularEvolution` zod schema. -/
def checkUniformCircularEvolution : EvolutionV → List String
  | .uniform_circular transient plane =>
    (if transient then [] else ["evolution.transient: expected literal true"]) ++
      enumIssue "evolution.plane" ["xy", "xz", "yz"] plane
  | _ => ["evolution.kind: expected uniform_circular"]

/-- `OrbitalTwoBodyEvolution` zod schema. -/
def checkOrbitalTwoBodyEvolution : EvolutionV → List String
  | .orbital_two_body transient frame =>
    (if transient then [] else ["evolution.transient: expected literal true"]) ++
      enumIssue "evolution.frame" ["inertial", "barycentric"] frame
  | _ => ["evolution.kind: expected orbital_two_body"]

/-- `NavierStokesEvolution` zod schema (`incompressible`/`newtonian` are
`z.literal(true)`, `transient` is `z.boolean()`). -/
def checkNavierStokesEvolution : EvolutionV → List String
  | .navier_stokes incompressible newtonian _transient =>
    (if incompressible then [] else ["evolution.incompressible: expected literal true"]) ++
      (if newtonian then [] else ["evolution.newtonian: expected literal true"])
  | _ => ["evolution.kind: expected navier_stokes"]

/-- `WaveEquationEvolution` zod schema. -/
def checkWaveEquationEvolution : EvolutionV → List String
  | .wave_equation waveSpeed _transient => posFinIssue "evolution.waveSpeed" waveSpeed
  | _ => ["evolution.kind: expected wave_equation"]

/-- The `assembly.` path prefix the structural validators put on assembly
issues. -/
def assemblyPrefixed (errs : List String) : List String :=
  errs.map fun e => "assembly." ++ e

/-- JS `assembly.state.kind` (the discriminant literal). -/
def StateV.kind : StateV → String
  | .pointMass _ _ => "point_mass"
  | .fieldVector _ _ => "field_vector"
  | .particleEnsemble _ _ => "particle_ensemble"

/-- JS `assembly.state.dof` (`""` models `undefined` on other variants). -/
def StateV.dof : StateV → String
  | .pointMass dof _ => dof
  | _ => ""

/-- JS `assembly.state.dimension` (`""` models `undefined`). -/
def StateV.dimension : StateV → String
  | .fieldVector dimension _ => dimension
  | _ => ""

/-- JS `assembly.state.count` (`0` models `undefined`; only read on
`particle_ensemble`, whose builders always set it). -/
def StateV.count : StateV → Int
  | .particleEnsemble count _ => count
  | _ => 0

/-- JS `assembly.domain.kind`. -/
def DomainV.kind : DomainV → String
  | .interval_1d _ _ _ => "interval_1d"
  | .rect_2d _ _ _ _ => "rect_2d"
  | .box_3d _ _ _ _ _ => "box_3d"
  | .pipe _ _ _ _ => "pipe"
  | .channel _ _ _ _ _ => "channel"

/-- JS `assembly.material.kind`. -/
def MaterialV.kind : MaterialV → String
  | .ideal_spring _ _ => "ideal_spring"
  | .inertial_particle _ => "inertial_particle"
  | .newtonian_fluid _ _ _ _ => "newtonian_fluid"

/-- JS `assembly.forcing.kind`. -/
def ForcingV.kind : ForcingV → String
  | .none => "none"
  | .constant_field _ _ _ => "constant_field"
  | .harmonic_drive _ _ _ => "harmonic_drive"
  | .pressure_gradient _ _ => "pressure_gradient"
  | .central_inverse_square _ _ => "central_inverse_square"

/-- JS `assembly.forcing.quantity` (`""` models `undefined`). -/
def ForcingV.quantity : ForcingV → String
  | .constant_field quantity _ _ => quantity
  | _ => ""

/-- JS `assembly.evolution.kind`. -/
def EvolutionV.kind : EvolutionV → String
  | .damped_shm _ => "damped_shm"
  | .kinematic _ _ => "kinematic"
  | .uniform_circular _ _ => "uniform_circular"
  | .orbital_two_body _ _ => "orbital_two_body"
  | .navier_stokes _ _ _ => "navier_stokes"
  | .wave_equation _ _ => "wave_equation"

/-- JS `assembly.evolution.incompressible` (`false` models `undefined`). -/
def EvolutionV.incompressible : EvolutionV → Bool
  | .navier_stokes incompressible _ _ => incompressible
  | _ => false

/-- JS `assembly.evolution.newtonian` (`false` models `undefined`). -/
def EvolutionV.newtonian : EvolutionV → Bool
  | .navier_stokes _ newtonian _ => newtonian
  | _ => false

/-- JS `constraint.type`. -/
def ConstraintV.ctype : ConstraintV → String
  | .fixed _ => "fixed"
  | .free _ => "free"
  | .periodic _ _ => "periodic"
  | .no_slip _ => "no_slip"
  | .specified_value _ _ _ => "specified_value"

/-- JS `constraint.target`. -/
def ConstraintV.target : ConstraintV → String
  | .fixed target => target
  | .free target => target
  | .periodic target _ => target
  | .no_slip target => target
  | .specified_value target _ _ => target

/-- JS `constraint.quantity` (`""` models `undefined` on variants without
one). -/
def ConstraintV.quantity : ConstraintV → String
  | .specified_value _ quantity _ => quantity
  | _ => ""

/-! ## harmonic_oscillator v1 (unnamed schema module) -/

namespace harmonic_oscillator

def schemaId : String := "harmonic_oscillator"

def schemaVersion : String := "v1"

/-- Allowed raw input keys and their canonical mapping. -/
def PARAM_MAP : List (String × String) :=
  [("amplitude", "amplitude"), ("A", "amplitude"),
   ("frequency", "frequency"), ("f", "frequency"),
   ("phase", "phase")]

/-- `normalize`: alias resolution, required checks, `phase` default 0. -/
def normalize (rawParams : List (String × JsVal)) : Except String Params := do
  let r ← resolveAliases PARAM_MAP rawParams
  let r ← requireKey r "amplitude"
    "Missing required parameter: \"amplitude\" (or alias \"A\")."
  let r ← requireKey r "frequency"
    "Missing required parameter: \"frequency\" (or alias \"f\")."
  pure (defaultKey r "phase" (.num (.fin 0)))

/-- The source's per-field guard
`typeof params.x !== "number" || Number.isNaN(params.x)`, with the source's
exact message.  Note it accepts `Infinity` (only `NaN` and non-numbers are
rejected) — material to claim C3. -/
def mustBeFiniteNumber (params : Params) (field : String) : List String :=
  match getKey params field with
  | some (.num n) => if n.isNan then [field ++ " must be a finite number."] else []
  | _ => [field ++ " must be a finite number."]

/-- `validateStructure`: three per-field guards, no strictness check. -/
def validateStructure (params : Params) : List String :=
  mustBeFiniteNumber params "amplitude" ++
    mustBeFiniteNumber params "frequency" ++
    mustBeFiniteNumber params "phase"

/-- Semantic contracts. -/
def contracts : List (Params → Option String) :=
  [fun p =>
    if (numField p "amplitude").gt (.fin 0) then none
    else some ("amplitude must be > 0, got " ++ (numField p "amplitude").render ++ "."),
   fun p =>
    if (numField p "frequency").gt (.fin 0) then none
    else some ("frequency must be > 0, got " ++ (numField p "frequency").render ++ ".")]

end harmonic_oscillator

/-! ## damped_oscillator v1 (unnamed schema module) -/

namespace damped_oscillator

def schemaId : String := "damped_oscillator"

def schemaVersion : String := "v1"

/-- The `DampedOscillator` strict canonical zod schema. -/
def DampedOscillator : List FieldSpec :=
  [⟨"amplitude", true, zPositiveFiniteNumber⟩,
   ⟨"frequency", true, zPositiveFiniteNumber⟩,
   ⟨"dampingRatio", true, zNonNegativeFiniteNumber⟩,
   ⟨"phase", true, zFiniteNumber⟩]

def PARAM_MAP : List (String × String) :=
  [("amplitude", "amplitude"), ("A", "amplitude"),
   ("frequency", "frequency"), ("f", "frequency"),
   ("dampingRatio", "dampingRatio"), ("zeta", "dampingRatio"),
   ("phase", "phase")]

def normalize (rawParams : List (String × JsVal)) : Except String Params := do
  let r ← resolveAliases PARAM_MAP rawParams
  let r ← requireKey r "amplitude"
    "Missing required parameter: \"amplitude\" (or alias \"A\")."
  let r ← requireKey r "frequency"
    "Missing required parameter: \"frequency\" (or alias \"f\")."
  let r := defaultKey r "dampingRatio" (.num (.fin (5 / 100)))
  pure (defaultKey r "phase" (.num (.fin 0)))

/-- `buildDampedAssembly`. -/
def buildDampedAssembly (params : Params) : AssemblyV :=
  let mass : JsNum := .fin 1
  let omega := JsNum.mul (JsNum.mul (.fin 2) (.fin jsPI)) (numField params "frequency")
  let stiffness := JsNum.mul (JsNum.mul mass omega) omega
  let length := JsNum.mul (numField params "amplitude") (.fin 2)
  { state := .pointMass "1d" mass
    domain := .interval_1d length length ⟨"x", "positive"⟩
    material := .ideal_spring stiffness (some (numField params "dampingRatio"))
    constraints :=
      [.fixed "origin",
       .specified_value "state.phase" "phase" (numField params "phase")]
    forcing := .none
    evolution := .damped_shm (numField params "dampingRatio") }

/-- The `DampedOscillatorAssembly` strict zod schema. -/
def checkDampedOscillatorAssembly (a : AssemblyV) : List String :=
  checkPointMassState a.state ++ checkInterval1DDomain a.domain ++
    checkIdealSpringMaterial a.material ++ checkConstraints a.constraints ++
    checkNoForcing a.forcing ++ checkDampedShmEvolution a.evolution

def validateStructure (params : Params) : List String :=
  match zodStrictObject DampedOscillator params with
  | [] => assemblyPrefixed (checkDampedOscillatorAssembly (buildDampedAssembly params))
  | errs => errs

def contracts : List (Params → Option String) :=
  [fun p =>
    if (numField p "amplitude").gt (.fin 0) then none
    else some ("amplitude must be > 0, got " ++ (numField p "amplitude").render ++ "."),
   fun p =>
    if (numField p "frequency").gt (.fin 0) then none
    else some ("frequency must be > 0, got " ++ (numField p "frequency").render ++ "."),
   fun p =>
    if (numField p "dampingRatio").ge (.fin 0) then none
    else some ("dampingRatio must be >= 0, got " ++ (numField p "dampingRatio").render ++ "."),
   fun p =>
    let assembly := buildDampedAssembly p
    if assembly.evolution.kind ≠ "damped_shm" then
      some ("damped_oscillator requires evolution kind \"damped_shm\", got \"" ++
        assembly.evolution.kind ++ "\".")
    else if assembly.state.kind ≠ "point_mass" ∨ assembly.state.dof ≠ "1d" then
      some "damped_oscillator requires state kind \"point_mass\" with dof \"1d\"."
    else if assembly.domain.kind ≠ "interval_1d" then
      some ("damped_oscillator requires domain kind \"interval_1d\", got \"" ++
        assembly.domain.kind ++ "\".")
    else if assembly.material.kind ≠ "ideal_spring" then
      some ("damped_oscillator requires material kind \"ideal_spring\", got \"" ++
        assembly.material.kind ++ "\".")
    else if assembly.forcing.kind ≠ "none" then
      some ("damped_oscillator requires forcing kind \"none\", got \"" ++
        assembly.forcing.kind ++ "\".")
    else none,
   fun p =>
    let assembly := buildDampedAssembly p
    if assembly.constraints.any (fun c => c.ctype = "fixed") then none
    else some "damped_oscillator requires at least one fixed constraint."]

end damped_oscillator

/-! ## driven_oscillator v1 (unnamed schema module) -/

namespace driven_oscillator

def schemaId : String := "driven_oscillator"

def schemaVersion : String := "v1"

/-- The `DrivenOscillator` strict canonical zod schema. -/
def DrivenOscillator : List FieldSpec :=
  [⟨"amplitude", true, zPositiveFiniteNumber⟩,
   ⟨"naturalFrequency", true, zPositiveFiniteNumber⟩,
   ⟨"driveAmplitude", true, zPositiveFiniteNumber⟩,
   ⟨"driveFrequency", true, zPositiveFiniteNumber⟩,
   ⟨"dampingRatio", true, zNonNegativeFiniteNumber⟩,
   ⟨"phase", true, zFiniteNumber⟩,
   ⟨"drivePhase", true, zFiniteNumber⟩]

def PARAM_MAP : List (String × String) :=
  [("amplitude", "amplitude"), ("A", "amplitude"),
   ("naturalFrequency", "naturalFrequency"), ("fn", "naturalFrequency"),
   ("driveAmplitude", "driveAmplitude"), ("Ad", "driveAmplitude"),
   ("driveFrequency", "driveFrequency"), ("fd", "driveFrequency"),
   ("dampingRatio", "dampingRatio"), ("zeta", "dampingRatio"),
   ("phase", "phase"), ("drivePhase", "drivePhase")]

/-- `result.driveAmplitude = result.amplitude` style default: copy the current
value of another canonical key (the source key is always present when this
runs, so the `undefined` fallback is unreachable). -/
def defaultKeyFrom (p : Params) (k src : String) : Params :=
  match getKey p k with
  | some _ => p
  | none => setKey p k ((getKey p src).getD (.num .nan))

def normalize (rawParams : List (String × JsVal)) : Except String Params := do
  let r ← resolveAliases PARAM_MAP rawParams
  let r ← requireKey r "amplitude"
    "Missing required parameter: \"amplitude\" (or alias \"A\")."
  let r ← requireKey r "naturalFrequency"
    "Missing required parameter: \"naturalFrequency\" (or alias \"fn\")."
  let r := defaultKeyFrom r "driveAmplitude" "amplitude"
  let r := defaultKeyFrom r "driveFrequency" "naturalFrequency"
  let r := defaultKey r "dampingRatio" (.num (.fin (5 / 100)))
  let r := defaultKey r "phase" (.num (.fin 0))
  pure (defaultKey r "drivePhase" (.num (.fin 0)))

/-- `buildDrivenAssembly`. -/
def buildDrivenAssembly (params : Params) : AssemblyV :=
  let mass : JsNum := .fin 1
  let omega := JsNum.mul (JsNum.mul (.fin 2) (.fin jsPI)) (numField params "naturalFrequency")
  let stiffness := JsNum.mul (JsNum.mul mass omega) omega
  let baseAmplitude := JsNum.max2 (numField params "amplitude") (numField params "driveAmplitude")
  let length := JsNum.mul baseAmplitude (.fin 2)
  { state := .pointMass "1d" mass
    domain := .interval_1d length length ⟨"x", "positive"⟩
    material := .ideal_spring stiffness (some (numField params "dampingRatio"))
    constraints :=
      [.fixed "origin",
       .specified_value "state.phase" "phase" (numField params "phase")]
    forcing :=
      .harmonic_drive (numField params "driveAmplitude")
        (numField params "driveFrequency") (numField params "drivePhase")
    evolution := .damped_shm (numField params "dampingRatio") }

/-- The `DrivenOscillatorAssembly` strict zod schema. -/
def checkDrivenOscillatorAssembly (a : AssemblyV) : List String :=
  checkPointMassState a.state ++ checkInterval1DDomain a.domain ++
    checkIdealSpringMaterial a.material ++ checkConstraints a.constraints ++
    checkHarmonicDriveForcing a.forcing ++ checkDampedShmEvolution a.evolution

def validateStructure (params : Params) : List String :=
  match zodStrictObject DrivenOscillator params with
  | [] => assemblyPrefixed (checkDrivenOscillatorAssembly (buildDrivenAssembly params))
  | errs => errs

def contracts : List (Params → Option String) :=
  [fun p =>
    if (numField p "amplitude").gt (.fin 0) then none
    else some ("amplitude must be > 0, got " ++ (numField p "amplitude").render ++ "."),
   fun p =>
    if (numField p "naturalFrequency").gt (.fin 0) then none
    else some ("naturalFrequency must be > 0, got " ++
      (numField p "naturalFrequency").render ++ "."),
   fun p =>
    if (numField p "driveAmplitude").gt (.fin 0) then none
    else some ("driveAmplitude must be > 0, got " ++
      (numField p "driveAmplitude").render ++ "."),
   fun p =>
    if (numField p "driveFrequency").gt (.fin 0) then none
    else some ("driveFrequency must be > 0, got " ++
      (numField p "driveFrequency").render ++ "."),
   fun p =>
    if (numField p "dampingRatio").ge (.fin 0) then none
    else some ("dampingRatio must be >= 0, got " ++
      (numField p "dampingRatio").render ++ "."),
   fun p =>
    let assembly := buildDrivenAssembly p
    if assembly.evolution.kind ≠ "damped_shm" then
      some ("driven_oscillator requires evolution kind \"damped_shm\", got \"" ++
        assembly.evolution.kind ++ "\".")
    else if assembly.state.kind ≠ "point_mass" ∨ assembly.state.dof ≠ "1d" then
      some "driven_oscillator requires state kind \"point_mass\" with dof \"1d\"."
    else if assembly.domain.kind ≠ "interval_1d" then
      some ("driven_oscillator requires domain kind \"interval_1d\", got \"" ++
        assembly.domain.kind ++ "\".")
    else if assembly.material.kind ≠ "ideal_spring" then
      some ("driven_oscillator requires material kind \"ideal_spring\", got \"" ++
        assembly.material.kind ++ "\".")
    else if assembly.forcing.kind ≠ "harmonic_drive" then
      some ("driven_oscillator requires forcing kind \"harmonic_drive\", got \"" ++
        assembly.forcing.kind ++ "\".")
    else none,
   fun p =>
    let assembly := buildDrivenAssembly p
    if assembly.constraints.any (fun c => c.ctype = "fixed") then none
    else some "driven_oscillator requires at least one fixed constraint."]

end driven_oscillator

/-! ## coupled_oscillators_2mass v1 (unnamed schema module) -/

namespace coupled_oscillators_2mass

def schemaId : String := "coupled_oscillators_2mass"

def schemaVersion : String := "v1"

/-- The `CoupledOscillators2Mass` strict canonical zod schema. -/
def CoupledOscillators2Mass : List FieldSpec :=
  [⟨"mass", true, zPositiveFiniteNumber⟩,
   ⟨"anchorStiffness", true, zPositiveFiniteNumber⟩,
   ⟨"couplingStiffness", true, zPositiveFiniteNumber⟩,
   ⟨"amplitude1", true, zPositiveFiniteNumber⟩,
   ⟨"amplitude2", true, zPositiveFiniteNumber⟩,
   ⟨"phaseOffset", true, zFiniteNumber⟩]

def PARAM_MAP : List (String × String) :=
  [("mass", "mass"), ("m", "mass"),
   ("anchorStiffness", "anchorStiffness"), ("kAnchor", "anchorStiffness"),
   ("couplingStiffness", "couplingStiffness"), ("kCoupling", "couplingStiffness"),
   ("amplitude1", "amplitude1"), ("A1", "amplitude1"),
   ("amplitude2", "amplitude2"), ("A2", "amplitude2"),
   ("phaseOffset", "phaseOffset"), ("deltaPhase", "phaseOffset")]

/-- `result.amplitude2 = result.amplitude1` default (see
`driven_oscillator.defaultKeyFrom`). -/
def defaultKeyFrom (p : Params) (k src : String) : Params :=
  match getKey p k with
  | some _ => p
  | none => setKey p k ((getKey p src).getD (.num .nan))

def normalize (rawParams : List (String × JsVal)) : Except String Params := do
  let r ← resolveAliases PARAM_MAP rawParams
  let r := defaultKey r "mass" (.num (.fin 1))
  let r ← requireKey r "anchorStiffness"
    "Missing required parameter: \"anchorStiffness\" (or alias \"kAnchor\")."
  let r ← requireKey r "couplingStiffness"
    "Missing required parameter: \"couplingStiffness\" (or alias \"kCoupling\")."
  let r ← requireKey r "amplitude1"
    "Missing required parameter: \"amplitude1\" (or alias \"A1\")."
  let r := defaultKeyFrom r "amplitude2" "amplitude1"
  pure (defaultKey r "phaseOffset" (.num (.fin 0)))

/-- `buildCoupledAssembly`. -/
def buildCoupledAssembly (params : Params) : AssemblyV :=
  let characteristicLength :=
    JsNum.mul (.fin 4)
      (JsNum.max2 (numField params "amplitude1") (numField params "amplitude2"))
  let waveSpeed :=
    jsSqrtN (JsNum.div (numField params "couplingStiffness") (numField params "mass"))
  { state := .particleEnsemble 2 (some (numField params "mass"))
    domain := .interval_1d characteristicLength characteristicLength ⟨"x", "positive"⟩
    material := .ideal_spring (numField params "anchorStiffness") (some (.fin 0))
    constraints :=
      [.fixed "left_anchor",
       .fixed "right_anchor",
       .specified_value "coupling" "couplingStiffness" (numField params "couplingStiffness"),
       .specified_value "mode.phaseOffset" "phaseOffset" (numField params "phaseOffset")]
    forcing := .none
    evolution := .wave_equation waveSpeed true }

/-- The `CoupledOscillatorsAssembly` strict zod schema. -/
def checkCoupledOscillatorsAssembly (a : AssemblyV) : List String :=
  checkParticleEnsembleState a.state ++ checkInterval1DDomain a.domain ++
    checkIdealSpringMaterial a.material ++ checkConstraints a.constraints ++
    checkNoForcing a.forcing ++ checkWaveEquationEvolution a.evolution

def validateStructure (params : Params) : List String :=
  match zodStrictObject CoupledOscillators2Mass params with
  | [] => assemblyPrefixed (checkCoupledOscillatorsAssembly (buildCoupledAssembly params))
  | errs => errs

def contracts : List (Params → Option String) :=
  [fun p =>
    if (numField p "mass").gt (.fin 0) then none
    else some ("mass must be > 0, got " ++ (numField p "mass").render ++ "."),
   fun p =>
    if (numField p "anchorStiffness").gt (.fin 0) then none
    else some ("anchorStiffness must be > 0, got " ++
      (numField p "anchorStiffness").render ++ "."),
   fun p =>
    if (numField p "couplingStiffness").gt (.fin 0) then none
    else some ("couplingStiffness must be > 0, got " ++
      (numField p "couplingStiffness").render ++ "."),
   fun p =>
    let assembly := buildCoupledAssembly p
    if assembly.state.kind ≠ "particle_ensemble" ∨ assembly.state.count ≠ 2 then
      some "coupled_oscillators_2mass requires particle_ensemble state with count=2."
    else if assembly.domain.kind ≠ "interval_1d" then
      some ("coupled_oscillators_2mass requires domain kind \"interval_1d\", got \"" ++
        assembly.domain.kind ++ "\".")
    else if assembly.material.kind ≠ "ideal_spring" then
      some ("coupled_oscillators_2mass requires material kind \"ideal_spring\", got \"" ++
        assembly.material.kind ++ "\".")
    else if assembly.forcing.kind ≠ "none" then
      some ("coupled_oscillators_2mass requires forcing kind \"none\", got \"" ++
        assembly.forcing.kind ++ "\".")
    else if assembly.evolution.kind ≠ "wave_equation" then
      some ("coupled_oscillators_2mass requires evolution kind \"wave_equation\", got \"" ++
        assembly.evolution.kind ++ "\".")
    else none,
   fun p =>
    let assembly := buildCoupledAssembly p
    let fixedCount := (assembly.constraints.filter (fun c => c.ctype = "fixed")).length
    if fixedCount < 2 then
      some "coupled_oscillators_2mass requires two fixed anchor constraints."
    else if assembly.constraints.any
        (fun c => c.ctype = "specified_value" ∧ c.quantity = "couplingStiffness") then
      none
    else some "coupled_oscillators_2mass requires a specified couplingStiffness constraint."]

end coupled_oscillators_2mass

/-! ## projectile_motion v1 (src/schemas/scene/projectile_motion.v1.ts) -/

namespace projectile_motion

def schemaId : String := "projectile_motion"

def schemaVersion : String := "v1"

/-- The `ProjectileMotion` strict canonical zod schema. -/
def ProjectileMotion : List FieldSpec :=
  [⟨"initialSpeed", true, zPositiveFiniteNumber⟩,
   ⟨"launchAngleDeg", true, zFiniteOpenRange 0 90⟩,
   ⟨"gravity", true, zPositiveFiniteNumber⟩,
   ⟨"initialHeight", true, zNonNegativeFiniteNumber⟩,
   ⟨"mass", true, zPositiveFiniteNumber⟩,
   ⟨"dragCoefficient", true, zNonNegativeFiniteNumber⟩]

def PARAM_MAP : List (String × String) :=
  [("initialSpeed", "initialSpeed"), ("v0", "initialSpeed"),
   ("launchAngleDeg", "launchAngleDeg"), ("thetaDeg", "launchAngleDeg"),
   ("gravity", "gravity"), ("g", "gravity"),
   ("initialHeight", "initialHeight"), ("h0", "initialHeight"),
   ("mass", "mass"), ("m", "mass"),
   ("dragCoefficient", "dragCoefficient"), ("cd", "dragCoefficient")]

def normalize (rawParams : List (String × JsVal)) : Except String Params := do
  let r ← resolveAliases PARAM_MAP rawParams
  let r ← requireKey r "initialSpeed"
    "Missing required parameter: \"initialSpeed\" (or alias \"v0\")."
  let r ← requireKey r "launchAngleDeg"
    "Missing required parameter: \"launchAngleDeg\" (or alias \"thetaDeg\")."
  let r := defaultKey r "gravity" (.num (.fin (981 / 100)))
  let r := defaultKey r "initialHeight" (.num (.fin 0))
  let r := defaultKey r "mass" (.num (.fin 1))
  pure (defaultKey r "dragCoefficient" (.num (.fin 0)))

/-- `buildProjectileAssembly`, with the results of `Math.cos(thetaRad)` and
`Math.sin(thetaRad)` abstracted as `cosv`/`sinv` so theorems can be proved
for every possible value of the trigonometric stand-ins. -/
def buildProjectileAssemblyWith (cosv sinv : JsNum) (params : Params) : AssemblyV :=
  let vx := JsNum.mul (numField params "initialSpeed") cosv
  let vy := JsNum.mul (numField params "initialSpeed") sinv
  let flightTime :=
    JsNum.div
      (JsNum.add vy
        (jsSqrtN (JsNum.add (JsNum.mul vy vy)
          (JsNum.mul (JsNum.mul (.fin 2) (numField params "gravity"))
            (numField params "initialHeight")))))
      (numField params "gravity")
  let range := JsNum.max2 (.fin 1) (JsNum.mul vx flightTime)
  let maxHeight :=
    JsNum.add (numField params "initialHeight")
      (JsNum.div (JsNum.mul vy vy)
        (JsNum.mul (.fin 2) (numField params "gravity")))
  { state := .pointMass "2d" (numField params "mass")
    domain :=
      .rect_2d (JsNum.max3 range maxHeight (.fin 1))
        (JsNum.max2 (JsNum.mul range (.fin (11 / 10))) (.fin 1))
        (JsNum.max2 (JsNum.mul maxHeight (.fin (12 / 10))) (.fin 1))
        ⟨"x", "positive"⟩
    material := .inertial_particle (numField params "dragCoefficient")
    constraints :=
      [.specified_value "state.y0" "initialHeight" (numField params "initialHeight"),
       .free "state.trajectory"]
    forcing :=
      .constant_field "gravity" (JsNum.neg (numField params "gravity")) (some "y")
    evolution := .kinematic true "inertial" }

/-- `const thetaRad = (params.launchAngleDeg * Math.PI) / 180`. -/
def thetaRad (params : Params) : JsNum :=
  JsNum.div (JsNum.mul (numField params "launchAngleDeg") (.fin jsPI)) (.fin 180)

/-- `buildProjectileAssembly` proper: instantiate the trig values with the
stand-ins. -/
def buildProjectileAssembly (params : Params) : AssemblyV :=
  buildProjectileAssemblyWith (jsCosN (thetaRad params)) (jsSinN (thetaRad params)) params

/-- The `ProjectileAssembly` strict zod schema. -/
def checkProjectileAssembly (a : AssemblyV) : List String :=
  checkPointMassState a.state ++ checkRect2DDomain a.domain ++
    checkInertialParticleMaterial a.material ++ checkConstraints a.constraints ++
    checkConstantFieldForcing a.forcing ++ checkKinematicEvolution a.evolution

def validateStructure (params : Params) : List String :=
  match zodStrictObject ProjectileMotion params with
  | [] => assemblyPrefixed (checkProjectileAssembly (buildProjectileAssembly params))
  | errs => errs

def contracts : List (Params → Option String) :=
  [fun p =>
    if (numField p "initialSpeed").gt (.fin 0) then none
    else some ("initialSpeed must be > 0, got " ++ (numField p "initialSpeed").render ++ "."),
   fun p =>
    if (numField p "gravity").gt (.fin 0) then none
    else some ("gravity must be > 0, got " ++ (numField p "gravity").render ++ "."),
   fun p =>
    if (numField p "launchAngleDeg").gt (.fin 0) ∧ (numField p "launchAngleDeg").lt (.fin 90)
    then none
    else some ("launchAngleDeg must be in (0, 90), got " ++
      (numField p "launchAngleDeg").render ++ "."),
   fun p =>
    let assembly := buildProjectileAssembly p
    if assembly.state.kind ≠ "point_mass" ∨ assembly.state.dof ≠ "2d" then
      some "projectile_motion requires a 2D point_mass state."
    else if assembly.domain.kind ≠ "rect_2d" then
      some ("projectile_motion requires domain kind \"rect_2d\", got \"" ++
        assembly.domain.kind ++ "\".")
    else if assembly.material.kind ≠ "inertial_particle" then
      some ("projectile_motion requires material kind \"inertial_particle\", got \"" ++
        assembly.material.kind ++ "\".")
    else if assembly.forcing.kind ≠ "constant_field" ∨ assembly.forcing.quantity ≠ "gravity"
    then some "projectile_motion requires constant_field forcing with quantity=gravity."
    else if assembly.evolution.kind ≠ "kinematic" then
      some ("projectile_motion requires evolution kind \"kinematic\", got \"" ++
        assembly.evolution.kind ++ "\".")
    else none,
   fun p =>
    let assembly := buildProjectileAssembly p
    if assembly.constraints.any
        (fun c => c.ctype = "specified_value" ∧ c.quantity = "initialHeight") then
      none
    else some "projectile_motion requires a specified initialHeight constraint."]

end projectile_motion

/-! ## uniform_circular_motion v1 (src/schemas/scene/uniform_circular_motion.v1.ts) -/

namespace uniform_circular_motion

def schemaId : String := "uniform_circular_motion"

def schemaVersion : String := "v1"

/-- The `UniformCircularMotion` strict canonical zod schema. -/
def UniformCircularMotion : List FieldSpec :=
  [⟨"radius", true, zPositiveFiniteNumber⟩,
   ⟨"angularSpeed", true, zPositiveFiniteNumber⟩,
   ⟨"phase", true, zFiniteNumber⟩,
   ⟨"mass", true, zPositiveFiniteNumber⟩,
   ⟨"plane", true, zEnum ["xy", "xz", "yz"]⟩]

def PARAM_MAP : List (String × String) :=
  [("radius", "radius"), ("r", "radius"),
   ("angularSpeed", "angularSpeed"), ("omega", "angularSpeed"),
   ("phase", "phase"),
   ("mass", "mass"), ("m", "mass"),
   ("plane", "plane")]

def normalize (rawParams : List (String × JsVal)) : Except String Params := do
  let r ← resolveAliases PARAM_MAP rawParams
  let r ← requireKey r "radius"
    "Missing required parameter: \"radius\" (or alias \"r\")."
  let r ← requireKey r "angularSpeed"
    "Missing required parameter: \"angularSpeed\" (or alias \"omega\")."
  let r := defaultKey r "phase" (.num (.fin 0))
  let r := defaultKey r "mass" (.num (.fin 1))
  pure (defaultKey r "plane" (.str "xy"))

/-- `buildUniformCircularAssembly`. -/
def buildUniformCircularAssembly (params : Params) : AssemblyV :=
  let size := JsNum.max2 (JsNum.mul (numField params "radius") (.fin 4)) (.fin 1)
  { state := .pointMass "3d" (numField params "mass")
    domain := .box_3d size size size size ⟨"z", "positive"⟩
    material := .inertial_particle (.fin 0)
    constraints :=
      [.periodic "trajectory" "trajectory_start",
       .specified_value "orbit.radius" "radius" (numField params "radius")]
    forcing := .none
    evolution := .uniform_circular true (strField params "plane") }

/-- The `UniformCircularAssembly` strict zod schema. -/
def checkUniformCircularAssembly (a : AssemblyV) : List String :=
  checkPointMassState a.state ++ checkBox3DDomain a.domain ++
    checkInertialParticleMaterial a.material ++ checkConstraints a.constraints ++
    checkNoForcing a.forcing ++ checkUniformCircularEvolution a.evolution

def validateStructure (params : Params) : List String :=
  match zodStrictObject UniformCircularMotion params with
  | [] => assemblyPrefixed (checkUniformCircularAssembly (buildUniformCircularAssembly params))
  | errs => errs

def contracts : List (Params → Option String) :=
  [fun p =>
    if (numField p "radius").gt (.fin 0) then none
    else some ("radius must be > 0, got " ++ (numField p "radius").render ++ "."),
   fun p =>
    if (numField p "angularSpeed").gt (.fin 0) then none
    else some ("angularSpeed must be > 0, got " ++ (numField p "angularSpeed").render ++ "."),
   fun p =>
    let assembly := buildUniformCircularAssembly p
    if assembly.state.kind ≠ "point_mass" ∨ assembly.state.dof ≠ "3d" then
      some "uniform_circular_motion requires a 3D point_mass state."
    else if assembly.domain.kind ≠ "box_3d" then
      some ("uniform_circular_motion requires domain kind \"box_3d\", got \"" ++
        assembly.domain.kind ++ "\".")
    else if assembly.material.kind ≠ "inertial_particle" then
      some ("uniform_circular_motion requires material kind \"inertial_particle\", got \"" ++
        assembly.material.kind ++ "\".")
    else if assembly.forcing.kind ≠ "none" then
      some ("uniform_circular_motion requires forcing kind \"none\", got \"" ++
        assembly.forcing.kind ++ "\".")
    else if assembly.evolution.kind ≠ "uniform_circular" then
      some ("uniform_circular_motion requires evolution kind \"uniform_circular\", got \"" ++
        assembly.evolution.kind ++ "\".")
    else none,
   fun p =>
    let assembly := buildUniformCircularAssembly p
    if assembly.constraints.any (fun c => c.ctype = "periodic") then none
    else some "uniform_circular_motion requires a periodic trajectory constraint."]

end uniform_circular_motion

/-! ## kepler_two_body_orbit v1 (src/schemas/scene/kepler_two_body_orbit.v1.ts) -/

namespace kepler_two_body_orbit

def schemaId : String := "kepler_two_body_orbit"

def schemaVersion : String := "v1"

/-- The `KeplerTwoBodyOrbit` strict canonical zod schema. -/
def KeplerTwoBodyOrbit : List FieldSpec :=
  [⟨"semiMajorAxis", true, zPositiveFiniteNumber⟩,
   ⟨"eccentricity", true, zFiniteMinLt 0 1⟩,
   ⟨"gravitationalParameter", true, zPositiveFiniteNumber⟩,
   ⟨"phase", true, zFiniteNumber⟩,
   ⟨"inclinationDeg", true, zFiniteClosedRange 0 180⟩]

def PARAM_MAP : List (String × String) :=
  [("semiMajorAxis", "semiMajorAxis"), ("a", "semiMajorAxis"),
   ("eccentricity", "eccentricity"), ("e", "eccentricity"),
   ("gravitationalParameter", "gravitationalParameter"), ("mu", "gravitationalParameter"),
   ("phase", "phase"),
   ("inclinationDeg", "inclinationDeg"), ("inclination", "inclinationDeg")]

def normalize (rawParams : List (String × JsVal)) : Except String Params := do
  let r ← resolveAliases PARAM_MAP rawParams
  let r ← requireKey r "semiMajorAxis"
    "Missing required parameter: \"semiMajorAxis\" (or alias \"a\")."
  let r ← requireKey r "eccentricity"
    "Missing required parameter: \"eccentricity\" (or alias \"e\")."
  let r ← requireKey r "gravitationalParameter"
    "Missing required parameter: \"gravitationalParameter\" (or alias \"mu\")."
  let r := defaultKey r "phase" (.num (.fin 0))
  pure (defaultKey r "inclinationDeg" (.num (.fin 0)))

/-- `buildKeplerAssembly`. -/
def buildKeplerAssembly (params : Params) : AssemblyV :=
  let apoapsis :=
    JsNum.mul (numField params "semiMajorAxis")
      (JsNum.add (.fin 1) (numField params "eccentricity"))
  let size := JsNum.max2 (JsNum.mul apoapsis (.fin 4)) (.fin 1)
  { state := .particleEnsemble 2 (some (.fin 1))
    domain := .box_3d size size size size ⟨"z", "positive"⟩
    material := .inertial_particle (.fin 0)
    constraints := [.fixed "primary", .free "secondary"]
    forcing :=
      .central_inverse_square (numField params "gravitationalParameter")
        (.fin 0, .fin 0, .fin 0)
    evolution := .orbital_two_body true "inertial" }

/-- The `KeplerAssembly` strict zod schema. -/
def checkKeplerAssembly (a : AssemblyV) : List String :=
  checkParticleEnsembleState a.state ++ checkBox3DDomain a.domain ++
    checkInertialParticleMaterial a.material ++ checkConstraints a.constraints ++
    checkCentralInverseSquareForcing a.forcing ++ checkOrbitalTwoBodyEvolution a.evolution

def validateStructure (params : Params) : List String :=
  match zodStrictObject KeplerTwoBodyOrbit params with
  | [] => assemblyPrefixed (checkKeplerAssembly (buildKeplerAssembly params))
  | errs => errs

def contracts : List (Params → Option String) :=
  [fun p =>
    if (numField p "semiMajorAxis").gt (.fin 0) then none
    else some ("semiMajorAxis must be > 0, got " ++ (numField p "semiMajorAxis").render ++ "."),
   fun p =>
    if (numField p "eccentricity").ge (.fin 0) ∧ (numField p "eccentricity").lt (.fin 1)
    then none
    else some ("eccentricity must satisfy 0 <= e < 1, got " ++
      (numField p "eccentricity").render ++ "."),
   fun p =>
    if (numField p "gravitationalParameter").gt (.fin 0) then none
    else some ("gravitationalParameter must be > 0, got " ++
      (numField p "gravitationalParameter").render ++ "."),
   fun p =>
    let assembly := buildKeplerAssembly p
    if assembly.state.kind ≠ "particle_ensemble" ∨ assembly.state.count ≠ 2 then
      some "kepler_two_body_orbit requires particle_ensemble state with count=2."
    else if assembly.domain.kind ≠ "box_3d" then
      some ("kepler_two_body_orbit requires domain kind \"box_3d\", got \"" ++
        assembly.domain.kind ++ "\".")
    else if assembly.material.kind ≠ "inertial_particle" then
      some ("kepler_two_body_orbit requires material kind \"inertial_particle\", got \"" ++
        assembly.material.kind ++ "\".")
    else if assembly.forcing.kind ≠ "central_inverse_square" then
      some ("kepler_two_body_orbit requires forcing kind \"central_inverse_square\", got \"" ++
        assembly.forcing.kind ++ "\".")
    else if assembly.evolution.kind ≠ "orbital_two_body" then
      some ("kepler_two_body_orbit requires evolution kind \"orbital_two_body\", got \"" ++
        assembly.evolution.kind ++ "\".")
    else none,
   fun p =>
    let assembly := buildKeplerAssembly p
    if assembly.constraints.any (fun c => c.ctype = "fixed" ∧ c.target = "primary") then none
    else some "kepler_two_body_orbit requires a fixed primary-body constraint."]

end kepler_two_body_orbit

/-! ## laminar_internal_flow v1 (src/schemas/scene/laminar_internal_flow.v1.ts) -/

namespace laminar_internal_flow

def schemaId : String := "laminar_internal_flow"

def schemaVersion : String := "v1"

/-- The `LaminarInternalFlow` strict canonical zod schema. -/
def LaminarInternalFlow : List FieldSpec :=
  [⟨"geometryType", true, zEnum ["pipe", "channel", "rectangular_duct", "annulus"]⟩,
   ⟨"length", true, zPositiveFiniteNumber⟩,
   ⟨"hydraulicDiameter", true, zPositiveFiniteNumber⟩,
   ⟨"pipeRadius", false, zPositiveFiniteNumber⟩,
   ⟨"pipeDiameter", false, zPositiveFiniteNumber⟩,
   ⟨"channelWidth", false, zPositiveFiniteNumber⟩,
   ⟨"channelHeight", false, zPositiveFiniteNumber⟩,
   ⟨"rectangularWidth", false, zPositiveFiniteNumber⟩,
   ⟨"rectangularHeight", false, zPositiveFiniteNumber⟩,
   ⟨"annulusInnerDiameter", false, zPositiveFiniteNumber⟩,
   ⟨"annulusOuterDiameter", false, zPositiveFiniteNumber⟩,
   ⟨"density", true, zPositiveFiniteNumber⟩,
   ⟨"dynamicViscosity", true, zPositiveFiniteNumber⟩,
   ⟨"reynoldsNumber", true, zFiniteNumber⟩,
   ⟨"drivingMechanism", true, zEnum ["velocity-driven", "pressure-driven"]⟩,
   ⟨"meanVelocity", false, zPositiveFiniteNumber⟩,
   ⟨"pressureGradient", false, zFiniteNumber⟩,
   ⟨"transient", true, zBoolean⟩,
   ⟨"thermalConductivity", false, zPositiveFiniteNumber⟩,
   ⟨"specificHeat", false, zPositiveFiniteNumber⟩]

def PARAM_MAP : List (String × String) :=
  [("geometryType", "geometryType"),
   ("length", "length"), ("L", "length"),
   ("hydraulicDiameter", "hydraulicDiameter"), ("Dh", "hydraulicDiameter"),
   ("pipeRadius", "pipeRadius"), ("radius", "pipeRadius"), ("r", "pipeRadius"),
   ("pipeDiameter", "pipeDiameter"), ("diameter", "pipeDiameter"), ("D", "pipeDiameter"),
   ("channelWidth", "channelWidth"),
   ("channelHeight", "channelHeight"),
   ("rectangularWidth", "rectangularWidth"),
   ("rectangularHeight", "rectangularHeight"),
   ("annulusInnerDiameter", "annulusInnerDiameter"), ("innerDiameter", "annulusInnerDiameter"),
   ("annulusOuterDiameter", "annulusOuterDiameter"), ("outerDiameter", "annulusOuterDiameter"),
   ("density", "density"), ("rho", "density"),
   ("dynamicViscosity", "dynamicViscosity"), ("mu", "dynamicViscosity"),
   ("reynoldsNumber", "reynoldsNumber"), ("Re", "reynoldsNumber"),
   ("drivingMechanism", "drivingMechanism"),
   ("meanVelocity", "meanVelocity"), ("U", "meanVelocity"),
   ("pressureGradient", "pressureGradient"), ("dPdx", "pressureGradient"),
   ("transient", "transient"),
   ("thermalConductivity", "thermalConductivity"),
   ("specificHeat", "specificHeat")]

/-- `deriveHydraulicDiameter`: per-geometry derivation with the source's fixed
precedence (pipe: radius before diameter before hydraulic diameter) and
silent overwriting of the lower-precedence fields. -/
def deriveHydraulicDiameter (result : Params) : Except String Params :=
  if strField result "geometryType" = "pipe" then
    match getKey result "pipeRadius" with
    | some vr =>
      let d : JsNum := JsNum.mul (.fin 2) vr.toNum
      let result := setKey result "pipeDiameter" (.num d)
      .ok (setKey result "hydraulicDiameter" (.num d))
    | none =>
      match getKey result "pipeDiameter" with
      | some vd =>
        let result := setKey result "pipeRadius" (.num (JsNum.div vd.toNum (.fin 2)))
        .ok (setKey result "hydraulicDiameter" vd)
      | none =>
        match getKey result "hydraulicDiameter" with
        | some vh =>
          let result := setKey result "pipeDiameter" vh
          .ok (setKey result "pipeRadius" (.num (JsNum.div vh.toNum (.fin 2))))
        | none =>
          .error "Pipe geometry requires one of: \"pipeRadius\", \"pipeDiameter\", or \"hydraulicDiameter\"."
  else if strField result "geometryType" = "annulus" then
    match getKey result "annulusInnerDiameter", getKey result "annulusOuterDiameter" with
    | some vi, some vo =>
      .ok (setKey result "hydraulicDiameter" (.num (JsNum.sub vo.toNum vi.toNum)))
    | _, _ =>
      if (getKey result "hydraulicDiameter").isSome then .ok result
      else .error "Annulus geometry requires \"annulusInnerDiameter\" + \"annulusOuterDiameter\", or explicit \"hydraulicDiameter\"."
  else if strField result "geometryType" = "channel" then
    match getKey result "channelWidth", getKey result "channelHeight" with
    | some vw, some vh =>
      .ok (setKey result "hydraulicDiameter"
        (.num (JsNum.div (JsNum.mul (JsNum.mul (.fin 2) vw.toNum) vh.toNum)
          (JsNum.add vw.toNum vh.toNum))))
    | _, _ =>
      if (getKey result "hydraulicDiameter").isSome then .ok result
      else .error "Channel geometry requires \"channelWidth\" + \"channelHeight\", or explicit \"hydraulicDiameter\"."
  else if strField result "geometryType" = "rectangular_duct" then
    match getKey result "rectangularWidth", getKey result "rectangularHeight" with
    | some vw, some vh =>
      .ok (setKey result "hydraulicDiameter"
        (.num (JsNum.div (JsNum.mul (JsNum.mul (.fin 2) vw.toNum) vh.toNum)
          (JsNum.add vw.toNum vh.toNum))))
    | _, _ =>
      .error "Rectangular duct geometry requires \"rectangularWidth\" and \"rectangularHeight\"."
  else .ok result

def normalize (rawParams : List (String × JsVal)) : Except String Params := do
  let r ← resolveAliases PARAM_MAP rawParams
  let r := defaultKey r "geometryType" (.str "pipe")
  let r ← requireKey r "length"
    "Missing required parameter: \"length\" (or alias \"L\")."
  let r ← deriveHydraulicDiameter r
  let r ← requireKey r "density"
    "Missing required parameter: \"density\" (or alias \"rho\")."
  let r ← requireKey r "dynamicViscosity"
    "Missing required parameter: \"dynamicViscosity\" (or alias \"mu\")."
  let r ← requireKey r "reynoldsNumber"
    "Missing required parameter: \"reynoldsNumber\" (or alias \"Re\")."
  let r := defaultKey r "drivingMechanism" (.str "velocity-driven")
  pure (defaultKey r "transient" (.bool false))

/-- `a ?? b` on two parameter reads, coerced to a number for an assembly
field. -/
def coalesceNum (p : Params) (k1 k2 : String) : JsNum :=
  match getKey p k1 with
  | some v => v.toNum
  | none => numField p k2

/-- `buildLaminarAssembly`. -/
def buildLaminarAssembly (params : Params) : AssemblyV :=
  let pipeDiameter := coalesceNum params "pipeDiameter" "hydraulicDiameter"
  let channelWidth := coalesceNum params "channelWidth" "hydraulicDiameter"
  let channelHeight :=
    match getKey params "channelHeight" with
    | some v => v.toNum
    | none => JsNum.div (numField params "hydraulicDiameter") (.fin 2)
  let rectangularWidth :=
    match getKey params "rectangularWidth" with
    | some v => v.toNum
    | none => channelWidth
  let rectangularHeight :=
    match getKey params "rectangularHeight" with
    | some v => v.toNum
    | none => channelHeight
  let annulusOuterDiameter := coalesceNum params "annulusOuterDiameter" "hydraulicDiameter"
  let annulusInnerDiameter := optNumField params "annulusInnerDiameter"
  let domain : DomainV :=
    if strField params "geometryType" = "pipe" then
      .pipe (numField params "hydraulicDiameter") (numField params "length")
        pipeDiameter ⟨"x", "positive"⟩
    else if strField params "geometryType" = "annulus" then
      .pipe (numField params "hydraulicDiameter") (numField params "length")
        annulusOuterDiameter ⟨"x", "positive"⟩
    else
      .channel (numField params "hydraulicDiameter") (numField params "length")
        (if strField params "geometryType" = "rectangular_duct" then rectangularWidth
         else channelWidth)
        (if strField params "geometryType" = "rectangular_duct" then rectangularHeight
         else channelHeight)
        ⟨"x", "positive"⟩
  let inletQuantity :=
    if strField params "drivingMechanism" = "velocity-driven" then "meanVelocity"
    else "pressureGradient"
  let inletValue :=
    if strField params "drivingMechanism" = "velocity-driven" then
      match getKey params "meanVelocity" with
      | some v => v.toNum
      | none => .fin 0
    else
      match getKey params "pressureGradient" with
      | some v => v.toNum
      | none => .fin 0
  let baseConstraints : List ConstraintV :=
    [.no_slip "walls",
     .specified_value "inlet" inletQuantity inletValue,
     .specified_value "outlet" "referencePressure" (.fin 0)]
  let constraints :=
    match annulusInnerDiameter with
    | some inner =>
      if strField params "geometryType" = "annulus" then
        baseConstraints ++
          [.no_slip "inner_wall",
           .specified_value "geometry.annulus.innerDiameter" "innerDiameter" inner]
      else baseConstraints
    | none => baseConstraints
  { state := .fieldVector "3d" 3
    domain := domain
    material :=
      .newtonian_fluid (numField params "density") (numField params "dynamicViscosity")
        (optNumField params "thermalConductivity") (optNumField params "specificHeat")
    constraints := constraints
    forcing :=
      if strField params "drivingMechanism" = "pressure-driven" then
        .pressure_gradient
          (match getKey params "pressureGradient" with
           | some v => v.toNum
           | none => .fin 0) "x"
      else .none
    evolution := .navier_stokes true true (boolField params "transient") }

/-- The `LaminarFlowAssembly` strict zod schema. -/
def checkLaminarFlowAssembly (a : AssemblyV) : List String :=
  checkFieldVectorState a.state ++ checkPipeOrChannelDomain a.domain ++
    checkNewtonianFluidMaterial a.material ++ checkConstraints a.constraints ++
    checkNoOrPressureGradientForcing a.forcing ++ checkNavierStokesEvolution a.evolution

def validateStructure (params : Params) : List String :=
  match zodStrictObject LaminarInternalFlow params with
  | [] => assemblyPrefixed (checkLaminarFlowAssembly (buildLaminarAssembly params))
  | errs => errs

/-- `p.pressureGradient === 0`: strict equality of a JS value with the number
zero. -/
def isJsZero : JsVal → Bool
  | .num (.fin q) => q = 0
  | _ => false

def contracts : List (Params → Option String) :=
  [fun p =>
    if (numField p "reynoldsNumber").ge (.fin 0) then none
    else some ("reynoldsNumber must be >= 0, got " ++ (numField p "reynoldsNumber").render ++ "."),
   fun p =>
    if (numField p "reynoldsNumber").lt (.fin 2300) then none
    else some ("laminar_internal_flow requires Reynolds number < 2300, got " ++
      (numField p "reynoldsNumber").render ++ "."),
   fun p =>
    if strField p "geometryType" = "annulus" then
      match getKey p "annulusInnerDiameter", getKey p "annulusOuterDiameter" with
      | some vi, some vo =>
        if vo.toNum.le vi.toNum then
          some ("Annulus geometry requires annulusOuterDiameter > annulusInnerDiameter (got " ++
            vo.toNum.render ++ " <= " ++ vi.toNum.render ++ ").")
        else none
      | _, _ =>
        some "Annulus geometry requires both \"annulusInnerDiameter\" and \"annulusOuterDiameter\"."
    else none,
   fun p =>
    if strField p "geometryType" = "rectangular_duct" then
      if (getKey p "rectangularWidth").isSome ∧ (getKey p "rectangularHeight").isSome then none
      else some "Rectangular duct geometry requires both \"rectangularWidth\" and \"rectangularHeight\"."
    else none,
   fun p =>
    if strField p "geometryType" = "channel" then
      let hasExplicitPair := (getKey p "channelWidth").isSome && (getKey p "channelHeight").isSome
      if !hasExplicitPair && (getKey p "hydraulicDiameter").isNone then
        some "Channel geometry requires \"channelWidth\" + \"channelHeight\" or explicit \"hydraulicDiameter\"."
      else none
    else none,
   fun p =>
    if strField p "drivingMechanism" = "velocity-driven" then
      match getKey p "meanVelocity" with
      | none => some "velocity-driven flow requires \"meanVelocity\" > 0."
      | some v =>
        if v.toNum.le (.fin 0) then some "velocity-driven flow requires \"meanVelocity\" > 0."
        else if (getKey p "pressureGradient").isSome then
          some "velocity-driven flow must not set \"pressureGradient\"."
        else none
    else none,
   fun p =>
    if strField p "drivingMechanism" = "pressure-driven" then
      match getKey p "pressureGradient" with
      | none => some "pressure-driven flow requires non-zero \"pressureGradient\"."
      | some v =>
        if isJsZero v then some "pressure-driven flow requires non-zero \"pressureGradient\"."
        else if (getKey p "meanVelocity").isSome then
          some "pressure-driven flow must not set \"meanVelocity\"."
        else none
    else none,
   fun p =>
    let assembly := buildLaminarAssembly p
    if assembly.state.kind ≠ "field_vector" ∨ assembly.state.dimension ≠ "3d" then
      some "laminar_internal_flow requires a 3D field_vector state."
    else if assembly.material.kind ≠ "newtonian_fluid" then
      some ("laminar_internal_flow requires material kind \"newtonian_fluid\", got \"" ++
        assembly.material.kind ++ "\".")
    else if assembly.evolution.kind ≠ "navier_stokes" ∨ ¬assembly.evolution.incompressible ∨
        ¬assembly.evolution.newtonian then
      some "laminar_internal_flow requires incompressible Newtonian Navier-Stokes evolution descriptor."
    else if strField p "drivingMechanism" = "pressure-driven" ∧
        assembly.forcing.kind ≠ "pressure_gradient" then
      some "pressure-driven laminar flow requires pressure_gradient forcing."
    else if strField p "drivingMechanism" = "velocity-driven" ∧ assembly.forcing.kind ≠ "none"
    then some "velocity-driven laminar flow requires no external forcing descriptor."
    else none]

end laminar_internal_flow

/-! ## fluid_system v1 (unnamed schema module) -/

namespace fluid_system

def schemaId : String := "fluid_system"

def schemaVersion : String := "v1"

/-- Check a `JsVal` against a strict zod object given by field specs
(`undefined`/non-objects fail as zod type errors do). -/
def zodObjVal (fields : List FieldSpec) : JsVal → List String
  | .obj p => zodStrictObject fields p
  | _ => ["must be an object"]

/-- Turn a strict-object check into a `FieldSpec` check for a nested object
field (one summarizing issue; emptiness is what matters). -/
def nestedObj (fields : List FieldSpec) : JsVal → Option String :=
  fun v =>
    match zodObjVal fields v with
    | [] => none
    | e :: _ => some e

/-- `z.literal(s)` for a string literal discriminator. -/
def zStrLiteral (s : String) : JsVal → Option String :=
  fun v =>
    match v with
    | .str t => if t = s then none else some ("expected literal " ++ s)
    | _ => some ("expected literal " ++ s)

/-- `z.string()` (any string). -/
def zString : JsVal → Option String
  | .str _ => none
  | _ => some "must be a string"

/-- The `Orientation` zod object. -/
def OrientationFields : List FieldSpec :=
  [⟨"axis", true, zEnum ["x", "y", "z"]⟩,
   ⟨"direction", true, zEnum ["positive", "negative"]⟩]

/-- `PipeGeometry` dimensions. -/
def PipeDimensionsFields : List FieldSpec :=
  [⟨"length", true, zPositiveFiniteNumber⟩,
   ⟨"diameter", true, zPositiveFiniteNumber⟩]

/-- `ChannelGeometry`/`CavityGeometry` dimensions. -/
def BoxDimensionsFields : List FieldSpec :=
  [⟨"length", true, zPositiveFiniteNumber⟩,
   ⟨"width", true, zPositiveFiniteNumber⟩,
   ⟨"height", true, zPositiveFiniteNumber⟩]

/-- `PlateGeometry` dimensions. -/
def PlateDimensionsFields : List FieldSpec :=
  [⟨"length", true, zPositiveFiniteNumber⟩,
   ⟨"width", true, zPositiveFiniteNumber⟩]

/-- `PipeGeometry` zod schema. -/
def PipeGeometry : List FieldSpec :=
  [⟨"type", true, zStrLiteral "pipe"⟩,
   ⟨"characteristicLength", true, zPositiveFiniteNumber⟩,
   ⟨"dimensions", true, nestedObj PipeDimensionsFields⟩,
   ⟨"orientation", true, nestedObj OrientationFields⟩]

/-- `ChannelGeometry` zod schema. -/
def ChannelGeometry : List FieldSpec :=
  [⟨"type", true, zStrLiteral "channel"⟩,
   ⟨"characteristicLength", true, zPositiveFiniteNumber⟩,
   ⟨"dimensions", true, nestedObj BoxDimensionsFields⟩,
   ⟨"orientation", true, nestedObj OrientationFields⟩]

/-- `PlateGeometry` zod schema. -/
def PlateGeometry : List FieldSpec :=
  [⟨"type", true, zStrLiteral "plate"⟩,
   ⟨"characteristicLength", true, zPositiveFiniteNumber⟩,
   ⟨"dimensions", true, nestedObj PlateDimensionsFields⟩,
   ⟨"orientation", true, nestedObj OrientationFields⟩]

/-- `CavityGeometry` zod schema. -/
def CavityGeometry : List FieldSpec :=
  [⟨"type", true, zStrLiteral "cavity"⟩,
   ⟨"characteristicLength", true, zPositiveFiniteNumber⟩,
   ⟨"dimensions", true, nestedObj BoxDimensionsFields⟩,
   ⟨"orientation", true, nestedObj OrientationFields⟩]

/-- `Geometry = z.discriminatedUnion("type", [...])`. -/
def checkGeometry : JsVal → List String
  | .obj p =>
    match strField p "type" with
    | "pipe" => zodStrictObject PipeGeometry p
    | "channel" => zodStrictObject ChannelGeometry p
    | "plate" => zodStrictObject PlateGeometry p
    | "cavity" => zodStrictObject CavityGeometry p
    | _ => ["type: invalid discriminator value"]
  | _ => ["must be an object"]

/-- `FluidProperties` zod schema. -/
def FluidProperties : List FieldSpec :=
  [⟨"density", true, zPositiveFiniteNumber⟩,
   ⟨"dynamicViscosity", true, zPositiveFiniteNumber⟩,
   ⟨"thermalConductivity", false, zPositiveFiniteNumber⟩,
   ⟨"specificHeat", false, zPositiveFiniteNumber⟩]

/-- `BoundaryConditionType` enum options. -/
def boundaryConditionTypes : List String :=
  ["no-slip", "slip", "specified-velocity", "specified-pressure", "symmetry"]

/-- `BoundaryConditions` zod schema. -/
def BoundaryConditions : List FieldSpec :=
  [⟨"inlet", true, zEnum boundaryConditionTypes⟩,
   ⟨"outlet", true, zEnum boundaryConditionTypes⟩,
   ⟨"walls", true, zEnum boundaryConditionTypes⟩]

/-- `FlowConfiguration` zod schema. -/
def FlowConfiguration : List FieldSpec :=
  [⟨"drivingMechanism", true, zEnum ["pressure-driven", "velocity-driven"]⟩,
   ⟨"inletVelocity", false, zFiniteNumber⟩,
   ⟨"pressureGradient", false, zFiniteNumber⟩,
   ⟨"boundaryConditions", true, nestedObj BoundaryConditions⟩,
   ⟨"transient", true, zBoolean⟩]

/-- `FlowRegime` zod schema. -/
def FlowRegime : List FieldSpec :=
  [⟨"reynoldsNumber", true, zFiniteNumber⟩,
   ⟨"regimeType", true, zEnum ["laminar", "transitional", "turbulent"]⟩,
   ⟨"turbulenceModel", false, zString⟩]

def PARAM_MAP : List (String × String) :=
  [("geometry", "geometry"),
   ("fluidProperties", "fluidProperties"),
   ("flowConfiguration", "flowConfiguration"),
   ("flowRegime", "flowRegime")]

def normalize (rawParams : List (String × JsVal)) : Except String Params := do
  let r ← resolveAliases PARAM_MAP rawParams
  let r ← requireKey r "geometry" "Missing required parameter: \"geometry\"."
  let r ← requireKey r "fluidProperties" "Missing required parameter: \"fluidProperties\"."
  let r ← requireKey r "flowConfiguration" "Missing required parameter: \"flowConfiguration\"."
  requireKey r "flowRegime" "Missing required parameter: \"flowRegime\"."

/-- One `X.safeParse(params.x)` step of the source's `validateStructure`:
push `x invalid: <first issue>` when the parse fails. -/
def parseStep (label : String) (issues : List String) : List String :=
  match issues with
  | [] => []
  | e :: _ => [label ++ " invalid: " ++ e]

/-- `validateStructure`: parse the four components; extra top-level keys are
never examined (material to claim C3). -/
def validateStructure (params : Params) : List String :=
  parseStep "geometry"
      (match getKey params "geometry" with
       | some v => checkGeometry v
       | none => ["required"]) ++
    parseStep "fluidProperties"
      (match getKey params "fluidProperties" with
       | some v => zodObjVal FluidProperties v
       | none => ["required"]) ++
    parseStep "flowConfiguration"
      (match getKey params "flowConfiguration" with
       | some v => zodObjVal FlowConfiguration v
       | none => ["required"]) ++
    parseStep "flowRegime"
      (match getKey params "flowRegime" with
       | some v => zodObjVal FlowRegime v
       | none => ["required"])

/-- JS nested read `params.k1.k2` (`none` models `undefined`; a `TypeError`
on a non-object `k1` is unreachable because contracts run only after
`validateStructure` certified the four components are objects). -/
def nestedGet (p : Params) (k1 k2 : String) : Option JsVal :=
  match getKey p k1 with
  | some (.obj q) => getKey q k2
  | _ => none

/-- Nested numeric read with JS coercion. -/
def nestedNum (p : Params) (k1 k2 : String) : JsNum :=
  match nestedGet p k1 k2 with
  | some v => v.toNum
  | none => .nan

/-- Nested string read (`""` models `undefined`/non-strings). -/
def nestedStr (p : Params) (k1 k2 : String) : String :=
  match nestedGet p k1 k2 with
  | some (.str s) => s
  | _ => ""

/-- `TURBULENCE_MODELS` in the source's `Array.from` insertion order. -/
def TURBULENCE_MODELS : List String := ["k-epsilon", "k-omega", "spalart-allmaras"]

def contracts : List (Params → Option String) :=
  [fun p =>
    if (nestedNum p "flowRegime" "reynoldsNumber").ge (.fin 0) then none
    else some ("reynoldsNumber must be >= 0, got " ++
      (nestedNum p "flowRegime" "reynoldsNumber").render ++ "."),
   fun p =>
    match nestedGet p "flowRegime" "turbulenceModel" with
    | none => none
    | some _ =>
      if nestedStr p "flowRegime" "regimeType" ≠ "turbulent" then
        some ("turbulenceModel is only allowed when regimeType is \"turbulent\", got \"" ++
          nestedStr p "flowRegime" "regimeType" ++ "\".")
      else if nestedStr p "flowRegime" "turbulenceModel" ∈ TURBULENCE_MODELS then none
      else some ("Unknown turbulenceModel \"" ++
        nestedStr p "flowRegime" "turbulenceModel" ++ "\". Allowed: " ++
        String.intercalate ", " TURBULENCE_MODELS ++ "."),
   fun p =>
    if nestedStr p "flowRegime" "regimeType" = "laminar" ∧
        (nestedGet p "flowRegime" "turbulenceModel").isSome then
      some "Laminar regime must not include turbulenceModel."
    else none,
   fun p =>
    let hasInletVelocity := (nestedGet p "flowConfiguration" "inletVelocity").isSome
    let hasPressureGradient := (nestedGet p "flowConfiguration" "pressureGradient").isSome
    if hasInletVelocity = hasPressureGradient then
      some "Provide exactly one of \"inletVelocity\" or \"pressureGradient\"."
    else none,
   fun p =>
    if nestedStr p "flowConfiguration" "drivingMechanism" = "velocity-driven" ∧
        (nestedGet p "flowConfiguration" "inletVelocity").isNone then
      some "velocity-driven flow requires \"inletVelocity\"."
    else none,
   fun p =>
    if nestedStr p "flowConfiguration" "drivingMechanism" = "pressure-driven" ∧
        (nestedGet p "flowConfiguration" "pressureGradient").isNone then
      some "pressure-driven flow requires \"pressureGradient\"."
    else none]

end fluid_system

/-! ## Schema registry and validation pipeline (src/schemas/schemaRegistry.ts) -/

/-- `SceneSchema`: the shape every registered schema conforms to.  The
`parameterControlSpecs` member of the source interface is static UI metadata
never read by `validateScenePlan`; it is not part of the model (material to
claim C1: the pipeline's output does not carry it either). -/
structure SceneSchema where
  schemaId : String
  schemaVersion : String
  normalize : List (String × JsVal) → Except String Params
  validateStructure : Params → List String
  contracts : List (Params → Option String)

/-- The registry entry for one concept module. -/
def harmonicOscillatorSchema : SceneSchema :=
  { schemaId := harmonic_oscillator.schemaId
    schemaVersion := harmonic_oscillator.schemaVersion
    normalize := harmonic_oscillator.normalize
    validateStructure := harmonic_oscillator.validateStructure
    contracts := harmonic_oscillator.contracts }

def dampedOscillatorSchema : SceneSchema :=
  { schemaId := damped_oscillator.schemaId
    schemaVersion := damped_oscillator.schemaVersion
    normalize := damped_oscillator.normalize
    validateStructure := damped_oscillator.validateStructure
    contracts := damped_oscillator.contracts }

def drivenOscillatorSchema : SceneSchema :=
  { schemaId := driven_oscillator.schemaId
    schemaVersion := driven_oscillator.schemaVersion
    normalize := driven_oscillator.normalize
    validateStructure := driven_oscillator.validateStructure
    contracts := driven_oscillator.contracts }

def coupledOscillators2MassSchema : SceneSchema :=
  { schemaId := coupled_oscillators_2mass.schemaId
    schemaVersion := coupled_oscillators_2mass.schemaVersion
    normalize := coupled_oscillators_2mass.normalize
    validateStructure := coupled_oscillators_2mass.validateStructure
    contracts := coupled_oscillators_2mass.contracts }

def projectileMotionSchema : SceneSchema :=
  { schemaId := projectile_motion.schemaId
    schemaVersion := projectile_motion.schemaVersion
    normalize := projectile_motion.normalize
    validateStructure := projectile_motion.validateStructure
    contracts := projectile_motion.contracts }

def uniformCircularMotionSchema : SceneSchema :=
  { schemaId := uniform_circular_motion.schemaId
    schemaVersion := uniform_circular_motion.schemaVersion
    normalize := uniform_circular_motion.normalize
    validateStructure := uniform_circular_motion.validateStructure
    contracts := uniform_circular_motion.contracts }

def keplerTwoBodyOrbitSchema : SceneSchema :=
  { schemaId := kepler_two_body_orbit.schemaId
    schemaVersion := kepler_two_body_orbit.schemaVersion
    normalize := kepler_two_body_orbit.normalize
    validateStructure := kepler_two_body_orbit.validateStructure
    contracts := kepler_two_body_orbit.contracts }

def laminarInternalFlowSchema : SceneSchema :=
  { schemaId := laminar_internal_flow.schemaId
    schemaVersion := laminar_internal_flow.schemaVersion
    normalize := laminar_internal_flow.normalize
    validateStructure := laminar_internal_flow.validateStructure
    contracts := laminar_internal_flow.contracts }

def fluidSystemSchema : SceneSchema :=
  { schemaId := fluid_system.schemaId
    schemaVersion := fluid_system.schemaVersion
    normalize := fluid_system.normalize
    validateStructure := fluid_system.validateStructure
    contracts := fluid_system.contracts }

/-- `getSchema`: the explicit two-level map `concept -> version -> schema`.
Returns the schema if found, `none` otherwise.  Never guesses. -/
def getSchema (concept version : String) : Option SceneSchema :=
  if concept = "harmonic_oscillator" then
    if version = "v1" then some harmonicOscillatorSchema else none
  else if concept = "damped_oscillator" then
    if version = "v1" then some dampedOscillatorSchema else none
  else if concept = "driven_oscillator" then
    if version = "v1" then some drivenOscillatorSchema else none
  else if concept = "coupled_oscillators_2mass" then
    if version = "v1" then some coupledOscillators2MassSchema else none
  else if concept = "projectile_motion" then
    if version = "v1" then some projectileMotionSchema else none
  else if concept = "uniform_circular_motion" then
    if version = "v1" then some uniformCircularMotionSchema else none
  else if concept = "kepler_two_body_orbit" then
    if version = "v1" then some keplerTwoBodyOrbitSchema else none
  else if concept = "laminar_internal_flow" then
    if version = "v1" then some laminarInternalFlowSchema else none
  else if concept = "fluid_system" then
    if version = "v1" then some fluidSystemSchema else none
  else none

/-- `ValidationResult.canonicalScenePlan` (the source interface's nested
object type: exactly `concept`, `schemaVersion` and `parameters`). -/
structure CanonicalScenePlan where
  concept : String
  schemaVersion : String
  parameters : Params

/-- The field names of the `canonicalScenePlan` object the pipeline returns
(from the `ValidationResult` interface and the return-object literal of
`validateScenePlan`). -/
def canonicalScenePlanFields : List String := ["concept", "schemaVersion", "parameters"]

/-- `ValidationResult`. -/
structure ValidationResult where
  valid : Bool
  errors : List String
  canonicalScenePlan : Option CanonicalScenePlan

/-- The truthy-string extraction of step 1 of the pipeline:
`!scenePlan.concept || typeof scenePlan.concept !== "string"` fails exactly
when this returns `none` (missing field, non-string, or the falsy `""`). -/
def truthyStrField (fields : Params) (k : String) : Option String :=
  match getKey fields k with
  | some (.str s) => if s = "" then none else some s
  | _ => none

/-- `validateScenePlan`: lookup schema → normalize → structural check →
contracts.  `parameters ?? {}` substitutes the empty object for a missing
`parameters` field (a non-object `parameters` value is outside the model; no
caller and no theorem exercises it). -/
def validateScenePlan (scenePlan : JsVal) : ValidationResult :=
  match scenePlan with
  | .obj fields =>
    match truthyStrField fields "concept", truthyStrField fields "schemaVersion" with
    | some concept, some version =>
      match getSchema concept version with
      | none =>
        { valid := false
          errors := ["No schema registered for concept=\"" ++ concept ++
            "\" version=\"" ++ version ++ "\"."]
          canonicalScenePlan := none }
      | some schema =>
        let params : Params :=
          match getKey fields "parameters" with
          | some (.obj ps) => ps
          | _ => []
        match schema.normalize params with
        | .error e =>
          { valid := false
            errors := ["Normalization failed: " ++ e]
            canonicalScenePlan := none }
        | .ok canonicalParams =>
          match schema.validateStructure canonicalParams with
          | [] =>
            let violations := schema.contracts.filterMap fun contract => contract canonicalParams
            match violations with
            | [] =>
              { valid := true
                errors := []
                canonicalScenePlan :=
                  some { concept := concept, schemaVersion := version
                         parameters := canonicalParams } }
            | vs =>
              { valid := false, errors := vs, canonicalScenePlan := none }
          | structuralErrors =>
            { valid := false, errors := structuralErrors, canonicalScenePlan := none }
    | oc, ov =>
      { valid := false
        errors :=
          (if oc.isNone then ["Missing or invalid \"concept\" field."] else []) ++
            (if ov.isNone then ["Missing or invalid \"schemaVersion\" field."] else [])
        canonicalScenePlan := none }
  | _ => { valid := false, errors := ["scenePlan must be a non-null object."], canonicalScenePlan := none }

/-- Convenience constructor for a raw scene plan object
`{concept, schemaVersion, parameters}`. -/
def mkScenePlan (concept version : String) (parameters : List (String × JsVal)) : JsVal :=
  .obj [("concept", .str concept), ("schemaVersion", .str version),
        ("parameters", .obj parameters)]

/-- A raw scene plan object with no `parameters` field at all. -/
def mkScenePlanNoParams (concept version : String) : JsVal :=
  .obj [("concept", .str concept), ("schemaVersion", .str version)]

/-- The nine `(concept, version)` pairs explicitly registered. -/
def registeredPairs : List (String × String) :=
  [("harmonic_oscillator", "v1"), ("damped_oscillator", "v1"),
   ("driven_oscillator", "v1"), ("coupled_oscillators_2mass", "v1"),
   ("projectile_motion", "v1"), ("uniform_circular_motion", "v1"),
   ("kepler_two_body_orbit", "v1"), ("laminar_internal_flow", "v1"),
   ("fluid_system", "v1")]

/-- The alias map (`PARAM_MAP`) of each registered concept, used to state
claims about unknown-key handling uniformly. -/
def aliasMapOf (concept : String) : List (String × String) :=
  if concept = "harmonic_oscillator" then harmonic_oscillator.PARAM_MAP
  else if concept = "damped_oscillator" then damped_oscillator.PARAM_MAP
  else if concept = "driven_oscillator" then driven_oscillator.PARAM_MAP
  else if concept = "coupled_oscillators_2mass" then coupled_oscillators_2mass.PARAM_MAP
  else if concept = "uniform_circular_motion" then uniform_circular_motion.PARAM_MAP
  else if concept = "projectile_motion" then projectile_motion.PARAM_MAP
  else if concept = "kepler_two_body_orbit" then kepler_two_body_orbit.PARAM_MAP
  else if concept = "laminar_internal_flow" then laminar_internal_flow.PARAM_MAP
  else if concept = "fluid_system" then fluid_system.PARAM_MAP
  else []

/-! ## Basic lemmas about the JS-object model -/

theorem getKey_setKey_self (p : Params) (k : String) (v : JsVal) :
    getKey (setKey p k v) k = some v := by
  induction p with
  | nil => simp [setKey, getKey]
  | cons kv rest ih =>
    obtain ⟨k0, v0⟩ := kv
    by_cases h : k0 = k
    · simp [setKey, getKey, h]
    · simp [setKey, getKey, h, ih]

theorem getKey_setKey_ne (p : Params) (k k2 : String) (v : JsVal) (h : k2 ≠ k) :
    getKey (setKey p k v) k2 = getKey p k2 := by
  induction p with
  | nil =>
    simp only [setKey, getKey]
    rw [if_neg fun hh => h hh.symm]
  | cons kv rest ih =>
    obtain ⟨k0, v0⟩ := kv
    by_cases h0 : k0 = k
    · subst h0
      simp only [setKey, if_pos rfl, getKey]
      rw [if_neg fun hh => h hh.symm, if_neg fun hh => h hh.symm]
    · simp only [setKey, if_neg h0, getKey]
      by_cases h2 : k0 = k2
      · rw [if_pos h2, if_pos h2]
      · rw [if_neg h2, if_neg h2, ih]

theorem setKey_of_getKey_some (p : Params) (k : String) (v : JsVal)
    (h : getKey p k = some v) : setKey p k v = p := by
  induction p with
  | nil => simp [getKey] at h
  | cons kv rest ih =>
    obtain ⟨k0, v0⟩ := kv
    by_cases h0 : k0 = k
    · subst h0
      simp [getKey] at h
      simp [setKey, h]
    · simp only [getKey, if_neg h0] at h
      simp [setKey, h0, ih h]

theorem setKey_of_getKey_none (p : Params) (k : String) (v : JsVal)
    (h : getKey p k = none) : setKey p k v = p ++ [(k, v)] := by
  induction p with
  | nil => simp [setKey]
  | cons kv rest ih =>
    obtain ⟨k0, v0⟩ := kv
    by_cases h0 : k0 = k
    · simp [getKey, h0] at h
    · simp only [getKey, if_neg h0] at h
      simp [setKey, h0, ih h]

theorem getKey_eq_none_iff (p : Params) (k : String) :
    getKey p k = none ↔ k ∉ keysOf p := by
  induction p with
  | nil => simp [getKey, keysOf]
  | cons kv rest ih =>
    obtain ⟨k0, v0⟩ := kv
    by_cases h0 : k0 = k
    · simp [getKey, h0, keysOf]
    · simp [getKey, h0, keysOf, ih, Ne.symm h0]

theorem getKey_isSome_iff (p : Params) (k : String) :
    (getKey p k).isSome = true ↔ k ∈ keysOf p := by
  constructor
  · intro h
    by_contra hm
    rw [(getKey_eq_none_iff p k).2 hm] at h
    simp at h
  · intro h
    cases hx : getKey p k with
    | some w => simp
    | none => exact absurd h ((getKey_eq_none_iff p k).1 hx)

theorem getKey_append (p q : Params) (k : String) :
    getKey (p ++ q) k = ((getKey p k).orElse fun _ => getKey q k) := by
  induction p with
  | nil => simp [getKey]
  | cons kv rest ih =>
    obtain ⟨k0, v0⟩ := kv
    by_cases h0 : k0 = k
    · simp [getKey, h0]
    · simp [getKey, h0, ih]

theorem keysOf_append (p q : Params) : keysOf (p ++ q) = keysOf p ++ keysOf q := by
  simp [keysOf]

theorem keysOf_setKey_mem (p : Params) (k : String) (v : JsVal) (h : k ∈ keysOf p) :
    keysOf (setKey p k v) = keysOf p := by
  induction p with
  | nil => simp [keysOf] at h
  | cons kv rest ih =>
    obtain ⟨k0, v0⟩ := kv
    by_cases h0 : k0 = k
    · subst h0
      simp [setKey, keysOf]
    · have hmem : k ∈ keysOf rest := by
        rcases (by simpa [keysOf] using h : k = k0 ∨ k ∈ keysOf rest) with h1 | h1
        · exact absurd h1.symm h0
        · exact h1
      have := ih hmem
      simp only [keysOf] at this
      simp [setKey, h0, keysOf, this]

theorem keysOf_setKey_not_mem (p : Params) (k : String) (v : JsVal) (h : k ∉ keysOf p) :
    keysOf (setKey p k v) = keysOf p ++ [k] := by
  rw [setKey_of_getKey_none p k v ((getKey_eq_none_iff p k).2 h), keysOf_append]
  rfl

theorem getKey_defaultKey_ne (p : Params) (k k2 : String) (v : JsVal) (h : k2 ≠ k) :
    getKey (defaultKey p k v) k2 = getKey p k2 := by
  unfold defaultKey
  cases getKey p k with
  | some w => rfl
  | none => exact getKey_setKey_ne p k k2 v h

theorem defaultKey_of_isSome (p : Params) (k : String) (v : JsVal)
    (h : (getKey p k).isSome) : defaultKey p k v = p := by
  unfold defaultKey
  cases hx : getKey p k with
  | some w => rfl
  | none => rw [hx] at h; simp at h

theorem getKey_defaultKey_self_isSome (p : Params) (k : String) (v : JsVal) :
    (getKey (defaultKey p k v) k).isSome := by
  unfold defaultKey
  cases hx : getKey p k with
  | some w => simp [hx]
  | none => simp [getKey_setKey_self]

theorem getKey_defaultKey_isSome (p : Params) (k k2 : String) (v : JsVal)
    (h : (getKey p k2).isSome) : (getKey (defaultKey p k v) k2).isSome := by
  by_cases h2 : k2 = k
  · subst h2
    exact getKey_defaultKey_self_isSome p k2 v
  · rw [getKey_defaultKey_ne p k k2 v h2]
    exact h

theorem requireKey_ok (p : Params) (k msg : String) (h : (getKey p k).isSome) :
    requireKey p k msg = .ok p := by
  unfold requireKey
  cases hx : getKey p k with
  | some w => rfl
  | none => rw [hx] at h; simp at h

theorem requireKey_eq_ok (p q : Params) (k msg : String)
    (h : requireKey p k msg = .ok q) : q = p ∧ (getKey p k).isSome := by
  unfold requireKey at h
  cases hx : getKey p k with
  | some w =>
    rw [hx] at h
    cases h
    exact ⟨rfl, by simp⟩
  | none => rw [hx] at h; cases h

/-! ## Lemmas about the shared alias-resolution loop -/

theorem lookupMap_mem_values (m : List (String × String)) (k c : String)
    (h : lookupMap m k = some c) : c ∈ m.map Prod.snd := by
  induction m with
  | nil => simp [lookupMap] at h
  | cons kc rest ih =>
    obtain ⟨k0, c0⟩ := kc
    by_cases h0 : k0 = k
    · simp [lookupMap, h0] at h
      simp [h]
    · simp only [lookupMap, if_neg h0] at h
      simp [ih h]

theorem resolveAliasesAux_append (m : List (String × String))
    (xs ys : List (String × JsVal)) (seen : List String) (acc : Params) :
    resolveAliasesAux m (xs ++ ys) seen acc =
      (resolveAliasesAux m xs seen acc).bind
        fun sa => resolveAliasesAux m ys sa.1 sa.2 := by
  induction xs generalizing seen acc with
  | nil => simp [resolveAliasesAux, Except.bind]
  | cons kv rest ih =>
    obtain ⟨k0, v0⟩ := kv
    simp only [List.cons_append, resolveAliasesAux]
    cases lookupMap m k0 with
    | none => simp [Except.bind]
    | some c =>
      by_cases hc : c ∈ seen
      · simp [hc, Except.bind]
      · simp [hc, ih]

theorem resolveAliasesAux_unknown (m : List (String × String)) :
    ∀ (raw : List (String × JsVal)) (k : String), k ∈ keysOf raw →
      lookupMap m k = none →
      ∀ (seen : List String) (acc : Params),
        ∃ e, resolveAliasesAux m raw seen acc = .error e := by
  intro raw
  induction raw with
  | nil => intro k hk; simp [keysOf] at hk
  | cons kv rest ih =>
    obtain ⟨k0, v0⟩ := kv
    intro k hk hu seen acc
    rcases (by simpa [keysOf] using hk : k = k0 ∨ k ∈ keysOf rest) with h1 | h1
    · subst h1
      refine ⟨unknownParamMsg m k, ?_⟩
      simp [resolveAliasesAux, hu]
    · simp only [resolveAliasesAux]
      cases lookupMap m k0 with
      | none => exact ⟨unknownParamMsg m k0, rfl⟩
      | some c =>
        by_cases hc : c ∈ seen
        · exact ⟨duplicateMsg c k0, by simp [hc]⟩
        · simpa [hc] using ih k h1 hu (c :: seen) (setKey acc c v0)

theorem resolveAliases_unknown (m : List (String × String))
    (raw : List (String × JsVal)) (k : String) (hk : k ∈ keysOf raw)
    (hu : lookupMap m k = none) : ∃ e, resolveAliases m raw = .error e := by
  obtain ⟨e, he⟩ := resolveAliasesAux_unknown m raw k hk hu [] []
  exact ⟨e, by simp [resolveAliases, he, Except.map]⟩

theorem resolveAliases_first_unknown (m : List (String × String))
    (pre : List (String × JsVal)) (k : String) (v : JsVal)
    (post : List (String × JsVal)) (sa : List String × Params)
    (hpre : resolveAliasesAux m pre [] [] = .ok sa)
    (hu : lookupMap m k = none) :
    resolveAliases m (pre ++ (k, v) :: post) = .error (unknownParamMsg m k) := by
  unfold resolveAliases
  rw [resolveAliasesAux_append, hpre]
  simp [Except.bind, resolveAliasesAux, hu, Except.map]

theorem keysOf_setKey_subset (p : Params) (k x : String) (v : JsVal)
    (h : x ∈ keysOf (setKey p k v)) : x ∈ keysOf p ∨ x = k := by
  by_cases hm : k ∈ keysOf p
  · rw [keysOf_setKey_mem p k v hm] at h
    exact Or.inl h
  · rw [keysOf_setKey_not_mem p k v hm] at h
    simpa using h

theorem resolveAliasesAux_ok_keys (m : List (String × String)) :
    ∀ (raw : List (String × JsVal)) (seen s : List String) (acc a : Params),
      resolveAliasesAux m raw seen acc = .ok (s, a) →
      (∀ k ∈ keysOf a, k ∈ keysOf acc ∨ k ∈ m.map Prod.snd) ∧
        ((keysOf acc).Nodup → (∀ k ∈ keysOf acc, k ∈ seen) → (keysOf a).Nodup) := by
  intro raw
  induction raw with
  | nil =>
    intro seen s acc a h
    simp only [resolveAliasesAux] at h
    cases h
    exact ⟨fun k hk => Or.inl hk, fun hd _ => hd⟩
  | cons kv rest ih =>
    obtain ⟨k0, v0⟩ := kv
    intro seen s acc a h
    simp only [resolveAliasesAux] at h
    cases hl : lookupMap m k0 with
    | none => rw [hl] at h; cases h
    | some c =>
      rw [hl] at h
      dsimp only at h
      by_cases hc : c ∈ seen
      · rw [if_pos hc] at h; cases h
      · rw [if_neg hc] at h
        obtain ⟨ihA, ihB⟩ := ih (c :: seen) s (setKey acc c v0) a h
        constructor
        · intro k hk
          rcases ihA k hk with hk2 | hk2
          · rcases keysOf_setKey_subset acc c k v0 hk2 with hk3 | hk3
            · exact Or.inl hk3
            · exact Or.inr (hk3 ▸ lookupMap_mem_values m k0 c hl)
          · exact Or.inr hk2
        · intro hd hseen
          have hcacc : c ∉ keysOf acc := fun hmem => hc (hseen c hmem)
          refine ihB ?_ ?_
          · rw [keysOf_setKey_not_mem acc c v0 hcacc]
            simpa [List.nodup_append] using ⟨hd, hcacc⟩
          · intro k hk
            rcases keysOf_setKey_subset acc c k v0 hk with hk2 | hk2
            · exact List.mem_cons_of_mem c (hseen k hk2)
            · exact hk2 ▸ List.mem_cons_self c seen

theorem resolveAliases_ok_keys (m : List (String × String))
    (raw : List (String × JsVal)) (a : Params)
    (h : resolveAliases m raw = .ok a) :
    (∀ k ∈ keysOf a, k ∈ m.map Prod.snd) ∧ (keysOf a).Nodup := by
  unfold resolveAliases at h
  cases hx : resolveAliasesAux m raw [] [] with
  | error e => rw [hx] at h; cases h
  | ok sa =>
    rw [hx] at h
    obtain ⟨s0, a0⟩ := sa
    cases h
    obtain ⟨hA, hB⟩ := resolveAliasesAux_ok_keys m raw [] s0 [] a0 hx
    refine ⟨fun k hk => ?_, hB (by simp [keysOf]) (by simp [keysOf])⟩
    rcases hA k hk with hk2 | hk2
    · simp [keysOf] at hk2
    · exact hk2

theorem resolveAliasesAux_selfmap (m : List (String × String)) :
    ∀ (xs : List (String × JsVal)) (seen : List String) (acc : Params),
      (∀ k ∈ keysOf xs, lookupMap m k = some k) →
      (keysOf xs).Nodup →
      (∀ k ∈ keysOf xs, k ∉ seen) →
      (∀ k ∈ keysOf xs, getKey acc k = none) →
      ∃ s, resolveAliasesAux m xs seen acc = .ok (s, acc ++ xs) := by
  intro xs
  induction xs with
  | nil =>
    intro seen acc _ _ _ _
    exact ⟨seen, by simp [resolveAliasesAux]⟩
  | cons kv rest ih =>
    obtain ⟨k0, v0⟩ := kv
    intro seen acc hself hnd hseen hacc
    have hk0 : k0 ∈ keysOf ((k0, v0) :: rest) := by simp [keysOf]
    have hl : lookupMap m k0 = some k0 := hself k0 hk0
    have hns : k0 ∉ seen := hseen k0 hk0
    have hrest : ∀ k ∈ keysOf rest, k ∈ keysOf ((k0, v0) :: rest) := by
      intro k hk
      simp [keysOf] at hk ⊢
      exact Or.inr hk
    have hnd0 : k0 ∉ keysOf rest := (List.nodup_cons.1 hnd).1
    have hset : setKey acc k0 v0 = acc ++ [(k0, v0)] :=
      setKey_of_getKey_none acc k0 v0 (hacc k0 hk0)
    obtain ⟨s, hs⟩ := ih (k0 :: seen) (acc ++ [(k0, v0)])
      (fun k hk => hself k (hrest k hk))
      ((List.nodup_cons.1 hnd).2)
      (by
        intro k hk
        simp only [List.mem_cons]
        push_neg
        exact ⟨fun he => hnd0 (by rw [← he]; exact hk), hseen k (hrest k hk)⟩)
      (by
        intro k hk
        rw [getKey_append]
        have h1 : getKey acc k = none := hacc k (hrest k hk)
        have h2 : getKey [(k0, v0)] k = none := by
          simp only [getKey]
          rw [if_neg fun he => hnd0 (by rw [he]; exact hk)]
        simp [h1, h2])
    refine ⟨s, ?_⟩
    simp only [resolveAliasesAux, hl, if_neg hns, hset, hs]
    simp

theorem resolveAliases_selfmap (m : List (String × String))
    (xs : List (String × JsVal))
    (hself : ∀ k ∈ keysOf xs, lookupMap m k = some k)
    (hnd : (keysOf xs).Nodup) :
    resolveAliases m xs = .ok xs := by
  obtain ⟨s, hs⟩ := resolveAliasesAux_selfmap m xs [] []
    hself hnd (by simp) (by simp [getKey])
  simp only [resolveAliases, hs, Except.map]
  simp

theorem getSchema_eq_some (c v : String) (s : SceneSchema)
    (h : getSchema c v = some s) :
    v = "v1" ∧
      ((c = "harmonic_oscillator" ∧ s = harmonicOscillatorSchema) ∨
      (c = "damped_oscillator" ∧ s = dampedOscillatorSchema) ∨
      (c = "driven_oscillator" ∧ s = drivenOscillatorSchema) ∨
      (c = "coupled_oscillators_2mass" ∧ s = coupledOscillators2MassSchema) ∨
      (c = "projectile_motion" ∧ s = projectileMotionSchema) ∨
      (c = "uniform_circular_motion" ∧ s = uniformCircularMotionSchema) ∨
      (c = "kepler_two_body_orbit" ∧ s = keplerTwoBodyOrbitSchema) ∨
      (c = "laminar_internal_flow" ∧ s = laminarInternalFlowSchema) ∨
      (c = "fluid_system" ∧ s = fluidSystemSchema)) := by
  unfold getSchema at h
  by_cases h1 : c = "harmonic_oscillator"
  · rw [if_pos h1] at h
    by_cases hv : v = "v1"
    · rw [if_pos hv] at h
      cases h
      exact ⟨hv, Or.inl (⟨h1, rfl⟩)⟩
    · rw [if_neg hv] at h
      cases h
  · rw [if_neg h1] at h
    by_cases h2 : c = "damped_oscillator"
    · rw [if_pos h2] at h
      by_cases hv : v = "v1"
      · rw [if_pos hv] at h
        cases h
        exact ⟨hv, Or.inr (Or.inl (⟨h2, rfl⟩))⟩
      · rw [if_neg hv] at h
        cases h
    · rw [if_neg h2] at h
      by_cases h3 : c = "driven_oscillator"
      · rw [if_pos h3] at h
        by_cases hv : v = "v1"
        · rw [if_pos hv] at h
          cases h
          exact ⟨hv, Or.inr (Or.inr (Or.inl (⟨h3, rfl⟩)))⟩
        · rw [if_neg hv] at h
          cases h
      · rw [if_neg h3] at h
        by_cases h4 : c = "coupled_oscillators_2mass"
        · rw [if_pos h4] at h
          by_cases hv : v = "v1"
          · rw [if_pos hv] at h
            cases h
            exact ⟨hv, Or.inr (Or.inr (Or.inr (Or.inl (⟨h4, rfl⟩))))⟩
          · rw [if_neg hv] at h
            cases h
        · rw [if_neg h4] at h
          by_cases h5 : c = "projectile_motion"
          · rw [if_pos h5] at h
            by_cases hv : v = "v1"
            · rw [if_pos hv] at h
              cases h
              exact ⟨hv, Or.inr (Or.inr (Or.inr (Or.inr (Or.inl (⟨h5, rfl⟩)))))⟩
            · rw [if_neg hv] at h
              cases h
          · rw [if_neg h5] at h
            by_cases h6 : c = "uniform_circular_motion"
            · rw [if_pos h6] at h
              by_cases hv : v = "v1"
              · rw [if_pos hv] at h
                cases h
                exact ⟨hv, Or.inr (Or.inr (Or.inr (Or.inr (Or.inr (Or.inl (⟨h6, rfl⟩))))))⟩
              · rw [if_neg hv] at h
                cases h
            · rw [if_neg h6] at h
              by_cases h7 : c = "kepler_two_body_orbit"
              · rw [if_pos h7] at h
                by_cases hv : v = "v1"
                · rw [if_pos hv] at h
                  cases h
                  exact ⟨hv, Or.inr (Or.inr (Or.inr (Or.inr (Or.inr (Or.inr (Or.inl (⟨h7, rfl⟩)))))))⟩
                · rw [if_neg hv] at h
                  cases h
              · rw [if_neg h7] at h
                by_cases h8 : c = "laminar_internal_flow"
                · rw [if_pos h8] at h
                  by_cases hv : v = "v1"
                  · rw [if_pos hv] at h
                    cases h
                    exact ⟨hv, Or.inr (Or.inr (Or.inr (Or.inr (Or.inr (Or.inr (Or.inr (Or.inl (⟨h8, rfl⟩))))))))⟩
                  · rw [if_neg hv] at h
                    cases h
                · rw [if_neg h8] at h
                  by_cases h9 : c = "fluid_system"
                  · rw [if_pos h9] at h
                    by_cases hv : v = "v1"
                    · rw [if_pos hv] at h
                      cases h
                      exact ⟨hv, Or.inr (Or.inr (Or.inr (Or.inr (Or.inr (Or.inr (Or.inr (Or.inr (⟨h9, rfl⟩))))))))⟩
                    · rw [if_neg hv] at h
                      cases h
                  · rw [if_neg h9] at h
                    cases h

theorem getSchema_concept_ne_empty (c v : String) (s : SceneSchema)
    (h : getSchema c v = some s) : c ≠ "" ∧ v ≠ "" := by
  obtain ⟨hv, hd⟩ := getSchema_eq_some c v s h
  subst hv
  refine ⟨?_, by decide⟩
  rcases hd with ⟨hc, _⟩ | ⟨hc, _⟩ | ⟨hc, _⟩ | ⟨hc, _⟩ | ⟨hc, _⟩ | ⟨hc, _⟩ | ⟨hc, _⟩ | ⟨hc, _⟩ | ⟨hc, _⟩ <;>
    · subst hc; decide

/-- Unfolding of the pipeline on a well-formed raw plan object whose concept
and version resolve in the registry. -/
theorem validateScenePlan_mkScenePlan (c v : String) (raw : List (String × JsVal))
    (schema : SceneSchema) (hc : c ≠ "") (hv : v ≠ "")
    (hs : getSchema c v = some schema) :
    validateScenePlan (mkScenePlan c v raw) =
      match schema.normalize raw with
      | .error e =>
        { valid := false, errors := ["Normalization failed: " ++ e],
          canonicalScenePlan := none }
      | .ok p =>
        match schema.validateStructure p with
        | [] =>
          match schema.contracts.filterMap (fun f => f p) with
          | [] =>
            { valid := true, errors := [],
              canonicalScenePlan := some { concept := c, schemaVersion := v, parameters := p } }
          | vs => { valid := false, errors := vs, canonicalScenePlan := none }
        | es => { valid := false, errors := es, canonicalScenePlan := none } := by
  have e1 : truthyStrField [("concept", JsVal.str c), ("schemaVersion", JsVal.str v),
      ("parameters", JsVal.obj raw)] "concept" = some c := by
    unfold truthyStrField
    rw [show getKey [("concept", JsVal.str c), ("schemaVersion", JsVal.str v),
      ("parameters", JsVal.obj raw)] "concept" = some (JsVal.str c) from rfl]
    simp [hc]
  have e2 : truthyStrField [("concept", JsVal.str c), ("schemaVersion", JsVal.str v),
      ("parameters", JsVal.obj raw)] "schemaVersion" = some v := by
    unfold truthyStrField
    rw [show getKey [("concept", JsVal.str c), ("schemaVersion", JsVal.str v),
      ("parameters", JsVal.obj raw)] "schemaVersion" = some (JsVal.str v) from rfl]
    simp [hv]
  have e3 : getKey [("concept", JsVal.str c), ("schemaVersion", JsVal.str v),
      ("parameters", JsVal.obj raw)] "parameters" = some (JsVal.obj raw) := rfl
  unfold validateScenePlan mkScenePlan
  dsimp only
  rw [e1, e2]
  dsimp only
  rw [hs, e3]

/-- Unfolding of the pipeline on a plan object with no `parameters` field. -/
theorem validateScenePlan_noParams (c v : String) (schema : SceneSchema)
    (hc : c ≠ "") (hv : v ≠ "") (hs : getSchema c v = some schema) :
    validateScenePlan (mkScenePlanNoParams c v) =
      match schema.normalize [] with
      | .error e =>
        { valid := false, errors := ["Normalization failed: " ++ e],
          canonicalScenePlan := none }
      | .ok p =>
        match schema.validateStructure p with
        | [] =>
          match schema.contracts.filterMap (fun f => f p) with
          | [] =>
            { valid := true, errors := [],
              canonicalScenePlan := some { concept := c, schemaVersion := v, parameters := p } }
          | vs => { valid := false, errors := vs, canonicalScenePlan := none }
        | es => { valid := false, errors := es, canonicalScenePlan := none } := by
  have e1 : truthyStrField [("concept", JsVal.str c), ("schemaVersion", JsVal.str v)]
      "concept" = some c := by
    unfold truthyStrField
    rw [show getKey [("concept", JsVal.str c), ("schemaVersion", JsVal.str v)]
      "concept" = some (JsVal.str c) from rfl]
    simp [hc]
  have e2 : truthyStrField [("concept", JsVal.str c), ("schemaVersion", JsVal.str v)]
      "schemaVersion" = some v := by
    unfold truthyStrField
    rw [show getKey [("concept", JsVal.str c), ("schemaVersion", JsVal.str v)]
      "schemaVersion" = some (JsVal.str v) from rfl]
    simp [hv]
  have e3 : getKey [("concept", JsVal.str c), ("schemaVersion", JsVal.str v)]
      "parameters" = none := rfl
  unfold validateScenePlan mkScenePlanNoParams
  dsimp only
  rw [e1, e2]
  dsimp only
  rw [hs, e3]

/-! ## Helper lemmas for normalizer chains and zod schemas -/

theorem eb_ok {α β : Type} (a : α) (f : α → Except String β) :
    (Except.ok a >>= f) = f a := rfl

theorem eb_err {α β : Type} (e : String) (f : α → Except String β) :
    ((Except.error e : Except String α) >>= f) = .error e := rfl

theorem nodup_defaultKey (p : Params) (k : String) (v : JsVal)
    (h : (keysOf p).Nodup) : (keysOf (defaultKey p k v)).Nodup := by
  unfold defaultKey
  cases hx : getKey p k with
  | some w => exact h
  | none =>
    have hm : k ∉ keysOf p := (getKey_eq_none_iff p k).1 hx
    rw [keysOf_setKey_not_mem p k v hm]
    simpa [List.nodup_append] using ⟨h, hm⟩

theorem keysOf_defaultKey_subset (p : Params) (k x : String) (v : JsVal)
    (h : x ∈ keysOf (defaultKey p k v)) : x ∈ keysOf p ∨ x = k := by
  unfold defaultKey at h
  cases hx : getKey p k with
  | some w => rw [hx] at h; exact Or.inl h
  | none => rw [hx] at h; exact keysOf_setKey_subset p k x v h

theorem nodup_setKey (p : Params) (k : String) (v : JsVal)
    (h : (keysOf p).Nodup) : (keysOf (setKey p k v)).Nodup := by
  by_cases hm : k ∈ keysOf p
  · rw [keysOf_setKey_mem p k v hm]; exact h
  · rw [keysOf_setKey_not_mem p k v hm]
    simpa [List.nodup_append] using ⟨h, hm⟩

theorem getKey_setKey_isSome (p : Params) (k k2 : String) (v : JsVal)
    (h : (getKey p k2).isSome) : (getKey (setKey p k v) k2).isSome := by
  by_cases h2 : k2 = k
  · subst h2; simp [getKey_setKey_self]
  · rw [getKey_setKey_ne p k k2 v h2]; exact h

/-- A passing strict zod parse certifies every declared field check and that
every present key is declared. -/
theorem zod_pass (fields : List FieldSpec) (p : Params)
    (h : zodStrictObject fields p = []) :
    (∀ f ∈ fields,
        (match getKey p f.key with
         | none => f.required = false
         | some v => f.check v = none)) ∧
      ∀ kv ∈ p, kv.1 ∈ fields.map FieldSpec.key := by
  unfold zodStrictObject at h
  rw [List.append_eq_nil] at h
  obtain ⟨h1, h2⟩ := h
  constructor
  · intro f hf
    have := (List.filterMap_eq_nil_iff.1 h1) f hf
    cases hx : getKey p f.key with
    | none =>
      rw [hx] at this
      by_cases hr : f.required
      · simp [hr] at this
      · simpa using hr
    | some v =>
      rw [hx] at this
      simpa using this
  · intro kv hkv
    have := (List.filterMap_eq_nil_iff.1 h2) kv hkv
    by_cases hd : kv.1 ∈ fields.map FieldSpec.key
    · exact hd
    · simp [hd] at this

/-- A passing strict zod parse pins down each required field. -/
theorem zod_pass_required (fields : List FieldSpec) (p : Params) (f : FieldSpec)
    (h : zodStrictObject fields p = []) (hf : f ∈ fields) (hr : f.required = true) :
    ∃ v, getKey p f.key = some v ∧ f.check v = none := by
  have := (zod_pass fields p h).1 f hf
  cases hx : getKey p f.key with
  | none => rw [hx] at this; rw [hr] at this; cases this
  | some v => rw [hx] at this; exact ⟨v, rfl, this⟩

theorem zEnum_none_elim (options : List String) (v : JsVal)
    (h : zEnum options v = none) : ∃ s, v = .str s ∧ s ∈ options := by
  cases v with
  | str s =>
    refine ⟨s, rfl, ?_⟩
    by_cases hm : s ∈ options
    · exact hm
    · simp [zEnum, hm] at h
  | num n => simp [zEnum] at h
  | bool b => simp [zEnum] at h
  | obj fs => simp [zEnum] at h

theorem zPositiveFiniteNumber_none_elim (v : JsVal)
    (h : zPositiveFiniteNumber v = none) : ∃ q : ℚ, v = .num (.fin q) ∧ 0 < q := by
  cases v with
  | num n =>
    cases n with
    | fin q =>
      refine ⟨q, rfl, ?_⟩
      by_cases hq : 0 < q
      · exact hq
      · simp [zPositiveFiniteNumber, hq] at h
    | inf => simp [zPositiveFiniteNumber] at h
    | negInf => simp [zPositiveFiniteNumber] at h
    | nan => simp [zPositiveFiniteNumber] at h
  | str s => simp [zPositiveFiniteNumber] at h
  | bool b => simp [zPositiveFiniteNumber] at h
  | obj fs => simp [zPositiveFiniteNumber] at h

theorem zFiniteNumber_none_elim (v : JsVal)
    (h : zFiniteNumber v = none) : ∃ q : ℚ, v = .num (.fin q) := by
  cases v with
  | num n =>
    cases n with
    | fin q => exact ⟨q, rfl⟩
    | inf => simp [zFiniteNumber] at h
    | negInf => simp [zFiniteNumber] at h
    | nan => simp [zFiniteNumber] at h
  | str s => simp [zFiniteNumber] at h
  | bool b => simp [zFiniteNumber] at h
  | obj fs => simp [zFiniteNumber] at h

theorem zBoolean_none_elim (v : JsVal)
    (h : zBoolean v = none) : ∃ b, v = .bool b := by
  cases v with
  | bool b => exact ⟨b, rfl⟩
  | num n => simp [zBoolean] at h
  | str s => simp [zBoolean] at h
  | obj fs => simp [zBoolean] at h

/-- If the canonical parse fails, the structural validator returns exactly its
issues (and in particular a non-empty list): the per-concept validators all
return early on canonical failure.  Specialized instances below. -/
theorem zod_fail_of_unknown_key (fields : List FieldSpec) (p : Params)
    (k : String) (v : JsVal) (hget : getKey p k = some v)
    (hk : k ∉ fields.map FieldSpec.key) : zodStrictObject fields p ≠ [] := by
  intro h
  have hkv : (k, v) ∈ p ∨ False := by
    left
    have : (getKey p k).isSome := by simp [hget]
    -- membership of the found pair: getKey finds the first matching pair
    clear h hk
    induction p with
    | nil => simp [getKey] at hget
    | cons kv rest ih =>
      obtain ⟨k0, v0⟩ := kv
      by_cases h0 : k0 = k
      · subst h0
        simp [getKey] at hget
        simp [hget]
      · simp only [getKey, if_neg h0] at hget
        simp only [Option.isSome] at this
        exact List.mem_cons_of_mem _ (ih hget (by simp [getKey, h0, hget]))
  rcases hkv with hkv | hkv
  · exact hk (by simpa using (zod_pass fields p h).2 (k, v) hkv)
  · exact hkv

theorem zod_fail_of_check (fields : List FieldSpec) (p : Params)
    (f : FieldSpec) (v : JsVal) (hf : f ∈ fields)
    (hget : getKey p f.key = some v) (hc : f.check v ≠ none) :
    zodStrictObject fields p ≠ [] := by
  intro h
  have := (zod_pass fields p h).1 f hf
  rw [hget] at this
  exact hc this

/-! ## Claim C6: contracts do not short-circuit -/

/-- C6: for every raw plan whose normalization succeeds and whose structural
validation passes, `validateScenePlan` evaluates every contract in the
concept's contract list (no short-circuit on the first violation): the
returned error list is exactly the in-order list of all violated contracts'
messages, and the plan is accepted exactly when that list is empty. -/
theorem C6_contracts_all_run (c v : String) (raw : List (String × JsVal))
    (schema : SceneSchema) (p : Params)
    (hs : getSchema c v = some schema)
    (hn : schema.normalize raw = .ok p)
    (hstruct : schema.validateStructure p = []) :
    (validateScenePlan (mkScenePlan c v raw)).errors =
      schema.contracts.filterMap (fun contract => contract p) ∧
      ((validateScenePlan (mkScenePlan c v raw)).valid = true ↔
        schema.contracts.filterMap (fun contract => contract p) = []) := by
  obtain ⟨hc, hv⟩ := getSchema_concept_ne_empty c v schema hs
  rw [validateScenePlan_mkScenePlan c v raw schema hc hv hs, hn]
  dsimp only
  rw [hstruct]
  dsimp only
  cases hx : schema.contracts.filterMap (fun contract => contract p) with
  | nil => simp
  | cons e rest => simp

/-- C6 witness: a harmonic-oscillator plan violating both contracts surfaces
both messages in one pass. -/
theorem C6_witness :
    (validateScenePlan (mkScenePlan "harmonic_oscillator" "v1"
      [("amplitude", .num (.fin (-1))), ("frequency", .num (.fin (-2)))])).errors =
      ["amplitude must be > 0, got -1.", "frequency must be > 0, got -2."] := by
  have h := (C6_contracts_all_run "harmonic_oscillator" "v1"
    [("amplitude", .num (.fin (-1))), ("frequency", .num (.fin (-2)))]
    harmonicOscillatorSchema
    [("amplitude", .num (.fin (-1))), ("frequency", .num (.fin (-2))), ("phase", .num (.fin 0))]
    rfl rfl rfl).1
  rw [h]
  with_unfolding_all decide

/-! ## Claim C10: a missing `parameters` field becomes the empty map -/

/-- C10: a plan object with valid concept/schemaVersion strings for a
registered schema but no `parameters` field at all behaves exactly like one
with an empty parameter map: it proceeds to normalization and (every
registered concept having at least one required parameter) fails with the
concept's `Normalization failed: Missing required parameter` error — never
with a malformed-top-level rejection. -/
theorem C10_missing_parameters (c v : String) (h : (c, v) ∈ registeredPairs) :
    validateScenePlan (mkScenePlanNoParams c v) = validateScenePlan (mkScenePlan c v []) ∧
      (validateScenePlan (mkScenePlanNoParams c v)).valid = false ∧
      ∃ msg, (validateScenePlan (mkScenePlanNoParams c v)).errors =
        ["Normalization failed: Missing required parameter: " ++ msg] := by
  simp only [registeredPairs, List.mem_cons, List.not_mem_nil, or_false,
    Prod.mk.injEq] at h
  rcases h with ⟨hc, hv⟩ | ⟨hc, hv⟩ | ⟨hc, hv⟩ | ⟨hc, hv⟩ | ⟨hc, hv⟩ | ⟨hc, hv⟩ |
    ⟨hc, hv⟩ | ⟨hc, hv⟩ | ⟨hc, hv⟩ <;> subst hc <;> subst hv
  · exact ⟨rfl, rfl, "\"amplitude\" (or alias \"A\").", rfl⟩
  · exact ⟨rfl, rfl, "\"amplitude\" (or alias \"A\").", rfl⟩
  · exact ⟨rfl, rfl, "\"amplitude\" (or alias \"A\").", rfl⟩
  · exact ⟨rfl, rfl, "\"anchorStiffness\" (or alias \"kAnchor\").", rfl⟩
  · exact ⟨rfl, rfl, "\"initialSpeed\" (or alias \"v0\").", rfl⟩
  · exact ⟨rfl, rfl, "\"radius\" (or alias \"r\").", rfl⟩
  · exact ⟨rfl, rfl, "\"semiMajorAxis\" (or alias \"a\").", rfl⟩
  · exact ⟨rfl, rfl, "\"length\" (or alias \"L\").", rfl⟩
  · exact ⟨rfl, rfl, "\"geometry\".", rfl⟩

/-- C10 witness. -/
theorem C10_witness :
    validateScenePlan (mkScenePlanNoParams "harmonic_oscillator" "v1") =
      validateScenePlan (mkScenePlan "harmonic_oscillator" "v1" []) ∧
      (validateScenePlan (mkScenePlanNoParams "harmonic_oscillator" "v1")).valid = false :=
  ⟨(C10_missing_parameters "harmonic_oscillator" "v1" (by decide)).1,
   (C10_missing_parameters "harmonic_oscillator" "v1" (by decide)).2.1⟩

/-! ## Claim C8 (corrected): unknown-key rejection -/

/-- C8 counterexample: a raw map that contains the unknown key `bogus` but
whose duplicate alias mapping (`amplitude`/`A`) occurs earlier in input order
is rejected with the duplicate-mapping message; the error does not name
`bogus` and does not list the allowed keys, contradicting the claim as
stated. -/
theorem C8_counterexample :
    (validateScenePlan (mkScenePlan "harmonic_oscillator" "v1"
      [("amplitude", .num (.fin 1)), ("A", .num (.fin 2)), ("bogus", .num (.fin 5))])).valid
      = false ∧
    (validateScenePlan (mkScenePlan "harmonic_oscillator" "v1"
      [("amplitude", .num (.fin 1)), ("A", .num (.fin 2)), ("bogus", .num (.fin 5))])).errors
      = ["Normalization failed: Duplicate mapping for \"amplitude\" via key \"A\"."] :=
  ⟨rfl, rfl⟩

/-- C8 amended: for every registered concept, a raw map containing a key
outside the concept's alias map is always rejected (`valid:false`); and
whenever the keys before the offending unknown key resolve cleanly (no
unknown key and no duplicate mapping among them), the single error message
is `Unknown parameter: "<key>". Allowed: <every allowed input key>`,
wrapped as a normalization failure. -/
theorem C8_amended (c v : String) (h : (c, v) ∈ registeredPairs) :
    (∀ (raw : List (String × JsVal)) (k : String), k ∈ keysOf raw →
        lookupMap (aliasMapOf c) k = none →
        (validateScenePlan (mkScenePlan c v raw)).valid = false) ∧
      ∀ (pre : List (String × JsVal)) (k : String) (val : JsVal)
        (post : List (String × JsVal)) (sa : List String × Params),
        resolveAliasesAux (aliasMapOf c) pre [] [] = .ok sa →
        lookupMap (aliasMapOf c) k = none →
        validateScenePlan (mkScenePlan c v (pre ++ (k, val) :: post)) =
          { valid := false,
            errors := ["Normalization failed: " ++ unknownParamMsg (aliasMapOf c) k],
            canonicalScenePlan := none } := by
  simp only [registeredPairs, List.mem_cons, List.not_mem_nil, or_false,
    Prod.mk.injEq] at h
  rcases h with ⟨hc, hv⟩ | ⟨hc, hv⟩ | ⟨hc, hv⟩ | ⟨hc, hv⟩ | ⟨hc, hv⟩ | ⟨hc, hv⟩ |
    ⟨hc, hv⟩ | ⟨hc, hv⟩ | ⟨hc, hv⟩ <;> subst hc <;> subst hv
  · constructor
    · intro raw k hk hu
      obtain ⟨e, he⟩ := resolveAliases_unknown (harmonic_oscillator.PARAM_MAP) raw k hk hu
      have hne : harmonic_oscillator.normalize raw = .error e := by
        unfold harmonic_oscillator.normalize
        rw [he]
        rfl
      rw [validateScenePlan_mkScenePlan "harmonic_oscillator" "v1" raw harmonicOscillatorSchema (by decide) (by decide) rfl]
      rw [show harmonicOscillatorSchema.normalize = harmonic_oscillator.normalize from rfl, hne]
    · intro pre k val post sa hpre hu
      have hloop := resolveAliases_first_unknown (harmonic_oscillator.PARAM_MAP) pre k val post sa hpre hu
      have hne : harmonic_oscillator.normalize (pre ++ (k, val) :: post) =
          .error (unknownParamMsg (harmonic_oscillator.PARAM_MAP) k) := by
        unfold harmonic_oscillator.normalize
        rw [hloop]
        rfl
      rw [validateScenePlan_mkScenePlan "harmonic_oscillator" "v1" (pre ++ (k, val) :: post) harmonicOscillatorSchema (by decide) (by decide) rfl]
      rw [show harmonicOscillatorSchema.normalize = harmonic_oscillator.normalize from rfl, hne]
      rfl
  · constructor
    · intro raw k hk hu
      obtain ⟨e, he⟩ := resolveAliases_unknown (damped_oscillator.PARAM_MAP) raw k hk hu
      have hne : damped_oscillator.normalize raw = .error e := by
        unfold damped_oscillator.normalize
        rw [he]
        rfl
      rw [validateScenePlan_mkScenePlan "damped_oscillator" "v1" raw dampedOscillatorSchema (by decide) (by decide) rfl]
      rw [show dampedOscillatorSchema.normalize = damped_oscillator.normalize from rfl, hne]
    · intro pre k val post sa hpre hu
      have hloop := resolveAliases_first_unknown (damped_oscillator.PARAM_MAP) pre k val post sa hpre hu
      have hne : damped_oscillator.normalize (pre ++ (k, val) :: post) =
          .error (unknownParamMsg (damped_oscillator.PARAM_MAP) k) := by
        unfold damped_oscillator.normalize
        rw [hloop]
        rfl
      rw [validateScenePlan_mkScenePlan "damped_oscillator" "v1" (pre ++ (k, val) :: post) dampedOscillatorSchema (by decide) (by decide) rfl]
      rw [show dampedOscillatorSchema.normalize = damped_oscillator.normalize from rfl, hne]
      rfl
  · constructor
    · intro raw k hk hu
      obtain ⟨e, he⟩ := resolveAliases_unknown (driven_oscillator.PARAM_MAP) raw k hk hu
      have hne : driven_oscillator.normalize raw = .error e := by
        unfold driven_oscillator.normalize
        rw [he]
        rfl
      rw [validateScenePlan_mkScenePlan "driven_oscillator" "v1" raw drivenOscillatorSchema (by decide) (by decide) rfl]
      rw [show drivenOscillatorSchema.normalize = driven_oscillator.normalize from rfl, hne]
    · intro pre k val post sa hpre hu
      have hloop := resolveAliases_first_unknown (driven_oscillator.PARAM_MAP) pre k val post sa hpre hu
      have hne : driven_oscillator.normalize (pre ++ (k, val) :: post) =
          .error (unknownParamMsg (driven_oscillator.PARAM_MAP) k) := by
        unfold driven_oscillator.normalize
        rw [hloop]
        rfl
      rw [validateScenePlan_mkScenePlan "driven_oscillator" "v1" (pre ++ (k, val) :: post) drivenOscillatorSchema (by decide) (by decide) rfl]
      rw [show drivenOscillatorSchema.normalize = driven_oscillator.normalize from rfl, hne]
      rfl
  · constructor
    · intro raw k hk hu
      obtain ⟨e, he⟩ := resolveAliases_unknown (coupled_oscillators_2mass.PARAM_MAP) raw k hk hu
      have hne : coupled_oscillators_2mass.normalize raw = .error e := by
        unfold coupled_oscillators_2mass.normalize
        rw [he]
        rfl
      rw [validateScenePlan_mkScenePlan "coupled_oscillators_2mass" "v1" raw coupledOscillators2MassSchema (by decide) (by decide) rfl]
      rw [show coupledOscillators2MassSchema.normalize = coupled_oscillators_2mass.normalize from rfl, hne]
    · intro pre k val post sa hpre hu
      have hloop := resolveAliases_first_unknown (coupled_oscillators_2mass.PARAM_MAP) pre k val post sa hpre hu
      have hne : coupled_oscillators_2mass.normalize (pre ++ (k, val) :: post) =
          .error (unknownParamMsg (coupled_oscillators_2mass.PARAM_MAP) k) := by
        unfold coupled_oscillators_2mass.normalize
        rw [hloop]
        rfl
      rw [validateScenePlan_mkScenePlan "coupled_oscillators_2mass" "v1" (pre ++ (k, val) :: post) coupledOscillators2MassSchema (by decide) (by decide) rfl]
      rw [show coupledOscillators2MassSchema.normalize = coupled_oscillators_2mass.normalize from rfl, hne]
      rfl
  · constructor
    · intro raw k hk hu
      obtain ⟨e, he⟩ := resolveAliases_unknown (projectile_motion.PARAM_MAP) raw k hk hu
      have hne : projectile_motion.normalize raw = .error e := by
        unfold projectile_motion.normalize
        rw [he]
        rfl
      rw [validateScenePlan_mkScenePlan "projectile_motion" "v1" raw projectileMotionSchema (by decide) (by decide) rfl]
      rw [show projectileMotionSchema.normalize = projectile_motion.normalize from rfl, hne]
    · intro pre k val post sa hpre hu
      have hloop := resolveAliases_first_unknown (projectile_motion.PARAM_MAP) pre k val post sa hpre hu
      have hne : projectile_motion.normalize (pre ++ (k, val) :: post) =
          .error (unknownParamMsg (projectile_motion.PARAM_MAP) k) := by
        unfold projectile_motion.normalize
        rw [hloop]
        rfl
      rw [validateScenePlan_mkScenePlan "projectile_motion" "v1" (pre ++ (k, val) :: post) projectileMotionSchema (by decide) (by decide) rfl]
      rw [show projectileMotionSchema.normalize = projectile_motion.normalize from rfl, hne]
      rfl
  · constructor
    · intro raw k hk hu
      obtain ⟨e, he⟩ := resolveAliases_unknown (uniform_circular_motion.PARAM_MAP) raw k hk hu
      have hne : uniform_circular_motion.normalize raw = .error e := by
        unfold uniform_circular_motion.normalize
        rw [he]
        rfl
      rw [validateScenePlan_mkScenePlan "uniform_circular_motion" "v1" raw uniformCircularMotionSchema (by decide) (by decide) rfl]
      rw [show uniformCircularMotionSchema.normalize = uniform_circular_motion.normalize from rfl, hne]
    · intro pre k val post sa hpre hu
      have hloop := resolveAliases_first_unknown (uniform_circular_motion.PARAM_MAP) pre k val post sa hpre hu
      have hne : uniform_circular_motion.normalize (pre ++ (k, val) :: post) =
          .error (unknownParamMsg (uniform_circular_motion.PARAM_MAP) k) := by
        unfold uniform_circular_motion.normalize
        rw [hloop]
        rfl
      rw [validateScenePlan_mkScenePlan "uniform_circular_motion" "v1" (pre ++ (k, val) :: post) uniformCircularMotionSchema (by decide) (by decide) rfl]
      rw [show uniformCircularMotionSchema.normalize = uniform_circular_motion.normalize from rfl, hne]
      rfl
  · constructor
    · intro raw k hk hu
      obtain ⟨e, he⟩ := resolveAliases_unknown (kepler_two_body_orbit.PARAM_MAP) raw k hk hu
      have hne : kepler_two_body_orbit.normalize raw = .error e := by
        unfold kepler_two_body_orbit.normalize
        rw [he]
        rfl
      rw [validateScenePlan_mkScenePlan "kepler_two_body_orbit" "v1" raw keplerTwoBodyOrbitSchema (by decide) (by decide) rfl]
      rw [show keplerTwoBodyOrbitSchema.normalize = kepler_two_body_orbit.normalize from rfl, hne]
    · intro pre k val post sa hpre hu
      have hloop := resolveAliases_first_unknown (kepler_two_body_orbit.PARAM_MAP) pre k val post sa hpre hu
      have hne : kepler_two_body_orbit.normalize (pre ++ (k, val) :: post) =
          .error (unknownParamMsg (kepler_two_body_orbit.PARAM_MAP) k) := by
        unfold kepler_two_body_orbit.normalize
        rw [hloop]
        rfl
      rw [validateScenePlan_mkScenePlan "kepler_two_body_orbit" "v1" (pre ++ (k, val) :: post) keplerTwoBodyOrbitSchema (by decide) (by decide) rfl]
      rw [show keplerTwoBodyOrbitSchema.normalize = kepler_two_body_orbit.normalize from rfl, hne]
      rfl
  · constructor
    · intro raw k hk hu
      obtain ⟨e, he⟩ := resolveAliases_unknown (laminar_internal_flow.PARAM_MAP) raw k hk hu
      have hne : laminar_internal_flow.normalize raw = .error e := by
        unfold laminar_internal_flow.normalize
        rw [he]
        rfl
      rw [validateScenePlan_mkScenePlan "laminar_internal_flow" "v1" raw laminarInternalFlowSchema (by decide) (by decide) rfl]
      rw [show laminarInternalFlowSchema.normalize = laminar_internal_flow.normalize from rfl, hne]
    · intro pre k val post sa hpre hu
      have hloop := resolveAliases_first_unknown (laminar_internal_flow.PARAM_MAP) pre k val post sa hpre hu
      have hne : laminar_internal_flow.normalize (pre ++ (k, val) :: post) =
          .error (unknownParamMsg (laminar_internal_flow.PARAM_MAP) k) := by
        unfold laminar_internal_flow.normalize
        rw [hloop]
        rfl
      rw [validateScenePlan_mkScenePlan "laminar_internal_flow" "v1" (pre ++ (k, val) :: post) laminarInternalFlowSchema (by decide) (by decide) rfl]
      rw [show laminarInternalFlowSchema.normalize = laminar_internal_flow.normalize from rfl, hne]
      rfl
  · constructor
    · intro raw k hk hu
      obtain ⟨e, he⟩ := resolveAliases_unknown (fluid_system.PARAM_MAP) raw k hk hu
      have hne : fluid_system.normalize raw = .error e := by
        unfold fluid_system.normalize
        rw [he]
        rfl
      rw [validateScenePlan_mkScenePlan "fluid_system" "v1" raw fluidSystemSchema (by decide) (by decide) rfl]
      rw [show fluidSystemSchema.normalize = fluid_system.normalize from rfl, hne]
    · intro pre k val post sa hpre hu
      have hloop := resolveAliases_first_unknown (fluid_system.PARAM_MAP) pre k val post sa hpre hu
      have hne : fluid_system.normalize (pre ++ (k, val) :: post) =
          .error (unknownParamMsg (fluid_system.PARAM_MAP) k) := by
        unfold fluid_system.normalize
        rw [hloop]
        rfl
      rw [validateScenePlan_mkScenePlan "fluid_system" "v1" (pre ++ (k, val) :: post) fluidSystemSchema (by decide) (by decide) rfl]
      rw [show fluidSystemSchema.normalize = fluid_system.normalize from rfl, hne]
      rfl
/-- C8 witness: harmonic oscillator with `bogus` after two clean keys. -/
theorem C8_amended_witness :
    validateScenePlan (mkScenePlan "harmonic_oscillator" "v1"
      [("amplitude", .num (.fin 1)), ("frequency", .num (.fin 1)),
       ("bogus", .num (.fin 5))]) =
      { valid := false,
        errors := ["Normalization failed: Unknown parameter: \"bogus\". Allowed: amplitude, A, frequency, f, phase"],
        canonicalScenePlan := none } := by
  have h := (C8_amended "harmonic_oscillator" "v1" (by decide)).2
    [("amplitude", .num (.fin 1)), ("frequency", .num (.fin 1))]
    "bogus" (.num (.fin 5)) []
    (["frequency", "amplitude"],
     [("amplitude", .num (.fin 1)), ("frequency", .num (.fin 1))])
    rfl rfl
  exact h

/-! ## Claim C1 (corrected): shape of the accepted output -/

/-- C1 counterexample: a fully successful validation returns a
`canonicalScenePlan` holding exactly `concept`, `schemaVersion` and
`parameters`; `parameterControlSpecs` is not among the fields of the returned
object (see `canonicalScenePlanFields`, transcribed from the
`ValidationResult` interface and the return literal), contradicting the
claim that the concept's static `parameterControlSpecs` array is included. -/
theorem C1_counterexample :
    validateScenePlan (mkScenePlan "harmonic_oscillator" "v1"
      [("amplitude", .num (.fin 1)), ("frequency", .num (.fin 1))]) =
      { valid := true, errors := [],
        canonicalScenePlan := some
          { concept := "harmonic_oscillator", schemaVersion := "v1",
            parameters := [("amplitude", .num (.fin 1)), ("frequency", .num (.fin 1)),
              ("phase", .num (.fin 0))] } } ∧
      "parameterControlSpecs" ∉ canonicalScenePlanFields :=
  ⟨rfl, by decide⟩

/-- C1 amended: for every raw plan on which all pipeline steps succeed,
`validateScenePlan` returns `valid:true` and a `CanonicalScenePlan`
containing the concept, schemaVersion and the canonical parameters — and
nothing else (in particular no `parameterControlSpecs`). -/
theorem C1_amended (c v : String) (raw : List (String × JsVal))
    (schema : SceneSchema) (p : Params)
    (hs : getSchema c v = some schema)
    (hn : schema.normalize raw = .ok p)
    (hstruct : schema.validateStructure p = [])
    (hcon : schema.contracts.filterMap (fun contract => contract p) = []) :
    validateScenePlan (mkScenePlan c v raw) =
      { valid := true, errors := [],
        canonicalScenePlan := some { concept := c, schemaVersion := v, parameters := p } } := by
  obtain ⟨hc, hv⟩ := getSchema_concept_ne_empty c v schema hs
  rw [validateScenePlan_mkScenePlan c v raw schema hc hv hs, hn]
  dsimp only
  rw [hstruct]
  dsimp only
  rw [hcon]

/-- C1 witness. -/
theorem C1_amended_witness :
    validateScenePlan (mkScenePlan "harmonic_oscillator" "v1"
      [("amplitude", .num (.fin 2)), ("frequency", .num (.fin 3))]) =
      { valid := true, errors := [],
        canonicalScenePlan := some
          { concept := "harmonic_oscillator", schemaVersion := "v1",
            parameters := [("amplitude", .num (.fin 2)), ("frequency", .num (.fin 3)),
              ("phase", .num (.fin 0))] } } :=
  C1_amended "harmonic_oscillator" "v1"
    [("amplitude", .num (.fin 2)), ("frequency", .num (.fin 3))]
    harmonicOscillatorSchema
    [("amplitude", .num (.fin 2)), ("frequency", .num (.fin 3)), ("phase", .num (.fin 0))]
    rfl rfl rfl rfl

/-! ## Claim C9: pipe-size derivation precedence -/

set_option maxHeartbeats 2000000 in
/-- C9: in the laminar normalizer with pipe geometry, `pipeRadius` takes
precedence over `pipeDiameter`, which takes precedence over
`hydraulicDiameter`: supplying all three succeeds (no inconsistency error)
and silently overwrites `pipeDiameter` and `hydraulicDiameter` with
`2 * pipeRadius`; supplying `pipeDiameter` and `hydraulicDiameter` succeeds
and overwrites `hydraulicDiameter` with the supplied `pipeDiameter`. -/
theorem C9_pipe_precedence (r d hq : ℚ) :
    laminar_internal_flow.normalize
        [("geometryType", .str "pipe"), ("pipeRadius", .num (.fin r)),
         ("pipeDiameter", .num (.fin d)), ("hydraulicDiameter", .num (.fin hq)),
         ("length", .num (.fin 1)), ("density", .num (.fin 1000)),
         ("dynamicViscosity", .num (.fin 1)), ("reynoldsNumber", .num (.fin 1500)),
         ("drivingMechanism", .str "velocity-driven"), ("meanVelocity", .num (.fin 2))] =
      .ok
        [("geometryType", .str "pipe"), ("pipeRadius", .num (.fin r)),
         ("pipeDiameter", .num (.fin (2 * r))), ("hydraulicDiameter", .num (.fin (2 * r))),
         ("length", .num (.fin 1)), ("density", .num (.fin 1000)),
         ("dynamicViscosity", .num (.fin 1)), ("reynoldsNumber", .num (.fin 1500)),
         ("drivingMechanism", .str "velocity-driven"), ("meanVelocity", .num (.fin 2)),
         ("transient", .bool false)] ∧
      laminar_internal_flow.normalize
        [("geometryType", .str "pipe"),
         ("pipeDiameter", .num (.fin d)), ("hydraulicDiameter", .num (.fin hq)),
         ("length", .num (.fin 1)), ("density", .num (.fin 1000)),
         ("dynamicViscosity", .num (.fin 1)), ("reynoldsNumber", .num (.fin 1500)),
         ("drivingMechanism", .str "velocity-driven"), ("meanVelocity", .num (.fin 2))] =
      .ok
        [("geometryType", .str "pipe"),
         ("pipeDiameter", .num (.fin d)), ("hydraulicDiameter", .num (.fin d)),
         ("length", .num (.fin 1)), ("density", .num (.fin 1000)),
         ("dynamicViscosity", .num (.fin 1)), ("reynoldsNumber", .num (.fin 1500)),
         ("drivingMechanism", .str "velocity-driven"), ("meanVelocity", .num (.fin 2)),
         ("pipeRadius", .num (.fin (d / 2))), ("transient", .bool false)] :=
  ⟨rfl, rfl⟩

/-! ## Claim C4: Reynolds regime gate -/

/-- Shared helper: once normalization and structure pass, the pipeline result
is decided by the list of contract violations. -/
theorem pipeline_result_of_ok (c v : String) (raw : List (String × JsVal))
    (schema : SceneSchema) (p : Params)
    (hs : getSchema c v = some schema)
    (hn : schema.normalize raw = .ok p)
    (hstruct : schema.validateStructure p = []) :
    validateScenePlan (mkScenePlan c v raw) =
      match schema.contracts.filterMap (fun contract => contract p) with
      | [] =>
        { valid := true, errors := [],
          canonicalScenePlan := some { concept := c, schemaVersion := v, parameters := p } }
      | vs => { valid := false, errors := vs, canonicalScenePlan := none } := by
  obtain ⟨hc, hv⟩ := getSchema_concept_ne_empty c v schema hs
  rw [validateScenePlan_mkScenePlan c v raw schema hc hv hs, hn]
  dsimp only
  rw [hstruct]

/-- Shared helper: a structural pass of the laminar validator certifies the
canonical strict parse. -/
theorem laminar_structure_zod (p : Params)
    (hstruct : laminar_internal_flow.validateStructure p = []) :
    zodStrictObject laminar_internal_flow.LaminarInternalFlow p = [] := by
  unfold laminar_internal_flow.validateStructure at hstruct
  cases hzz : zodStrictObject laminar_internal_flow.LaminarInternalFlow p with
  | nil => rfl
  | cons a l => rw [hzz] at hstruct; cases hstruct

/-- C4: any laminar plan that reaches the contract stage with a Reynolds
number at or above 2300 is rejected, and among the errors is the message
citing the `< 2300` requirement; the concrete `reynoldsNumber: 1500`,
velocity-driven, `meanVelocity: 2` plan (all other required fields valid) is
accepted. -/
theorem C4_reynolds_gate :
    (∀ (raw : List (String × JsVal)) (p : Params) (q : ℚ),
        laminar_internal_flow.normalize raw = .ok p →
        laminar_internal_flow.validateStructure p = [] →
        getKey p "reynoldsNumber" = some (.num (.fin q)) →
        2300 ≤ q →
        (validateScenePlan (mkScenePlan "laminar_internal_flow" "v1" raw)).valid = false ∧
          ("laminar_internal_flow requires Reynolds number < 2300, got " ++
              (JsNum.fin q).render ++ ".") ∈
            (validateScenePlan (mkScenePlan "laminar_internal_flow" "v1" raw)).errors) ∧
      (validateScenePlan (mkScenePlan "laminar_internal_flow" "v1"
        [("length", .num (.fin 1)), ("pipeRadius", .num (.fin (1/20))),
         ("density", .num (.fin 1000)), ("dynamicViscosity", .num (.fin (1/1000))),
         ("reynoldsNumber", .num (.fin 1500)), ("drivingMechanism", .str "velocity-driven"),
         ("meanVelocity", .num (.fin 2))])).valid = true := by
  constructor
  · intro raw p q hn hstruct hget hq
    rw [pipeline_result_of_ok "laminar_internal_flow" "v1" raw laminarInternalFlowSchema p
      rfl hn hstruct]
    have hnum : numField p "reynoldsNumber" = .fin q := by
      simp [numField, hget, JsVal.toNum]
    have hq0 : (0 : ℚ) ≤ q := le_trans (show (0 : ℚ) ≤ 2300 by norm_num) hq
    have hge : (numField p "reynoldsNumber").ge (.fin 0) = true := by
      rw [hnum]
      simp [JsNum.ge, JsNum.le, JsNum.lt, hq0]
    have hlt : (numField p "reynoldsNumber").lt (.fin 2300) = false := by
      rw [hnum]
      simp [JsNum.lt, hq]
    have hfm : ∃ rest, List.filterMap (fun contract => contract p)
        laminarInternalFlowSchema.contracts =
        ("laminar_internal_flow requires Reynolds number < 2300, got " ++
          (JsNum.fin q).render ++ ".") :: rest := by
      refine ⟨List.filterMap (fun contract => contract p)
        (List.drop 2 laminar_internal_flow.contracts), ?_⟩
      show List.filterMap (fun contract => contract p)
        laminar_internal_flow.contracts = _
      unfold laminar_internal_flow.contracts
      rw [List.filterMap_cons, List.filterMap_cons]
      dsimp only
      rw [hge, hlt, hnum]
      simp
    obtain ⟨rest, hfm⟩ := hfm
    rw [hfm]
    exact ⟨rfl, List.mem_cons_self _ _⟩
  · with_unfolding_all decide

set_option maxHeartbeats 2000000 in
/-- C4 witness: the spec's `reynoldsNumber: 3000` example (channel geometry
with explicit hydraulic diameter, all else valid). -/
theorem C4_witness :
    (validateScenePlan (mkScenePlan "laminar_internal_flow" "v1"
      [("geometryType", .str "channel"), ("length", .num (.fin 1)),
       ("hydraulicDiameter", .num (.fin (1/10))), ("density", .num (.fin 1000)),
       ("dynamicViscosity", .num (.fin (1/1000))), ("reynoldsNumber", .num (.fin 3000)),
       ("drivingMechanism", .str "velocity-driven"),
       ("meanVelocity", .num (.fin 2))])).valid = false ∧
      ("laminar_internal_flow requires Reynolds number < 2300, got " ++
          (JsNum.fin 3000).render ++ ".") ∈
        (validateScenePlan (mkScenePlan "laminar_internal_flow" "v1"
          [("geometryType", .str "channel"), ("length", .num (.fin 1)),
           ("hydraulicDiameter", .num (.fin (1/10))), ("density", .num (.fin 1000)),
           ("dynamicViscosity", .num (.fin (1/1000))), ("reynoldsNumber", .num (.fin 3000)),
           ("drivingMechanism", .str "velocity-driven"),
           ("meanVelocity", .num (.fin 2))])).errors :=
  C4_reynolds_gate.1
    [("geometryType", .str "channel"), ("length", .num (.fin 1)),
     ("hydraulicDiameter", .num (.fin (1/10))), ("density", .num (.fin 1000)),
     ("dynamicViscosity", .num (.fin (1/1000))), ("reynoldsNumber", .num (.fin 3000)),
     ("drivingMechanism", .str "velocity-driven"), ("meanVelocity", .num (.fin 2))]
    [("geometryType", .str "channel"), ("length", .num (.fin 1)),
     ("hydraulicDiameter", .num (.fin (1/10))), ("density", .num (.fin 1000)),
     ("dynamicViscosity", .num (.fin (1/1000))), ("reynoldsNumber", .num (.fin 3000)),
     ("drivingMechanism", .str "velocity-driven"), ("meanVelocity", .num (.fin 2)),
     ("transient", .bool false)]
    3000 (by rfl) (by with_unfolding_all decide) rfl (by norm_num)

/-! ## Claim C5 (corrected): driving-mechanism exclusivity -/

/-- C5 counterexample: a laminar plan supplying exactly the quantity matching
its declared mechanism (`pressure-driven` with `pressureGradient: 0`, all
other fields valid — witnessed by the same plan with `pressureGradient: -100`
being accepted) reaches the contract stage and is rejected, contradicting the
claim that supplying exactly the matching quantity is accepted. -/
theorem C5_counterexample :
    (validateScenePlan (mkScenePlan "laminar_internal_flow" "v1"
      [("geometryType", .str "channel"), ("length", .num (.fin 1)),
       ("hydraulicDiameter", .num (.fin (1/10))), ("density", .num (.fin 1000)),
       ("dynamicViscosity", .num (.fin (1/1000))), ("reynoldsNumber", .num (.fin 1500)),
       ("drivingMechanism", .str "pressure-driven"),
       ("pressureGradient", .num (.fin 0))])).valid = false ∧
      (validateScenePlan (mkScenePlan "laminar_internal_flow" "v1"
        [("geometryType", .str "channel"), ("length", .num (.fin 1)),
         ("hydraulicDiameter", .num (.fin (1/10))), ("density", .num (.fin 1000)),
         ("dynamicViscosity", .num (.fin (1/1000))), ("reynoldsNumber", .num (.fin 1500)),
         ("drivingMechanism", .str "pressure-driven"),
         ("pressureGradient", .num (.fin 0))])).errors =
        ["pressure-driven flow requires non-zero \"pressureGradient\"."] ∧
      (validateScenePlan (mkScenePlan "laminar_internal_flow" "v1"
        [("geometryType", .str "channel"), ("length", .num (.fin 1)),
         ("hydraulicDiameter", .num (.fin (1/10))), ("density", .num (.fin 1000)),
         ("dynamicViscosity", .num (.fin (1/1000))), ("reynoldsNumber", .num (.fin 1500)),
         ("drivingMechanism", .str "pressure-driven"),
         ("pressureGradient", .num (.fin (-100)))])).valid = true := by
  refine ⟨?_, ?_, ?_⟩ <;> with_unfolding_all decide

theorem laminar_contracts_eval (p : Params)
    (hge : (numField p "reynoldsNumber").ge (.fin 0) = true)
    (hlt : (numField p "reynoldsNumber").lt (.fin 2300) = true)
    (hgeo : strField p "geometryType" = "pipe")
    (hdm : strField p "drivingMechanism" = "velocity-driven") :
    (laminar_internal_flow.contracts.filterMap (fun contract => contract p) = [] ↔
      ((∃ v, getKey p "meanVelocity" = some v ∧ v.toNum.le (.fin 0) = false) ∧
        getKey p "pressureGradient" = none)) := by
  unfold laminar_internal_flow.contracts laminar_internal_flow.buildLaminarAssembly
  simp only [List.filterMap_cons]
  dsimp only
  rw [hge, hlt, hgeo, hdm]
  simp only [StateV.kind, StateV.dimension, MaterialV.kind, EvolutionV.kind,
    EvolutionV.incompressible, EvolutionV.newtonian, ForcingV.kind]
  simp
  cases hmv : getKey p "meanVelocity" with
  | none => simp
  | some v =>
    by_cases hle : v.toNum.le (.fin 0) = true
    · simp [hle]
    · cases hpg : getKey p "pressureGradient" with
      | none => simp [hle, hpg]
      | some w => simp [hle, hpg]
theorem laminar_contracts_eval_pressure (p : Params)
    (hge : (numField p "reynoldsNumber").ge (.fin 0) = true)
    (hlt : (numField p "reynoldsNumber").lt (.fin 2300) = true)
    (hgeo : strField p "geometryType" = "pipe")
    (hdm : strField p "drivingMechanism" = "pressure-driven") :
    (laminar_internal_flow.contracts.filterMap (fun contract => contract p) = [] ↔
      ((∃ v, getKey p "pressureGradient" = some v ∧
          laminar_internal_flow.isJsZero v = false) ∧
        getKey p "meanVelocity" = none)) := by
  unfold laminar_internal_flow.contracts laminar_internal_flow.buildLaminarAssembly
  simp only [List.filterMap_cons]
  dsimp only
  rw [hge, hlt, hgeo, hdm]
  simp only [StateV.kind, StateV.dimension, MaterialV.kind, EvolutionV.kind,
    EvolutionV.incompressible, EvolutionV.newtonian, ForcingV.kind]
  simp
  cases hpg : getKey p "pressureGradient" with
  | none => simp
  | some v =>
    by_cases hz : laminar_internal_flow.isJsZero v = true
    · simp [hz]
    · cases hmv : getKey p "meanVelocity" with
      | none => simp [hz, hmv]
      | some w => simp [hz, hmv]
theorem fluid_contracts_eval_velocity (p : Params)
    (hre0 : (fluid_system.nestedNum p "flowRegime" "reynoldsNumber").ge (.fin 0) = true)
    (htm : fluid_system.nestedGet p "flowRegime" "turbulenceModel" = none)
    (hdm : fluid_system.nestedStr p "flowConfiguration" "drivingMechanism" = "velocity-driven") :
    (fluid_system.contracts.filterMap (fun contract => contract p) = [] ↔
      ((fluid_system.nestedGet p "flowConfiguration" "inletVelocity").isSome = true ∧
        fluid_system.nestedGet p "flowConfiguration" "pressureGradient" = none)) := by
  unfold fluid_system.contracts
  simp only [List.filterMap_cons]
  rw [hre0, htm, hdm]
  simp
  cases hiv : fluid_system.nestedGet p "flowConfiguration" "inletVelocity" with
  | none =>
    cases hpg : fluid_system.nestedGet p "flowConfiguration" "pressureGradient" with
    | none => simp
    | some w => simp
  | some v =>
    cases hpg : fluid_system.nestedGet p "flowConfiguration" "pressureGradient" with
    | none => simp
    | some w => simp

theorem fluid_contracts_eval_pressure (p : Params)
    (hre0 : (fluid_system.nestedNum p "flowRegime" "reynoldsNumber").ge (.fin 0) = true)
    (htm : fluid_system.nestedGet p "flowRegime" "turbulenceModel" = none)
    (hdm : fluid_system.nestedStr p "flowConfiguration" "drivingMechanism" = "pressure-driven") :
    (fluid_system.contracts.filterMap (fun contract => contract p) = [] ↔
      ((fluid_system.nestedGet p "flowConfiguration" "pressureGradient").isSome = true ∧
        fluid_system.nestedGet p "flowConfiguration" "inletVelocity" = none)) := by
  unfold fluid_system.contracts
  simp only [List.filterMap_cons]
  rw [hre0, htm, hdm]
  simp
  cases hiv : fluid_system.nestedGet p "flowConfiguration" "inletVelocity" with
  | none =>
    cases hpg : fluid_system.nestedGet p "flowConfiguration" "pressureGradient" with
    | none => simp
    | some w => simp
  | some v =>
    cases hpg : fluid_system.nestedGet p "flowConfiguration" "pressureGradient" with
    | none => simp
    | some w => simp
theorem parseStep_nil (label : String) (issues : List String)
    (h : fluid_system.parseStep label issues = []) : issues = [] := by
  cases issues with
  | nil => rfl
  | cons a l => simp [fluid_system.parseStep] at h

theorem fluid_structure_fc (p : Params)
    (hs : fluid_system.validateStructure p = []) :
    ∃ fc, getKey p "flowConfiguration" = some (.obj fc) ∧
      zodStrictObject fluid_system.FlowConfiguration fc = [] := by
  unfold fluid_system.validateStructure at hs
  rw [List.append_eq_nil, List.append_eq_nil, List.append_eq_nil] at hs
  obtain ⟨⟨⟨_, _⟩, h3⟩, _⟩ := hs
  have h3 := parseStep_nil _ _ h3
  cases hx : getKey p "flowConfiguration" with
  | none => rw [hx] at h3; cases h3
  | some v =>
    rw [hx] at h3
    cases v with
    | obj fc => exact ⟨fc, rfl, h3⟩
    | num n => simp [fluid_system.zodObjVal] at h3
    | str t => simp [fluid_system.zodObjVal] at h3
    | bool b => simp [fluid_system.zodObjVal] at h3

/-- C5 amended: at the contract stage, a flow concept accepts exactly one of
the two driving quantities, matching the declared mechanism — with the
laminar amendment that the matching quantity must also be usable
(`meanVelocity > 0`, guaranteed structurally when present, and
`pressureGradient ≠ 0`, which rules out a supplied zero gradient); for
`fluid_system` any supplied matching quantity is accepted.  Supplying both,
neither, or the mismatched quantity is rejected in all cases. -/
theorem C5_amended :
    (∀ (raw : List (String × JsVal)) (p : Params),
        laminar_internal_flow.normalize raw = .ok p →
        laminar_internal_flow.validateStructure p = [] →
        strField p "geometryType" = "pipe" →
        (numField p "reynoldsNumber").ge (.fin 0) = true →
        (numField p "reynoldsNumber").lt (.fin 2300) = true →
        ((validateScenePlan (mkScenePlan "laminar_internal_flow" "v1" raw)).valid = true ↔
          ((strField p "drivingMechanism" = "velocity-driven" ∧
              (getKey p "meanVelocity").isSome = true ∧
              getKey p "pressureGradient" = none) ∨
            (strField p "drivingMechanism" = "pressure-driven" ∧
              (∃ g : ℚ, getKey p "pressureGradient" = some (.num (.fin g)) ∧ g ≠ 0) ∧
              getKey p "meanVelocity" = none)))) ∧
      ∀ (raw : List (String × JsVal)) (p : Params),
        fluid_system.normalize raw = .ok p →
        fluid_system.validateStructure p = [] →
        (fluid_system.nestedNum p "flowRegime" "reynoldsNumber").ge (.fin 0) = true →
        fluid_system.nestedGet p "flowRegime" "turbulenceModel" = none →
        ((validateScenePlan (mkScenePlan "fluid_system" "v1" raw)).valid = true ↔
          ((fluid_system.nestedStr p "flowConfiguration" "drivingMechanism" = "velocity-driven" ∧
              (fluid_system.nestedGet p "flowConfiguration" "inletVelocity").isSome = true ∧
              fluid_system.nestedGet p "flowConfiguration" "pressureGradient" = none) ∨
            (fluid_system.nestedStr p "flowConfiguration" "drivingMechanism" = "pressure-driven" ∧
              (fluid_system.nestedGet p "flowConfiguration" "pressureGradient").isSome = true ∧
              fluid_system.nestedGet p "flowConfiguration" "inletVelocity" = none))) := by
  constructor
  · intro raw p hn hstruct hgeo hre0 hre
    rw [pipeline_result_of_ok "laminar_internal_flow" "v1" raw laminarInternalFlowSchema p
      rfl hn hstruct]
    have hzod := laminar_structure_zod p hstruct
    obtain ⟨vdm, hdmget, hdmchk⟩ := zod_pass_required laminar_internal_flow.LaminarInternalFlow
      p ⟨"drivingMechanism", true, zEnum ["velocity-driven", "pressure-driven"]⟩ hzod
      (by simp [laminar_internal_flow.LaminarInternalFlow]) rfl
    obtain ⟨sdm, hvs, hmem⟩ := zEnum_none_elim _ _ hdmchk
    have hdm : strField p "drivingMechanism" = sdm := by
      unfold strField
      rw [hdmget, hvs]
    have hmvpos : ∀ w, getKey p "meanVelocity" = some w → w.toNum.le (.fin 0) = false := by
      intro w hw
      have hchk := (zod_pass laminar_internal_flow.LaminarInternalFlow p hzod).1
        ⟨"meanVelocity", false, zPositiveFiniteNumber⟩
        (by simp [laminar_internal_flow.LaminarInternalFlow])
      rw [hw] at hchk
      obtain ⟨u, rfl, hu⟩ := zPositiveFiniteNumber_none_elim w hchk
      simp [JsVal.toNum, JsNum.le, JsNum.lt, hu]
    have hpgfin : ∀ w, getKey p "pressureGradient" = some w → ∃ g : ℚ, w = .num (.fin g) := by
      intro w hw
      have hchk := (zod_pass laminar_internal_flow.LaminarInternalFlow p hzod).1
        ⟨"pressureGradient", false, zFiniteNumber⟩
        (by simp [laminar_internal_flow.LaminarInternalFlow])
      rw [hw] at hchk
      exact zFiniteNumber_none_elim w hchk
    have hschema : laminarInternalFlowSchema.contracts = laminar_internal_flow.contracts := rfl
    rcases (by simpa using hmem : sdm = "velocity-driven" ∨ sdm = "pressure-driven") with h | h
    · subst h
      have hiff := laminar_contracts_eval p hre0 hre hgeo hdm
      rw [hschema]
      cases hfm : laminar_internal_flow.contracts.filterMap (fun contract => contract p) with
      | nil =>
        obtain ⟨⟨w, hw, _⟩, hpgnone⟩ := hiff.1 hfm
        dsimp only
        constructor
        · intro _
          exact Or.inl ⟨hdm, by rw [hw]; rfl, hpgnone⟩
        · intro _
          rfl
      | cons e rest =>
        dsimp only
        constructor
        · intro hvalid
          cases hvalid
        · rintro (⟨_, hsome, hpgnone⟩ | ⟨hcontra, _, _⟩)
          · obtain ⟨w, hw⟩ := Option.isSome_iff_exists.1 hsome
            have hnil : laminar_internal_flow.contracts.filterMap
                (fun contract => contract p) = [] :=
              hiff.2 ⟨⟨w, hw, hmvpos w hw⟩, hpgnone⟩
            rw [hfm] at hnil
            cases hnil
          · rw [hdm] at hcontra
            exact absurd hcontra (by decide)
    · subst h
      have hiff := laminar_contracts_eval_pressure p hre0 hre hgeo hdm
      rw [hschema]
      cases hfm : laminar_internal_flow.contracts.filterMap (fun contract => contract p) with
      | nil =>
        obtain ⟨⟨w, hw, hz⟩, hmvnone⟩ := hiff.1 hfm
        obtain ⟨g, rfl⟩ := hpgfin w hw
        have hg : g ≠ 0 := by
          intro hg0
          rw [hg0] at hz
          simp [laminar_internal_flow.isJsZero] at hz
        dsimp only
        constructor
        · intro _
          exact Or.inr ⟨hdm, ⟨g, hw, hg⟩, hmvnone⟩
        · intro _
          rfl
      | cons e rest =>
        dsimp only
        constructor
        · intro hvalid
          cases hvalid
        · rintro (⟨hcontra, _, _⟩ | ⟨_, ⟨g, hw, hg⟩, hmvnone⟩)
          · rw [hdm] at hcontra
            exact absurd hcontra (by decide)
          · have hz : laminar_internal_flow.isJsZero (.num (.fin g)) = false := by
              simp [laminar_internal_flow.isJsZero, hg]
            have hnil : laminar_internal_flow.contracts.filterMap
                (fun contract => contract p) = [] :=
              hiff.2 ⟨⟨.num (.fin g), hw, hz⟩, hmvnone⟩
            rw [hfm] at hnil
            cases hnil
  · intro raw p hn hstruct hre0 htm
    rw [pipeline_result_of_ok "fluid_system" "v1" raw fluidSystemSchema p rfl hn hstruct]
    obtain ⟨fc, hfc, hzfc⟩ := fluid_structure_fc p hstruct
    obtain ⟨vdm, hdmget, hdmchk⟩ := zod_pass_required fluid_system.FlowConfiguration fc
      ⟨"drivingMechanism", true, zEnum ["pressure-driven", "velocity-driven"]⟩ hzfc
      (by simp [fluid_system.FlowConfiguration]) rfl
    obtain ⟨sdm, hvs, hmem⟩ := zEnum_none_elim _ _ hdmchk
    have hdm : fluid_system.nestedStr p "flowConfiguration" "drivingMechanism" = sdm := by
      unfold fluid_system.nestedStr fluid_system.nestedGet
      rw [hfc]
      dsimp only at hdmget ⊢
      rw [hdmget, hvs]
    have hschema : fluidSystemSchema.contracts = fluid_system.contracts := rfl
    rw [hschema]
    rcases (by simpa using hmem : sdm = "pressure-driven" ∨ sdm = "velocity-driven") with h | h
    · subst h
      have hiff := fluid_contracts_eval_pressure p hre0 htm hdm
      cases hfm : fluid_system.contracts.filterMap (fun contract => contract p) with
      | nil =>
        obtain ⟨hsome, hivnone⟩ := hiff.1 hfm
        dsimp only
        constructor
        · intro _
          exact Or.inr ⟨hdm, hsome, hivnone⟩
        · intro _
          rfl
      | cons e rest =>
        dsimp only
        constructor
        · intro hvalid
          cases hvalid
        · rintro (⟨hcontra, _, _⟩ | ⟨_, hsome, hivnone⟩)
          · rw [hdm] at hcontra
            exact absurd hcontra (by decide)
          · have hnil : fluid_system.contracts.filterMap (fun contract => contract p) = [] :=
              hiff.2 ⟨hsome, hivnone⟩
            rw [hfm] at hnil
            cases hnil
    · subst h
      have hiff := fluid_contracts_eval_velocity p hre0 htm hdm
      cases hfm : fluid_system.contracts.filterMap (fun contract => contract p) with
      | nil =>
        obtain ⟨hsome, hpgnone⟩ := hiff.1 hfm
        dsimp only
        constructor
        · intro _
          exact Or.inl ⟨hdm, hsome, hpgnone⟩
        · intro _
          rfl
      | cons e rest =>
        dsimp only
        constructor
        · intro hvalid
          cases hvalid
        · rintro (⟨_, hsome, hpgnone⟩ | ⟨hcontra, _, _⟩)
          · have hnil : fluid_system.contracts.filterMap (fun contract => contract p) = [] :=
              hiff.2 ⟨hsome, hpgnone⟩
            rw [hfm] at hnil
            cases hnil
          · rw [hdm] at hcontra
            exact absurd hcontra (by decide)
theorem C5_amended_witness :
    (validateScenePlan (mkScenePlan "laminar_internal_flow" "v1"
      [("length", .num (.fin 1)), ("pipeRadius", .num (.fin 1)),
       ("density", .num (.fin 1)), ("dynamicViscosity", .num (.fin 1)),
       ("reynoldsNumber", .num (.fin 1500)), ("meanVelocity", .num (.fin 3))])).valid = true ∧
    (validateScenePlan (mkScenePlan "fluid_system" "v1"
      [("geometry", .obj [("type", .str "pipe"), ("characteristicLength", .num (.fin 1)),
         ("dimensions", .obj [("length", .num (.fin 1)), ("diameter", .num (.fin 1))]),
         ("orientation", .obj [("axis", .str "x"), ("direction", .str "positive")])]),
       ("fluidProperties", .obj [("density", .num (.fin 1)),
         ("dynamicViscosity", .num (.fin 1))]),
       ("flowConfiguration", .obj [("drivingMechanism", .str "velocity-driven"),
         ("inletVelocity", .num (.fin 1)),
         ("boundaryConditions", .obj [("inlet", .str "specified-velocity"),
           ("outlet", .str "specified-pressure"), ("walls", .str "no-slip")]),
         ("transient", .bool false)]),
       ("flowRegime", .obj [("reynoldsNumber", .num (.fin 100)),
         ("regimeType", .str "laminar")])])).valid = true := by
  constructor
  · exact (C5_amended.1
      [("length", .num (.fin 1)), ("pipeRadius", .num (.fin 1)),
       ("density", .num (.fin 1)), ("dynamicViscosity", .num (.fin 1)),
       ("reynoldsNumber", .num (.fin 1500)), ("meanVelocity", .num (.fin 3))]
      [("length", .num (.fin 1)), ("pipeRadius", .num (.fin 1)),
       ("density", .num (.fin 1)), ("dynamicViscosity", .num (.fin 1)),
       ("reynoldsNumber", .num (.fin 1500)), ("meanVelocity", .num (.fin 3)),
       ("geometryType", .str "pipe"),
       ("pipeDiameter", .num (.fin (2 * 1))), ("hydraulicDiameter", .num (.fin (2 * 1))),
       ("drivingMechanism", .str "velocity-driven"), ("transient", .bool false)]
      rfl (by with_unfolding_all decide) rfl
      (by with_unfolding_all decide) (by with_unfolding_all decide)).2
      (Or.inl ⟨rfl, rfl, rfl⟩)
  · exact (C5_amended.2
      [("geometry", .obj [("type", .str "pipe"), ("characteristicLength", .num (.fin 1)),
         ("dimensions", .obj [("length", .num (.fin 1)), ("diameter", .num (.fin 1))]),
         ("orientation", .obj [("axis", .str "x"), ("direction", .str "positive")])]),
       ("fluidProperties", .obj [("density", .num (.fin 1)),
         ("dynamicViscosity", .num (.fin 1))]),
       ("flowConfiguration", .obj [("drivingMechanism", .str "velocity-driven"),
         ("inletVelocity", .num (.fin 1)),
         ("boundaryConditions", .obj [("inlet", .str "specified-velocity"),
           ("outlet", .str "specified-pressure"), ("walls", .str "no-slip")]),
         ("transient", .bool false)]),
       ("flowRegime", .obj [("reynoldsNumber", .num (.fin 100)),
         ("regimeType", .str "laminar")])]
      [("geometry", .obj [("type", .str "pipe"), ("characteristicLength", .num (.fin 1)),
         ("dimensions", .obj [("length", .num (.fin 1)), ("diameter", .num (.fin 1))]),
         ("orientation", .obj [("axis", .str "x"), ("direction", .str "positive")])]),
       ("fluidProperties", .obj [("density", .num (.fin 1)),
         ("dynamicViscosity", .num (.fin 1))]),
       ("flowConfiguration", .obj [("drivingMechanism", .str "velocity-driven"),
         ("inletVelocity", .num (.fin 1)),
         ("boundaryConditions", .obj [("inlet", .str "specified-velocity"),
           ("outlet", .str "specified-pressure"), ("walls", .str "no-slip")]),
         ("transient", .bool false)]),
       ("flowRegime", .obj [("reynoldsNumber", .num (.fin 100)),
         ("regimeType", .str "laminar")])]
      rfl (by with_unfolding_all decide)
      (by with_unfolding_all decide) rfl).2 (Or.inl ⟨rfl, rfl, rfl⟩)
theorem mustBeFiniteNumber_nil (p : Params) (f : String) :
    harmonic_oscillator.mustBeFiniteNumber p f = [] ↔
      ∃ n : JsNum, getKey p f = some (.num n) ∧ n.isNan = false := by
  unfold harmonic_oscillator.mustBeFiniteNumber
  cases hx : getKey p f with
  | none => simp
  | some v =>
    cases v with
    | num n =>
      cases hn : JsNum.isNan n with
      | true => simp [hn]
      | false => simp [hn]
    | str s => simp
    | bool b => simp
    | obj o => simp

/-- C3 counterexample: `harmonic_oscillator`'s structural validator accepts
`Infinity` and ignores extra keys, `fluid_system`'s ignores extra top-level
keys, and a harmonic plan with an infinite amplitude passes the full pipeline
— contradicting the spec's universal strict-shape claim. -/
theorem C3_counterexample :
    harmonic_oscillator.validateStructure
        [("amplitude", .num .inf), ("frequency", .num (.fin 1)),
         ("phase", .num (.fin 0))] = [] ∧
      harmonic_oscillator.validateStructure
        [("amplitude", .num (.fin 1)), ("frequency", .num (.fin 1)),
         ("phase", .num (.fin 0)), ("extraneous", .bool true)] = [] ∧
      fluid_system.validateStructure
        [("geometry", .obj [("type", .str "pipe"), ("characteristicLength", .num (.fin 1)),
           ("dimensions", .obj [("length", .num (.fin 1)), ("diameter", .num (.fin 1))]),
           ("orientation", .obj [("axis", .str "x"), ("direction", .str "positive")])]),
         ("fluidProperties", .obj [("density", .num (.fin 1)),
           ("dynamicViscosity", .num (.fin 1))]),
         ("flowConfiguration", .obj [("drivingMechanism", .str "velocity-driven"),
           ("inletVelocity", .num (.fin 1)),
           ("boundaryConditions", .obj [("inlet", .str "specified-velocity"),
             ("outlet", .str "specified-pressure"), ("walls", .str "no-slip")]),
           ("transient", .bool false)]),
         ("flowRegime", .obj [("reynoldsNumber", .num (.fin 100)),
           ("regimeType", .str "laminar")]),
         ("extraTopLevel", .num (.fin 7))] = [] ∧
      (validateScenePlan (mkScenePlan "harmonic_oscillator" "v1"
        [("amplitude", .num .inf), ("frequency", .num (.fin 1))])).valid = true := by
  refine ⟨rfl, rfl, by with_unfolding_all decide, by with_unfolding_all decide⟩

/-- C3 amended: strict-shape enforcement holds for the zod-strict concepts —
`laminar_internal_flow`'s validator rejects any parameter map carrying a key
outside the canonical field set, and rejects a `length` that is not a finite
number — while `harmonic_oscillator`'s validator enforces exactly that
`amplitude`, `frequency` and `phase` are non-`NaN` numbers (extra keys and
infinities pass). -/
theorem C3_amended :
    (∀ (p : Params) (k : String) (v : JsVal),
        getKey p k = some v →
        k ∉ laminar_internal_flow.LaminarInternalFlow.map FieldSpec.key →
        laminar_internal_flow.validateStructure p ≠ []) ∧
      (∀ (p : Params) (v : JsVal),
        getKey p "length" = some v →
        (∀ q : ℚ, v ≠ .num (.fin q)) →
        laminar_internal_flow.validateStructure p ≠ []) ∧
      ∀ p : Params,
        harmonic_oscillator.validateStructure p = [] ↔
          ∀ f ∈ ["amplitude", "frequency", "phase"],
            ∃ n : JsNum, getKey p f = some (.num n) ∧ n.isNan = false := by
  refine ⟨?_, ?_, ?_⟩
  · intro p k v hget hk hnil
    exact zod_fail_of_unknown_key laminar_internal_flow.LaminarInternalFlow p k v hget hk
      (laminar_structure_zod p hnil)
  · intro p v hget hnf hnil
    have hzod := laminar_structure_zod p hnil
    have hchk := (zod_pass laminar_internal_flow.LaminarInternalFlow p hzod).1
      ⟨"length", true, zPositiveFiniteNumber⟩
      (by simp [laminar_internal_flow.LaminarInternalFlow])
    rw [hget] at hchk
    obtain ⟨q, rfl, _⟩ := zPositiveFiniteNumber_none_elim v hchk
    exact hnf q rfl
  · intro p
    unfold harmonic_oscillator.validateStructure
    rw [List.append_eq_nil, List.append_eq_nil]
    constructor
    · rintro ⟨⟨ha, hb⟩, hc⟩ f hf
      simp only [List.mem_cons, List.not_mem_nil, or_false] at hf
      rcases hf with rfl | rfl | rfl
      · exact (mustBeFiniteNumber_nil p "amplitude").1 ha
      · exact (mustBeFiniteNumber_nil p "frequency").1 hb
      · exact (mustBeFiniteNumber_nil p "phase").1 hc
    · intro h
      exact ⟨⟨(mustBeFiniteNumber_nil p "amplitude").2 (h "amplitude" (by simp)),
        (mustBeFiniteNumber_nil p "frequency").2 (h "frequency" (by simp))⟩,
        (mustBeFiniteNumber_nil p "phase").2 (h "phase" (by simp))⟩

theorem C3_amended_witness :
    laminar_internal_flow.validateStructure [("bogusKey", .num (.fin 1))] ≠ [] ∧
      laminar_internal_flow.validateStructure [("length", .num .inf)] ≠ [] ∧
      harmonic_oscillator.validateStructure
        [("amplitude", .num (.fin 2)), ("frequency", .num (.fin 5)),
         ("phase", .num (.fin 0))] = [] := by
  refine ⟨?_, ?_, ?_⟩
  · exact C3_amended.1 [("bogusKey", .num (.fin 1))] "bogusKey" (.num (.fin 1)) rfl
      (by simp [laminar_internal_flow.LaminarInternalFlow])
  · exact C3_amended.2.1 [("length", .num .inf)] (.num .inf) rfl
      (by intro q h; simp at h)
  · exact (C3_amended.2.2
      [("amplitude", .num (.fin 2)), ("frequency", .num (.fin 5)),
       ("phase", .num (.fin 0))]).2 (by
        intro f hf
        simp only [List.mem_cons, List.not_mem_nil, or_false] at hf
        rcases hf with rfl | rfl | rfl
        · exact ⟨.fin 2, rfl, rfl⟩
        · exact ⟨.fin 5, rfl, rfl⟩
        · exact ⟨.fin 0, rfl, rfl⟩)
theorem fin_add (x y : ℚ) : JsNum.add (.fin x) (.fin y) = .fin (x + y) := rfl

theorem fin_mul (x y : ℚ) : JsNum.mul (.fin x) (.fin y) = .fin (x * y) := rfl

theorem fin_max2 (x y : ℚ) : JsNum.max2 (.fin x) (.fin y) = .fin (max x y) := by
  unfold JsNum.max2 JsNum.lt
  by_cases h : x < y
  · simp [h, max_eq_right (le_of_lt h)]
  · simp [h, max_eq_left (not_lt.1 h)]

theorem fin_div (x y : ℚ) (hy : ¬(y = 0)) :
    JsNum.div (.fin x) (.fin y) = .fin (x / y) := by
  unfold JsNum.div
  simp [hy]

theorem fin_sqrt (x : ℚ) (hx : 0 ≤ x) : jsSqrtN (.fin x) = .fin (jsSqrtQ x) := by
  unfold jsSqrtN
  simp [hx]

/-- The canonical parameter list of the C7 example plan and the assembly the
builder derives from it, for arbitrary values `a`, `b` of the trig stand-ins:
the grown domain extents are some positive finite numbers whatever
`Math.cos`/`Math.sin` return, so the end-to-end verdict is insensitive to the
polynomial stand-ins used for them. -/
theorem projectile_build_shape (a b : ℚ) :
    ∃ R W H : ℚ,
      projectile_motion.buildProjectileAssemblyWith (.fin a) (.fin b)
        [("initialSpeed", .num (.fin 20)), ("launchAngleDeg", .num (.fin 45)),
         ("gravity", .num (.fin (981 / 100))), ("initialHeight", .num (.fin 0)),
         ("mass", .num (.fin 1)), ("dragCoefficient", .num (.fin 0))] =
      { state := .pointMass "2d" (.fin 1),
        domain := .rect_2d (.fin R) (.fin W) (.fin H) ⟨"x", "positive"⟩,
        material := .inertial_particle (.fin 0),
        constraints := [.specified_value "state.y0" "initialHeight" (.fin 0),
          .free "state.trajectory"],
        forcing := .constant_field "gravity" (.fin (-(981 / 100))) (some "y"),
        evolution := .kinematic true "inertial" } ∧ 0 < R ∧ 0 < W ∧ 0 < H := by
  have hg0 : ¬((981:ℚ) / 100 = 0) := by norm_num
  have h2g0 : ¬(2 * ((981:ℚ) / 100) = 0) := by norm_num
  have hvy2 : (0:ℚ) ≤ 20 * b * (20 * b) + 2 * (981 / 100) * 0 := by
    nlinarith [mul_self_nonneg (20 * b)]
  have hd : ∀ x : ℚ, JsNum.div (.fin x) (.fin (981 / 100)) = .fin (x / (981 / 100)) :=
    fun x => fin_div x _ hg0
  have hd2 : ∀ x : ℚ, JsNum.div (.fin x) (.fin (2 * (981 / 100))) =
      .fin (x / (2 * (981 / 100))) :=
    fun x => fin_div x _ h2g0
  refine ⟨max (max (max 1 (20 * a * ((20 * b + jsSqrtQ (20 * b * (20 * b) + 2 * (981 / 100) * 0)) / (981 / 100)))) (0 + 20 * b * (20 * b) / (2 * (981 / 100)))) 1,
    max ((max 1 (20 * a * ((20 * b + jsSqrtQ (20 * b * (20 * b) + 2 * (981 / 100) * 0)) / (981 / 100)))) * (11 / 10)) 1,
    max ((0 + 20 * b * (20 * b) / (2 * (981 / 100))) * (12 / 10)) 1, ?_, ?_, ?_, ?_⟩
  · have hstep : projectile_motion.buildProjectileAssemblyWith (.fin a) (.fin b)
        [("initialSpeed", .num (.fin 20)), ("launchAngleDeg", .num (.fin 45)),
         ("gravity", .num (.fin (981 / 100))), ("initialHeight", .num (.fin 0)),
         ("mass", .num (.fin 1)), ("dragCoefficient", .num (.fin 0))] =
      { state := .pointMass "2d" (.fin 1),
        domain := .rect_2d
          (JsNum.max3
            (JsNum.max2 (.fin 1) (JsNum.mul (.fin (20 * a))
              (JsNum.div (JsNum.add (.fin (20 * b))
                (jsSqrtN (.fin (20 * b * (20 * b) + 2 * (981 / 100) * 0))))
                (.fin (981 / 100)))))
            (JsNum.add (.fin 0)
              (JsNum.div (.fin (20 * b * (20 * b))) (.fin (2 * (981 / 100)))))
            (.fin 1))
          (JsNum.max2 (JsNum.mul
            (JsNum.max2 (.fin 1) (JsNum.mul (.fin (20 * a))
              (JsNum.div (JsNum.add (.fin (20 * b))
                (jsSqrtN (.fin (20 * b * (20 * b) + 2 * (981 / 100) * 0))))
                (.fin (981 / 100)))))
            (.fin (11 / 10))) (.fin 1))
          (JsNum.max2 (JsNum.mul
            (JsNum.add (.fin 0)
              (JsNum.div (.fin (20 * b * (20 * b))) (.fin (2 * (981 / 100)))))
            (.fin (12 / 10))) (.fin 1))
          ⟨"x", "positive"⟩,
        material := .inertial_particle (.fin 0),
        constraints := [.specified_value "state.y0" "initialHeight" (.fin 0),
          .free "state.trajectory"],
        forcing := .constant_field "gravity" (.fin (-(981 / 100))) (some "y"),
        evolution := .kinematic true "inertial" } := rfl
    rw [hstep, fin_sqrt _ hvy2]
    simp only [fin_add, hd, hd2, fin_mul, JsNum.max3, fin_max2]
  · exact lt_of_lt_of_le one_pos (le_max_right _ _)
  · exact lt_of_lt_of_le one_pos (le_max_right _ _)
  · exact lt_of_lt_of_le one_pos (le_max_right _ _)

/-- The assembly zod checks pass for every positive finite domain extent. -/
theorem projectile_check_clean (R W H : ℚ) (hR : 0 < R) (hW : 0 < W) (hH : 0 < H) :
    projectile_motion.checkProjectileAssembly
      { state := .pointMass "2d" (.fin 1),
        domain := .rect_2d (.fin R) (.fin W) (.fin H) ⟨"x", "positive"⟩,
        material := .inertial_particle (.fin 0),
        constraints := [.specified_value "state.y0" "initialHeight" (.fin 0),
          .free "state.trajectory"],
        forcing := .constant_field "gravity" (.fin (-(981 / 100))) (some "y"),
        evolution := .kinematic true "inertial" } = [] := by
  unfold projectile_motion.checkProjectileAssembly
  simp [checkPointMassState, checkRect2DDomain, checkInertialParticleMaterial,
    checkConstraints, checkConstraint, checkConstantFieldForcing, checkKinematicEvolution,
    checkOrientation, posFinIssue, nonNegFinIssue, finIssue, enumIssue, strMin1Issue,
    hR, hW, hH]
  refine ⟨?_, ?_, ?_, ?_⟩ <;> decide
/-- C7: the end-to-end example plan with `v0: 20`, `thetaDeg: 45` is accepted
with the fully defaulted canonical parameters (`gravity` 9.81, `initialHeight`
0, `mass` 1, `dragCoefficient` 0), and the derived Assembly carries a
`constant_field` forcing for quantity `gravity` with negative (downward)
magnitude. -/
theorem C7_end_to_end :
    validateScenePlan (mkScenePlan "projectile_motion" "v1"
        [("v0", .num (.fin 20)), ("thetaDeg", .num (.fin 45))]) =
      { valid := true, errors := [],
        canonicalScenePlan := some
          { concept := "projectile_motion", schemaVersion := "v1",
            parameters := [("initialSpeed", .num (.fin 20)), ("launchAngleDeg", .num (.fin 45)),
        ("gravity", .num (.fin (981 / 100))), ("initialHeight", .num (.fin 0)),
        ("mass", .num (.fin 1)), ("dragCoefficient", .num (.fin 0))] } } ∧
      (projectile_motion.buildProjectileAssembly
          [("initialSpeed", .num (.fin 20)), ("launchAngleDeg", .num (.fin 45)),
        ("gravity", .num (.fin (981 / 100))), ("initialHeight", .num (.fin 0)),
        ("mass", .num (.fin 1)), ("dragCoefficient", .num (.fin 0))]).forcing =
        .constant_field "gravity" (.fin (-(981 / 100))) (some "y") ∧
      (-(981 / 100) : ℚ) < 0 := by
  obtain ⟨R, W, H, hA, hR, hW, hH⟩ :=
    projectile_build_shape (jsCosQ (45 * jsPI / 180)) (jsSinQ (45 * jsPI / 180))
  have hθ : projectile_motion.thetaRad
      [("initialSpeed", .num (.fin 20)), ("launchAngleDeg", .num (.fin 45)),
        ("gravity", .num (.fin (981 / 100))), ("initialHeight", .num (.fin 0)),
        ("mass", .num (.fin 1)), ("dragCoefficient", .num (.fin 0))] = .fin (45 * jsPI / 180) :=
    Eq.trans (rfl : _ = JsNum.div (.fin (45 * jsPI)) (.fin 180)) (fin_div _ _ (by norm_num))
  have hbuild : projectile_motion.buildProjectileAssembly
      [("initialSpeed", .num (.fin 20)), ("launchAngleDeg", .num (.fin 45)),
        ("gravity", .num (.fin (981 / 100))), ("initialHeight", .num (.fin 0)),
        ("mass", .num (.fin 1)), ("dragCoefficient", .num (.fin 0))] =
      projectile_motion.buildProjectileAssemblyWith (.fin (jsCosQ (45 * jsPI / 180)))
        (.fin (jsSinQ (45 * jsPI / 180)))
        [("initialSpeed", .num (.fin 20)), ("launchAngleDeg", .num (.fin 45)),
        ("gravity", .num (.fin (981 / 100))), ("initialHeight", .num (.fin 0)),
        ("mass", .num (.fin 1)), ("dragCoefficient", .num (.fin 0))] := by
    unfold projectile_motion.buildProjectileAssembly
    rw [hθ]
    rfl
  have hb := hbuild.trans hA
  have hzodP : zodStrictObject projectile_motion.ProjectileMotion
      [("initialSpeed", .num (.fin 20)), ("launchAngleDeg", .num (.fin 45)),
        ("gravity", .num (.fin (981 / 100))), ("initialHeight", .num (.fin 0)),
        ("mass", .num (.fin 1)), ("dragCoefficient", .num (.fin 0))] = [] := by
    with_unfolding_all decide
  have hstruct : projectile_motion.validateStructure
      [("initialSpeed", .num (.fin 20)), ("launchAngleDeg", .num (.fin 45)),
        ("gravity", .num (.fin (981 / 100))), ("initialHeight", .num (.fin 0)),
        ("mass", .num (.fin 1)), ("dragCoefficient", .num (.fin 0))] = [] := by
    unfold projectile_motion.validateStructure
    rw [hzodP]
    dsimp only
    rw [hb, projectile_check_clean R W H hR hW hH]
    rfl
  have hcontr : projectile_motion.contracts.filterMap (fun contract => contract
      [("initialSpeed", .num (.fin 20)), ("launchAngleDeg", .num (.fin 45)),
        ("gravity", .num (.fin (981 / 100))), ("initialHeight", .num (.fin 0)),
        ("mass", .num (.fin 1)), ("dragCoefficient", .num (.fin 0))]) = [] := by
    with_unfolding_all decide
  refine ⟨?_, ?_, by norm_num⟩
  · rw [pipeline_result_of_ok "projectile_motion" "v1"
      [("v0", .num (.fin 20)), ("thetaDeg", .num (.fin 45))] projectileMotionSchema
      [("initialSpeed", .num (.fin 20)), ("launchAngleDeg", .num (.fin 45)),
        ("gravity", .num (.fin (981 / 100))), ("initialHeight", .num (.fin 0)),
        ("mass", .num (.fin 1)), ("dragCoefficient", .num (.fin 0))] rfl rfl hstruct]
    rw [show projectileMotionSchema.contracts = projectile_motion.contracts from rfl, hcontr]
  · rw [hb]
theorem pureE {α : Type} (x : α) : (pure x : Except String α) = .ok x := rfl

/-- The canonical keys of every alias table map to themselves, so a canonical
parameter set re-enters the alias loop unchanged. -/
theorem harmonic_normalize_idem (raw p : List (String × JsVal))
    (h : harmonic_oscillator.normalize raw = .ok p) :
    harmonic_oscillator.normalize p = .ok p := by
  have hself : ∀ k ∈ harmonic_oscillator.PARAM_MAP.map Prod.snd,
      lookupMap harmonic_oscillator.PARAM_MAP k = some k := by decide
  unfold harmonic_oscillator.normalize at h ⊢
  cases hra : resolveAliases harmonic_oscillator.PARAM_MAP raw with
  | error e => rw [hra, eb_err] at h; cases h
  | ok r2 =>
    rw [hra, eb_ok] at h
    cases hq1 : requireKey r2 "amplitude"
        "Missing required parameter: \"amplitude\" (or alias \"A\")." with
    | error e => rw [hq1, eb_err] at h; cases h
    | ok r1 =>
      obtain ⟨he1, hk1⟩ := requireKey_eq_ok r2 r1 _ _ hq1
      subst he1
      rw [hq1, eb_ok] at h
      cases hq2 : requireKey r1 "frequency"
          "Missing required parameter: \"frequency\" (or alias \"f\")." with
      | error e => rw [hq2, eb_err] at h; cases h
      | ok r2 =>
        obtain ⟨he2, hk2⟩ := requireKey_eq_ok r1 r2 _ _ hq2
        subst he2
        rw [hq2, eb_ok, pureE] at h
        injection h with h
        subst h
        obtain ⟨hvals, hnd0⟩ := resolveAliases_ok_keys _ raw r2 hra
        have hkv : ∀ k ∈ keysOf (defaultKey r2 "phase" (.num (.fin 0))),
            lookupMap harmonic_oscillator.PARAM_MAP k = some k := by
          intro k hk
          rcases keysOf_defaultKey_subset r2 "phase" k _ hk with hk0 | rfl
          · exact hself k (hvals k hk0)
          · exact hself "phase" (by decide)
        have hnd : (keysOf (defaultKey r2 "phase" (.num (.fin 0)))).Nodup :=
          nodup_defaultKey _ _ _ hnd0
        rw [resolveAliases_selfmap _ _ hkv hnd, eb_ok]
        rw [requireKey_ok _ _ _ (getKey_defaultKey_isSome r2 "phase" "amplitude" _ hk1), eb_ok]
        rw [requireKey_ok _ _ _ (getKey_defaultKey_isSome r2 "phase" "frequency" _ hk2), eb_ok]
        rw [defaultKey_of_isSome _ _ _ (getKey_defaultKey_self_isSome r2 "phase" _)]
        rfl
theorem damped_normalize_idem (raw p : List (String × JsVal))
    (h : damped_oscillator.normalize raw = .ok p) :
    damped_oscillator.normalize p = .ok p := by
  have hself : ∀ k ∈ damped_oscillator.PARAM_MAP.map Prod.snd,
      lookupMap damped_oscillator.PARAM_MAP k = some k := by decide
  unfold damped_oscillator.normalize at h ⊢
  cases hra : resolveAliases damped_oscillator.PARAM_MAP raw with
  | error e => rw [hra, eb_err] at h; cases h
  | ok r =>
    rw [hra, eb_ok] at h
    cases hq1 : requireKey r "amplitude"
        "Missing required parameter: \"amplitude\" (or alias \"A\")." with
    | error e => rw [hq1, eb_err] at h; cases h
    | ok r1 =>
      obtain ⟨he1, hk1⟩ := requireKey_eq_ok r r1 _ _ hq1
      rw [hq1, eb_ok, he1] at h
      cases hq2 : requireKey r "frequency"
          "Missing required parameter: \"frequency\" (or alias \"f\")." with
      | error e => rw [hq2, eb_err] at h; cases h
      | ok r2 =>
        obtain ⟨he2, hk2⟩ := requireKey_eq_ok r r2 _ _ hq2
        rw [hq2, eb_ok, he2, pureE] at h
        injection h with h
        subst h
        obtain ⟨hvals, hnd0⟩ := resolveAliases_ok_keys _ raw r hra
        have hkv : ∀ k ∈ keysOf (defaultKey (defaultKey r "dampingRatio"
              (.num (.fin (5 / 100)))) "phase" (.num (.fin 0))),
            lookupMap damped_oscillator.PARAM_MAP k = some k := by
          intro k hk
          rcases keysOf_defaultKey_subset _ "phase" k _ hk with hk | rfl
          · rcases keysOf_defaultKey_subset _ "dampingRatio" k _ hk with hk | rfl
            · exact hself k (hvals k hk)
            · exact hself "dampingRatio" (by decide)
          · exact hself "phase" (by decide)
        have hnd := nodup_defaultKey _ "phase" (.num (.fin 0))
          (nodup_defaultKey _ "dampingRatio" (.num (.fin (5 / 100))) hnd0)
        rw [resolveAliases_selfmap _ _ hkv hnd, eb_ok]
        rw [requireKey_ok _ _ _
          (getKey_defaultKey_isSome (defaultKey r "dampingRatio" (.num (.fin (5 / 100)))) "phase" _ (.num (.fin 0)) (getKey_defaultKey_isSome r "dampingRatio" _ (.num (.fin (5 / 100))) hk1)), eb_ok]
        rw [requireKey_ok _ _ _
          (getKey_defaultKey_isSome (defaultKey r "dampingRatio" (.num (.fin (5 / 100)))) "phase" _ (.num (.fin 0)) (getKey_defaultKey_isSome r "dampingRatio" _ (.num (.fin (5 / 100))) hk2)), eb_ok]
        dsimp only
        rw [defaultKey_of_isSome _ _ _
          (getKey_defaultKey_isSome (defaultKey r "dampingRatio" (.num (.fin (5 / 100)))) "phase" "dampingRatio" (.num (.fin 0)) (getKey_defaultKey_self_isSome r "dampingRatio" (.num (.fin (5 / 100)))))]
        rw [defaultKey_of_isSome _ _ _
          (getKey_defaultKey_self_isSome (defaultKey r "dampingRatio" (.num (.fin (5 / 100)))) "phase" (.num (.fin 0)))]
        rfl

theorem ucm_normalize_idem (raw p : List (String × JsVal))
    (h : uniform_circular_motion.normalize raw = .ok p) :
    uniform_circular_motion.normalize p = .ok p := by
  have hself : ∀ k ∈ uniform_circular_motion.PARAM_MAP.map Prod.snd,
      lookupMap uniform_circular_motion.PARAM_MAP k = some k := by decide
  unfold uniform_circular_motion.normalize at h ⊢
  cases hra : resolveAliases uniform_circular_motion.PARAM_MAP raw with
  | error e => rw [hra, eb_err] at h; cases h
  | ok r =>
    rw [hra, eb_ok] at h
    cases hq1 : requireKey r "radius"
        "Missing required parameter: \"radius\" (or alias \"r\")." with
    | error e => rw [hq1, eb_err] at h; cases h
    | ok r1 =>
      obtain ⟨he1, hk1⟩ := requireKey_eq_ok r r1 _ _ hq1
      rw [hq1, eb_ok, he1] at h
      cases hq2 : requireKey r "angularSpeed"
          "Missing required parameter: \"angularSpeed\" (or alias \"omega\")." with
      | error e => rw [hq2, eb_err] at h; cases h
      | ok r2 =>
        obtain ⟨he2, hk2⟩ := requireKey_eq_ok r r2 _ _ hq2
        rw [hq2, eb_ok, he2, pureE] at h
        injection h with h
        subst h
        obtain ⟨hvals, hnd0⟩ := resolveAliases_ok_keys _ raw r hra
        have hkv : ∀ k ∈ keysOf (defaultKey (defaultKey (defaultKey r "phase"
              (.num (.fin 0))) "mass" (.num (.fin 1))) "plane" (.str "xy")),
            lookupMap uniform_circular_motion.PARAM_MAP k = some k := by
          intro k hk
          rcases keysOf_defaultKey_subset _ "plane" k _ hk with hk | rfl
          · rcases keysOf_defaultKey_subset _ "mass" k _ hk with hk | rfl
            · rcases keysOf_defaultKey_subset _ "phase" k _ hk with hk | rfl
              · exact hself k (hvals k hk)
              · exact hself "phase" (by decide)
            · exact hself "mass" (by decide)
          · exact hself "plane" (by decide)
        have hnd := nodup_defaultKey _ "plane" (.str "xy")
          (nodup_defaultKey _ "mass" (.num (.fin 1))
            (nodup_defaultKey _ "phase" (.num (.fin 0)) hnd0))
        rw [resolveAliases_selfmap _ _ hkv hnd, eb_ok]
        rw [requireKey_ok _ _ _
          (getKey_defaultKey_isSome (defaultKey (defaultKey r "phase" (.num (.fin 0))) "mass" (.num (.fin 1))) "plane" _ (.str "xy") (getKey_defaultKey_isSome (defaultKey r "phase" (.num (.fin 0))) "mass" _ (.num (.fin 1)) (getKey_defaultKey_isSome r "phase" _ (.num (.fin 0)) hk1))), eb_ok]
        rw [requireKey_ok _ _ _
          (getKey_defaultKey_isSome (defaultKey (defaultKey r "phase" (.num (.fin 0))) "mass" (.num (.fin 1))) "plane" _ (.str "xy") (getKey_defaultKey_isSome (defaultKey r "phase" (.num (.fin 0))) "mass" _ (.num (.fin 1)) (getKey_defaultKey_isSome r "phase" _ (.num (.fin 0)) hk2))), eb_ok]
        dsimp only
        rw [defaultKey_of_isSome _ _ _
          (getKey_defaultKey_isSome (defaultKey (defaultKey r "phase" (.num (.fin 0))) "mass" (.num (.fin 1))) "plane" "phase" (.str "xy") (getKey_defaultKey_isSome (defaultKey r "phase" (.num (.fin 0))) "mass" "phase" (.num (.fin 1)) (getKey_defaultKey_self_isSome r "phase" (.num (.fin 0)))))]
        rw [defaultKey_of_isSome _ _ _
          (getKey_defaultKey_isSome (defaultKey (defaultKey r "phase" (.num (.fin 0))) "mass" (.num (.fin 1))) "plane" "mass" (.str "xy") (getKey_defaultKey_self_isSome (defaultKey r "phase" (.num (.fin 0))) "mass" (.num (.fin 1))))]
        rw [defaultKey_of_isSome _ _ _
          (getKey_defaultKey_self_isSome (defaultKey (defaultKey r "phase" (.num (.fin 0))) "mass" (.num (.fin 1))) "plane" (.str "xy"))]
        rfl

theorem kepler_normalize_idem (raw p : List (String × JsVal))
    (h : kepler_two_body_orbit.normalize raw = .ok p) :
    kepler_two_body_orbit.normalize p = .ok p := by
  have hself : ∀ k ∈ kepler_two_body_orbit.PARAM_MAP.map Prod.snd,
      lookupMap kepler_two_body_orbit.PARAM_MAP k = some k := by decide
  unfold kepler_two_body_orbit.normalize at h ⊢
  cases hra : resolveAliases kepler_two_body_orbit.PARAM_MAP raw with
  | error e => rw [hra, eb_err] at h; cases h
  | ok r =>
    rw [hra, eb_ok] at h
    cases hq1 : requireKey r "semiMajorAxis"
        "Missing required parameter: \"semiMajorAxis\" (or alias \"a\")." with
    | error e => rw [hq1, eb_err] at h; cases h
    | ok r1 =>
      obtain ⟨he1, hk1⟩ := requireKey_eq_ok r r1 _ _ hq1
      rw [hq1, eb_ok, he1] at h
      cases hq2 : requireKey r "eccentricity"
          "Missing required parameter: \"eccentricity\" (or alias \"e\")." with
      | error e => rw [hq2, eb_err] at h; cases h
      | ok r2 =>
        obtain ⟨he2, hk2⟩ := requireKey_eq_ok r r2 _ _ hq2
        rw [hq2, eb_ok, he2] at h
        cases hq3 : requireKey r "gravitationalParameter"
            "Missing required parameter: \"gravitationalParameter\" (or alias \"mu\")." with
        | error e => rw [hq3, eb_err] at h; cases h
        | ok r3 =>
          obtain ⟨he3, hk3⟩ := requireKey_eq_ok r r3 _ _ hq3
          rw [hq3, eb_ok, he3, pureE] at h
          injection h with h
          subst h
          obtain ⟨hvals, hnd0⟩ := resolveAliases_ok_keys _ raw r hra
          have hkv : ∀ k ∈ keysOf (defaultKey (defaultKey r "phase"
                (.num (.fin 0))) "inclinationDeg" (.num (.fin 0))),
              lookupMap kepler_two_body_orbit.PARAM_MAP k = some k := by
            intro k hk
            rcases keysOf_defaultKey_subset _ "inclinationDeg" k _ hk with hk | rfl
            · rcases keysOf_defaultKey_subset _ "phase" k _ hk with hk | rfl
              · exact hself k (hvals k hk)
              · exact hself "phase" (by decide)
            · exact hself "inclinationDeg" (by decide)
          have hnd := nodup_defaultKey _ "inclinationDeg" (.num (.fin 0))
            (nodup_defaultKey _ "phase" (.num (.fin 0)) hnd0)
          rw [resolveAliases_selfmap _ _ hkv hnd, eb_ok]
          rw [requireKey_ok _ _ _
            (getKey_defaultKey_isSome (defaultKey r "phase" (.num (.fin 0))) "inclinationDeg" _ (.num (.fin 0)) (getKey_defaultKey_isSome r "phase" _ (.num (.fin 0)) hk1)), eb_ok]
          rw [requireKey_ok _ _ _
            (getKey_defaultKey_isSome (defaultKey r "phase" (.num (.fin 0))) "inclinationDeg" _ (.num (.fin 0)) (getKey_defaultKey_isSome r "phase" _ (.num (.fin 0)) hk2)), eb_ok]
          rw [requireKey_ok _ _ _
            (getKey_defaultKey_isSome (defaultKey r "phase" (.num (.fin 0))) "inclinationDeg" _ (.num (.fin 0)) (getKey_defaultKey_isSome r "phase" _ (.num (.fin 0)) hk3)), eb_ok]
          dsimp only
          rw [defaultKey_of_isSome _ _ _
            (getKey_defaultKey_isSome (defaultKey r "phase" (.num (.fin 0))) "inclinationDeg" "phase" (.num (.fin 0)) (getKey_defaultKey_self_isSome r "phase" (.num (.fin 0))))]
          rw [defaultKey_of_isSome _ _ _
            (getKey_defaultKey_self_isSome (defaultKey r "phase" (.num (.fin 0))) "inclinationDeg" (.num (.fin 0)))]
          rfl

theorem projectile_normalize_idem (raw p : List (String × JsVal))
    (h : projectile_motion.normalize raw = .ok p) :
    projectile_motion.normalize p = .ok p := by
  have hself : ∀ k ∈ projectile_motion.PARAM_MAP.map Prod.snd,
      lookupMap projectile_motion.PARAM_MAP k = some k := by decide
  unfold projectile_motion.normalize at h ⊢
  cases hra : resolveAliases projectile_motion.PARAM_MAP raw with
  | error e => rw [hra, eb_err] at h; cases h
  | ok r =>
    rw [hra, eb_ok] at h
    cases hq1 : requireKey r "initialSpeed"
        "Missing required parameter: \"initialSpeed\" (or alias \"v0\")." with
    | error e => rw [hq1, eb_err] at h; cases h
    | ok r1 =>
      obtain ⟨he1, hk1⟩ := requireKey_eq_ok r r1 _ _ hq1
      rw [hq1, eb_ok, he1] at h
      cases hq2 : requireKey r "launchAngleDeg"
          "Missing required parameter: \"launchAngleDeg\" (or alias \"thetaDeg\")." with
      | error e => rw [hq2, eb_err] at h; cases h
      | ok r2 =>
        obtain ⟨he2, hk2⟩ := requireKey_eq_ok r r2 _ _ hq2
        rw [hq2, eb_ok, he2, pureE] at h
        injection h with h
        subst h
        obtain ⟨hvals, hnd0⟩ := resolveAliases_ok_keys _ raw r hra
        have hkv : ∀ k ∈ keysOf (defaultKey (defaultKey (defaultKey (defaultKey r
              "gravity" (.num (.fin (981 / 100)))) "initialHeight" (.num (.fin 0)))
              "mass" (.num (.fin 1))) "dragCoefficient" (.num (.fin 0))),
            lookupMap projectile_motion.PARAM_MAP k = some k := by
          intro k hk
          rcases keysOf_defaultKey_subset _ "dragCoefficient" k _ hk with hk | rfl
          · rcases keysOf_defaultKey_subset _ "mass" k _ hk with hk | rfl
            · rcases keysOf_defaultKey_subset _ "initialHeight" k _ hk with hk | rfl
              · rcases keysOf_defaultKey_subset _ "gravity" k _ hk with hk | rfl
                · exact hself k (hvals k hk)
                · exact hself "gravity" (by decide)
              · exact hself "initialHeight" (by decide)
            · exact hself "mass" (by decide)
          · exact hself "dragCoefficient" (by decide)
        have hnd := nodup_defaultKey _ "dragCoefficient" (.num (.fin 0))
          (nodup_defaultKey _ "mass" (.num (.fin 1))
            (nodup_defaultKey _ "initialHeight" (.num (.fin 0))
              (nodup_defaultKey _ "gravity" (.num (.fin (981 / 100))) hnd0)))
        rw [resolveAliases_selfmap _ _ hkv hnd, eb_ok]
        rw [requireKey_ok _ _ _
          (getKey_defaultKey_isSome (defaultKey (defaultKey (defaultKey r "gravity" (.num (.fin (981 / 100)))) "initialHeight" (.num (.fin 0))) "mass" (.num (.fin 1))) "dragCoefficient" _ (.num (.fin 0)) (getKey_defaultKey_isSome (defaultKey (defaultKey r "gravity" (.num (.fin (981 / 100)))) "initialHeight" (.num (.fin 0))) "mass" _ (.num (.fin 1)) (getKey_defaultKey_isSome (defaultKey r "gravity" (.num (.fin (981 / 100)))) "initialHeight" _ (.num (.fin 0)) (getKey_defaultKey_isSome r "gravity" _ (.num (.fin (981 / 100))) hk1)))), eb_ok]
        rw [requireKey_ok _ _ _
          (getKey_defaultKey_isSome (defaultKey (defaultKey (defaultKey r "gravity" (.num (.fin (981 / 100)))) "initialHeight" (.num (.fin 0))) "mass" (.num (.fin 1))) "dragCoefficient" _ (.num (.fin 0)) (getKey_defaultKey_isSome (defaultKey (defaultKey r "gravity" (.num (.fin (981 / 100)))) "initialHeight" (.num (.fin 0))) "mass" _ (.num (.fin 1)) (getKey_defaultKey_isSome (defaultKey r "gravity" (.num (.fin (981 / 100)))) "initialHeight" _ (.num (.fin 0)) (getKey_defaultKey_isSome r "gravity" _ (.num (.fin (981 / 100))) hk2)))), eb_ok]
        dsimp only
        rw [defaultKey_of_isSome _ _ _
          (getKey_defaultKey_isSome (defaultKey (defaultKey (defaultKey r "gravity" (.num (.fin (981 / 100)))) "initialHeight" (.num (.fin 0))) "mass" (.num (.fin 1))) "dragCoefficient" "gravity" (.num (.fin 0)) (getKey_defaultKey_isSome (defaultKey (defaultKey r "gravity" (.num (.fin (981 / 100)))) "initialHeight" (.num (.fin 0))) "mass" "gravity" (.num (.fin 1)) (getKey_defaultKey_isSome (defaultKey r "gravity" (.num (.fin (981 / 100)))) "initialHeight" "gravity" (.num (.fin 0)) (getKey_defaultKey_self_isSome r "gravity" (.num (.fin (981 / 100)))))))]
        rw [defaultKey_of_isSome _ _ _
          (getKey_defaultKey_isSome (defaultKey (defaultKey (defaultKey r "gravity" (.num (.fin (981 / 100)))) "initialHeight" (.num (.fin 0))) "mass" (.num (.fin 1))) "dragCoefficient" "initialHeight" (.num (.fin 0)) (getKey_defaultKey_isSome (defaultKey (defaultKey r "gravity" (.num (.fin (981 / 100)))) "initialHeight" (.num (.fin 0))) "mass" "initialHeight" (.num (.fin 1)) (getKey_defaultKey_self_isSome (defaultKey r "gravity" (.num (.fin (981 / 100)))) "initialHeight" (.num (.fin 0)))))]
        rw [defaultKey_of_isSome _ _ _
          (getKey_defaultKey_isSome (defaultKey (defaultKey (defaultKey r "gravity" (.num (.fin (981 / 100)))) "initialHeight" (.num (.fin 0))) "mass" (.num (.fin 1))) "dragCoefficient" "mass" (.num (.fin 0)) (getKey_defaultKey_self_isSome (defaultKey (defaultKey r "gravity" (.num (.fin (981 / 100)))) "initialHeight" (.num (.fin 0))) "mass" (.num (.fin 1))))]
        rw [defaultKey_of_isSome _ _ _
          (getKey_defaultKey_self_isSome (defaultKey (defaultKey (defaultKey r "gravity" (.num (.fin (981 / 100)))) "initialHeight" (.num (.fin 0))) "mass" (.num (.fin 1))) "dragCoefficient" (.num (.fin 0)))]
        rfl

theorem fluid_normalize_idem (raw p : List (String × JsVal))
    (h : fluid_system.normalize raw = .ok p) :
    fluid_system.normalize p = .ok p := by
  have hself : ∀ k ∈ fluid_system.PARAM_MAP.map Prod.snd,
      lookupMap fluid_system.PARAM_MAP k = some k := by decide
  unfold fluid_system.normalize at h ⊢
  cases hra : resolveAliases fluid_system.PARAM_MAP raw with
  | error e => rw [hra, eb_err] at h; cases h
  | ok r =>
    rw [hra, eb_ok] at h
    cases hq1 : requireKey r "geometry" "Missing required parameter: \"geometry\"." with
    | error e => rw [hq1, eb_err] at h; cases h
    | ok r1 =>
      obtain ⟨he1, hk1⟩ := requireKey_eq_ok r r1 _ _ hq1
      rw [hq1, eb_ok, he1] at h
      cases hq2 : requireKey r "fluidProperties"
          "Missing required parameter: \"fluidProperties\"." with
      | error e => rw [hq2, eb_err] at h; cases h
      | ok r2 =>
        obtain ⟨he2, hk2⟩ := requireKey_eq_ok r r2 _ _ hq2
        rw [hq2, eb_ok, he2] at h
        cases hq3 : requireKey r "flowConfiguration"
            "Missing required parameter: \"flowConfiguration\"." with
        | error e => rw [hq3, eb_err] at h; cases h
        | ok r3 =>
          obtain ⟨he3, hk3⟩ := requireKey_eq_ok r r3 _ _ hq3
          rw [hq3, eb_ok, he3] at h
          obtain ⟨he4, hk4⟩ := requireKey_eq_ok r p _ _ h
          subst he4
          obtain ⟨hvals, hnd0⟩ := resolveAliases_ok_keys _ raw p hra
          have hkv : ∀ k ∈ keysOf p, lookupMap fluid_system.PARAM_MAP k = some k :=
            fun k hk => hself k (hvals k hk)
          rw [resolveAliases_selfmap _ _ hkv hnd0, eb_ok]
          rw [requireKey_ok _ _ _ hk1, eb_ok]
          rw [requireKey_ok _ _ _ hk2, eb_ok]
          rw [requireKey_ok _ _ _ hk3, eb_ok]
          rw [requireKey_ok _ _ _ hk4]
theorem drivenDKF (p : Params) (k src : String) :
    driven_oscillator.defaultKeyFrom p k src =
      defaultKey p k ((getKey p src).getD (.num .nan)) := rfl

theorem coupledDKF (p : Params) (k src : String) :
    coupled_oscillators_2mass.defaultKeyFrom p k src =
      defaultKey p k ((getKey p src).getD (.num .nan)) := rfl
theorem driven_normalize_idem (raw p : List (String × JsVal))
    (h : driven_oscillator.normalize raw = .ok p) :
    driven_oscillator.normalize p = .ok p := by
  have hself : ∀ k ∈ driven_oscillator.PARAM_MAP.map Prod.snd,
      lookupMap driven_oscillator.PARAM_MAP k = some k := by decide
  unfold driven_oscillator.normalize at h ⊢
  simp only [drivenDKF] at h ⊢
  cases hra : resolveAliases driven_oscillator.PARAM_MAP raw with
  | error e => rw [hra, eb_err] at h; cases h
  | ok r =>
    rw [hra, eb_ok] at h
    cases hq1 : requireKey r "amplitude"
        "Missing required parameter: \"amplitude\" (or alias \"A\")." with
    | error e => rw [hq1, eb_err] at h; cases h
    | ok r1 =>
      obtain ⟨he1, hk1⟩ := requireKey_eq_ok r r1 _ _ hq1
      rw [hq1, eb_ok, he1] at h
      cases hq2 : requireKey r "naturalFrequency"
          "Missing required parameter: \"naturalFrequency\" (or alias \"fn\")." with
      | error e => rw [hq2, eb_err] at h; cases h
      | ok r2 =>
        obtain ⟨he2, hk2⟩ := requireKey_eq_ok r r2 _ _ hq2
        rw [hq2, eb_ok, he2] at h
        rw [pureE] at h
        injection h with h
        subst h
        obtain ⟨hvals, hnd0⟩ := resolveAliases_ok_keys _ raw r hra
        have hkv : ∀ k ∈ keysOf (defaultKey (defaultKey (defaultKey (defaultKey (defaultKey r "driveAmplitude" ((getKey r "amplitude").getD (.num .nan))) "driveFrequency" ((getKey (defaultKey r "driveAmplitude" ((getKey r "amplitude").getD (.num .nan))) "naturalFrequency").getD (.num .nan))) "dampingRatio" (.num (.fin (5 / 100)))) "phase" (.num (.fin 0))) "drivePhase" (.num (.fin 0))),
            lookupMap driven_oscillator.PARAM_MAP k = some k := by
          intro k hk
          rcases keysOf_defaultKey_subset _ "drivePhase" k _ hk with hk | rfl
          · rcases keysOf_defaultKey_subset _ "phase" k _ hk with hk | rfl
            · rcases keysOf_defaultKey_subset _ "dampingRatio" k _ hk with hk | rfl
              · rcases keysOf_defaultKey_subset _ "driveFrequency" k _ hk with hk | rfl
                · rcases keysOf_defaultKey_subset _ "driveAmplitude" k _ hk with hk | rfl
                  · exact hself k (hvals k hk)
                  · exact hself "driveAmplitude" (by decide)
                · exact hself "driveFrequency" (by decide)
              · exact hself "dampingRatio" (by decide)
            · exact hself "phase" (by decide)
          · exact hself "drivePhase" (by decide)
        have hnd : (keysOf (defaultKey (defaultKey (defaultKey (defaultKey (defaultKey r "driveAmplitude" ((getKey r "amplitude").getD (.num .nan))) "driveFrequency" ((getKey (defaultKey r "driveAmplitude" ((getKey r "amplitude").getD (.num .nan))) "naturalFrequency").getD (.num .nan))) "dampingRatio" (.num (.fin (5 / 100)))) "phase" (.num (.fin 0))) "drivePhase" (.num (.fin 0)))).Nodup :=
          nodup_defaultKey _ "drivePhase" _ (nodup_defaultKey _ "phase" _
            (nodup_defaultKey _ "dampingRatio" _ (nodup_defaultKey _ "driveFrequency" _
              (nodup_defaultKey _ "driveAmplitude" _ hnd0))))
        rw [resolveAliases_selfmap _ _ hkv hnd, eb_ok]
        rw [requireKey_ok _ _ _
          (getKey_defaultKey_isSome (defaultKey (defaultKey (defaultKey (defaultKey r "driveAmplitude" ((getKey r "amplitude").getD (.num .nan))) "driveFrequency" ((getKey (defaultKey r "driveAmplitude" ((getKey r "amplitude").getD (.num .nan))) "naturalFrequency").getD (.num .nan))) "dampingRatio" (.num (.fin (5 / 100)))) "phase" (.num (.fin 0))) "drivePhase" _ (.num (.fin 0)) (getKey_defaultKey_isSome (defaultKey (defaultKey (defaultKey r "driveAmplitude" ((getKey r "amplitude").getD (.num .nan))) "driveFrequency" ((getKey (defaultKey r "driveAmplitude" ((getKey r "amplitude").getD (.num .nan))) "naturalFrequency").getD (.num .nan))) "dampingRatio" (.num (.fin (5 / 100)))) "phase" _ (.num (.fin 0)) (getKey_defaultKey_isSome (defaultKey (defaultKey r "driveAmplitude" ((getKey r "amplitude").getD (.num .nan))) "driveFrequency" ((getKey (defaultKey r "driveAmplitude" ((getKey r "amplitude").getD (.num .nan))) "naturalFrequency").getD (.num .nan))) "dampingRatio" _ (.num (.fin (5 / 100))) (getKey_defaultKey_isSome (defaultKey r "driveAmplitude" ((getKey r "amplitude").getD (.num .nan))) "driveFrequency" _ ((getKey (defaultKey r "driveAmplitude" ((getKey r "amplitude").getD (.num .nan))) "naturalFrequency").getD (.num .nan)) (getKey_defaultKey_isSome r "driveAmplitude" _ ((getKey r "amplitude").getD (.num .nan)) hk1))))), eb_ok]
        rw [requireKey_ok _ _ _
          (getKey_defaultKey_isSome (defaultKey (defaultKey (defaultKey (defaultKey r "driveAmplitude" ((getKey r "amplitude").getD (.num .nan))) "driveFrequency" ((getKey (defaultKey r "driveAmplitude" ((getKey r "amplitude").getD (.num .nan))) "naturalFrequency").getD (.num .nan))) "dampingRatio" (.num (.fin (5 / 100)))) "phase" (.num (.fin 0))) "drivePhase" _ (.num (.fin 0)) (getKey_defaultKey_isSome (defaultKey (defaultKey (defaultKey r "driveAmplitude" ((getKey r "amplitude").getD (.num .nan))) "driveFrequency" ((getKey (defaultKey r "driveAmplitude" ((getKey r "amplitude").getD (.num .nan))) "naturalFrequency").getD (.num .nan))) "dampingRatio" (.num (.fin (5 / 100)))) "phase" _ (.num (.fin 0)) (getKey_defaultKey_isSome (defaultKey (defaultKey r "driveAmplitude" ((getKey r "amplitude").getD (.num .nan))) "driveFrequency" ((getKey (defaultKey r "driveAmplitude" ((getKey r "amplitude").getD (.num .nan))) "naturalFrequency").getD (.num .nan))) "dampingRatio" _ (.num (.fin (5 / 100))) (getKey_defaultKey_isSome (defaultKey r "driveAmplitude" ((getKey r "amplitude").getD (.num .nan))) "driveFrequency" _ ((getKey (defaultKey r "driveAmplitude" ((getKey r "amplitude").getD (.num .nan))) "naturalFrequency").getD (.num .nan)) (getKey_defaultKey_isSome r "driveAmplitude" _ ((getKey r "amplitude").getD (.num .nan)) hk2))))), eb_ok]
        rw [defaultKey_of_isSome _ "driveAmplitude" ((getKey (defaultKey (defaultKey (defaultKey (defaultKey (defaultKey r "driveAmplitude" ((getKey r "amplitude").getD (.num .nan))) "driveFrequency" ((getKey (defaultKey r "driveAmplitude" ((getKey r "amplitude").getD (.num .nan))) "naturalFrequency").getD (.num .nan))) "dampingRatio" (.num (.fin (5 / 100)))) "phase" (.num (.fin 0))) "drivePhase" (.num (.fin 0))) "amplitude").getD (.num .nan))
          (getKey_defaultKey_isSome (defaultKey (defaultKey (defaultKey (defaultKey r "driveAmplitude" ((getKey r "amplitude").getD (.num .nan))) "driveFrequency" ((getKey (defaultKey r "driveAmplitude" ((getKey r "amplitude").getD (.num .nan))) "naturalFrequency").getD (.num .nan))) "dampingRatio" (.num (.fin (5 / 100)))) "phase" (.num (.fin 0))) "drivePhase" "driveAmplitude" (.num (.fin 0)) (getKey_defaultKey_isSome (defaultKey (defaultKey (defaultKey r "driveAmplitude" ((getKey r "amplitude").getD (.num .nan))) "driveFrequency" ((getKey (defaultKey r "driveAmplitude" ((getKey r "amplitude").getD (.num .nan))) "naturalFrequency").getD (.num .nan))) "dampingRatio" (.num (.fin (5 / 100)))) "phase" "driveAmplitude" (.num (.fin 0)) (getKey_defaultKey_isSome (defaultKey (defaultKey r "driveAmplitude" ((getKey r "amplitude").getD (.num .nan))) "driveFrequency" ((getKey (defaultKey r "driveAmplitude" ((getKey r "amplitude").getD (.num .nan))) "naturalFrequency").getD (.num .nan))) "dampingRatio" "driveAmplitude" (.num (.fin (5 / 100))) (getKey_defaultKey_isSome (defaultKey r "driveAmplitude" ((getKey r "amplitude").getD (.num .nan))) "driveFrequency" "driveAmplitude" ((getKey (defaultKey r "driveAmplitude" ((getKey r "amplitude").getD (.num .nan))) "naturalFrequency").getD (.num .nan)) (getKey_defaultKey_self_isSome r "driveAmplitude" ((getKey r "amplitude").getD (.num .nan)))))))]
        rw [defaultKey_of_isSome _ "driveFrequency" ((getKey (defaultKey (defaultKey (defaultKey (defaultKey (defaultKey r "driveAmplitude" ((getKey r "amplitude").getD (.num .nan))) "driveFrequency" ((getKey (defaultKey r "driveAmplitude" ((getKey r "amplitude").getD (.num .nan))) "naturalFrequency").getD (.num .nan))) "dampingRatio" (.num (.fin (5 / 100)))) "phase" (.num (.fin 0))) "drivePhase" (.num (.fin 0))) "naturalFrequency").getD (.num .nan))
          (getKey_defaultKey_isSome (defaultKey (defaultKey (defaultKey (defaultKey r "driveAmplitude" ((getKey r "amplitude").getD (.num .nan))) "driveFrequency" ((getKey (defaultKey r "driveAmplitude" ((getKey r "amplitude").getD (.num .nan))) "naturalFrequency").getD (.num .nan))) "dampingRatio" (.num (.fin (5 / 100)))) "phase" (.num (.fin 0))) "drivePhase" "driveFrequency" (.num (.fin 0)) (getKey_defaultKey_isSome (defaultKey (defaultKey (defaultKey r "driveAmplitude" ((getKey r "amplitude").getD (.num .nan))) "driveFrequency" ((getKey (defaultKey r "driveAmplitude" ((getKey r "amplitude").getD (.num .nan))) "naturalFrequency").getD (.num .nan))) "dampingRatio" (.num (.fin (5 / 100)))) "phase" "driveFrequency" (.num (.fin 0)) (getKey_defaultKey_isSome (defaultKey (defaultKey r "driveAmplitude" ((getKey r "amplitude").getD (.num .nan))) "driveFrequency" ((getKey (defaultKey r "driveAmplitude" ((getKey r "amplitude").getD (.num .nan))) "naturalFrequency").getD (.num .nan))) "dampingRatio" "driveFrequency" (.num (.fin (5 / 100))) (getKey_defaultKey_self_isSome (defaultKey r "driveAmplitude" ((getKey r "amplitude").getD (.num .nan))) "driveFrequency" ((getKey (defaultKey r "driveAmplitude" ((getKey r "amplitude").getD (.num .nan))) "naturalFrequency").getD (.num .nan))))))]
        rw [defaultKey_of_isSome _ "dampingRatio" (.num (.fin (5 / 100)))
          (getKey_defaultKey_isSome (defaultKey (defaultKey (defaultKey (defaultKey r "driveAmplitude" ((getKey r "amplitude").getD (.num .nan))) "driveFrequency" ((getKey (defaultKey r "driveAmplitude" ((getKey r "amplitude").getD (.num .nan))) "naturalFrequency").getD (.num .nan))) "dampingRatio" (.num (.fin (5 / 100)))) "phase" (.num (.fin 0))) "drivePhase" "dampingRatio" (.num (.fin 0)) (getKey_defaultKey_isSome (defaultKey (defaultKey (defaultKey r "driveAmplitude" ((getKey r "amplitude").getD (.num .nan))) "driveFrequency" ((getKey (defaultKey r "driveAmplitude" ((getKey r "amplitude").getD (.num .nan))) "naturalFrequency").getD (.num .nan))) "dampingRatio" (.num (.fin (5 / 100)))) "phase" "dampingRatio" (.num (.fin 0)) (getKey_defaultKey_self_isSome (defaultKey (defaultKey r "driveAmplitude" ((getKey r "amplitude").getD (.num .nan))) "driveFrequency" ((getKey (defaultKey r "driveAmplitude" ((getKey r "amplitude").getD (.num .nan))) "naturalFrequency").getD (.num .nan))) "dampingRatio" (.num (.fin (5 / 100))))))]
        rw [defaultKey_of_isSome _ "phase" (.num (.fin 0))
          (getKey_defaultKey_isSome (defaultKey (defaultKey (defaultKey (defaultKey r "driveAmplitude" ((getKey r "amplitude").getD (.num .nan))) "driveFrequency" ((getKey (defaultKey r "driveAmplitude" ((getKey r "amplitude").getD (.num .nan))) "naturalFrequency").getD (.num .nan))) "dampingRatio" (.num (.fin (5 / 100)))) "phase" (.num (.fin 0))) "drivePhase" "phase" (.num (.fin 0)) (getKey_defaultKey_self_isSome (defaultKey (defaultKey (defaultKey r "driveAmplitude" ((getKey r "amplitude").getD (.num .nan))) "driveFrequency" ((getKey (defaultKey r "driveAmplitude" ((getKey r "amplitude").getD (.num .nan))) "naturalFrequency").getD (.num .nan))) "dampingRatio" (.num (.fin (5 / 100)))) "phase" (.num (.fin 0))))]
        rw [defaultKey_of_isSome _ "drivePhase" (.num (.fin 0))
          (getKey_defaultKey_self_isSome (defaultKey (defaultKey (defaultKey (defaultKey r "driveAmplitude" ((getKey r "amplitude").getD (.num .nan))) "driveFrequency" ((getKey (defaultKey r "driveAmplitude" ((getKey r "amplitude").getD (.num .nan))) "naturalFrequency").getD (.num .nan))) "dampingRatio" (.num (.fin (5 / 100)))) "phase" (.num (.fin 0))) "drivePhase" (.num (.fin 0)))]
        rfl
theorem coupled_normalize_idem (raw p : List (String × JsVal))
    (h : coupled_oscillators_2mass.normalize raw = .ok p) :
    coupled_oscillators_2mass.normalize p = .ok p := by
  have hself : ∀ k ∈ coupled_oscillators_2mass.PARAM_MAP.map Prod.snd,
      lookupMap coupled_oscillators_2mass.PARAM_MAP k = some k := by decide
  unfold coupled_oscillators_2mass.normalize at h ⊢
  simp only [coupledDKF] at h ⊢
  cases hra : resolveAliases coupled_oscillators_2mass.PARAM_MAP raw with
  | error e => rw [hra, eb_err] at h; cases h
  | ok r =>
    rw [hra, eb_ok] at h
    cases hq1 : requireKey (defaultKey r "mass" (.num (.fin 1))) "anchorStiffness"
        "Missing required parameter: \"anchorStiffness\" (or alias \"kAnchor\")." with
    | error e => rw [hq1, eb_err] at h; cases h
    | ok r1 =>
      obtain ⟨he1, hk1⟩ := requireKey_eq_ok (defaultKey r "mass" (.num (.fin 1))) r1 _ _ hq1
      rw [hq1, eb_ok, he1] at h
      cases hq2 : requireKey (defaultKey r "mass" (.num (.fin 1))) "couplingStiffness"
          "Missing required parameter: \"couplingStiffness\" (or alias \"kCoupling\")." with
      | error e => rw [hq2, eb_err] at h; cases h
      | ok r2 =>
        obtain ⟨he2, hk2⟩ := requireKey_eq_ok (defaultKey r "mass" (.num (.fin 1))) r2 _ _ hq2
        rw [hq2, eb_ok, he2] at h
        cases hq3 : requireKey (defaultKey r "mass" (.num (.fin 1))) "amplitude1"
            "Missing required parameter: \"amplitude1\" (or alias \"A1\")." with
        | error e => rw [hq3, eb_err] at h; cases h
        | ok r3 =>
          obtain ⟨he3, hk3⟩ := requireKey_eq_ok (defaultKey r "mass" (.num (.fin 1))) r3 _ _ hq3
          rw [hq3, eb_ok, he3] at h
          rw [pureE] at h
          injection h with h
          subst h
          obtain ⟨hvals, hnd0⟩ := resolveAliases_ok_keys _ raw r hra
          have hkv : ∀ k ∈ keysOf (defaultKey (defaultKey (defaultKey r "mass" (.num (.fin 1))) "amplitude2" ((getKey (defaultKey r "mass" (.num (.fin 1))) "amplitude1").getD (.num .nan))) "phaseOffset" (.num (.fin 0))),
              lookupMap coupled_oscillators_2mass.PARAM_MAP k = some k := by
            intro k hk
            rcases keysOf_defaultKey_subset _ "phaseOffset" k _ hk with hk | rfl
            · rcases keysOf_defaultKey_subset _ "amplitude2" k _ hk with hk | rfl
              · rcases keysOf_defaultKey_subset _ "mass" k _ hk with hk | rfl
                · exact hself k (hvals k hk)
                · exact hself "mass" (by decide)
              · exact hself "amplitude2" (by decide)
            · exact hself "phaseOffset" (by decide)
          have hnd : (keysOf (defaultKey (defaultKey (defaultKey r "mass" (.num (.fin 1))) "amplitude2" ((getKey (defaultKey r "mass" (.num (.fin 1))) "amplitude1").getD (.num .nan))) "phaseOffset" (.num (.fin 0)))).Nodup :=
            nodup_defaultKey _ "phaseOffset" _ (nodup_defaultKey _ "amplitude2" _
              (nodup_defaultKey _ "mass" _ hnd0))
          rw [resolveAliases_selfmap _ _ hkv hnd, eb_ok]
          rw [defaultKey_of_isSome _ "mass" (.num (.fin 1))
            (getKey_defaultKey_isSome (defaultKey (defaultKey r "mass" (.num (.fin 1))) "amplitude2" ((getKey (defaultKey r "mass" (.num (.fin 1))) "amplitude1").getD (.num .nan))) "phaseOffset" _ (.num (.fin 0)) (getKey_defaultKey_isSome (defaultKey r "mass" (.num (.fin 1))) "amplitude2" _ ((getKey (defaultKey r "mass" (.num (.fin 1))) "amplitude1").getD (.num .nan)) (getKey_defaultKey_self_isSome r "mass" (.num (.fin 1)))))]
          rw [requireKey_ok _ _ _
            (getKey_defaultKey_isSome (defaultKey (defaultKey r "mass" (.num (.fin 1))) "amplitude2" ((getKey (defaultKey r "mass" (.num (.fin 1))) "amplitude1").getD (.num .nan))) "phaseOffset" _ (.num (.fin 0)) (getKey_defaultKey_isSome (defaultKey r "mass" (.num (.fin 1))) "amplitude2" _ ((getKey (defaultKey r "mass" (.num (.fin 1))) "amplitude1").getD (.num .nan)) hk1)), eb_ok]
          rw [requireKey_ok _ _ _
            (getKey_defaultKey_isSome (defaultKey (defaultKey r "mass" (.num (.fin 1))) "amplitude2" ((getKey (defaultKey r "mass" (.num (.fin 1))) "amplitude1").getD (.num .nan))) "phaseOffset" _ (.num (.fin 0)) (getKey_defaultKey_isSome (defaultKey r "mass" (.num (.fin 1))) "amplitude2" _ ((getKey (defaultKey r "mass" (.num (.fin 1))) "amplitude1").getD (.num .nan)) hk2)), eb_ok]
          rw [requireKey_ok _ _ _
            (getKey_defaultKey_isSome (defaultKey (defaultKey r "mass" (.num (.fin 1))) "amplitude2" ((getKey (defaultKey r "mass" (.num (.fin 1))) "amplitude1").getD (.num .nan))) "phaseOffset" _ (.num (.fin 0)) (getKey_defaultKey_isSome (defaultKey r "mass" (.num (.fin 1))) "amplitude2" _ ((getKey (defaultKey r "mass" (.num (.fin 1))) "amplitude1").getD (.num .nan)) hk3)), eb_ok]
          rw [defaultKey_of_isSome _ "amplitude2" ((getKey (defaultKey (defaultKey (defaultKey r "mass" (.num (.fin 1))) "amplitude2" ((getKey (defaultKey r "mass" (.num (.fin 1))) "amplitude1").getD (.num .nan))) "phaseOffset" (.num (.fin 0))) "amplitude1").getD (.num .nan))
            (getKey_defaultKey_isSome (defaultKey (defaultKey r "mass" (.num (.fin 1))) "amplitude2" ((getKey (defaultKey r "mass" (.num (.fin 1))) "amplitude1").getD (.num .nan))) "phaseOffset" _ (.num (.fin 0)) (getKey_defaultKey_self_isSome (defaultKey r "mass" (.num (.fin 1))) "amplitude2" ((getKey (defaultKey r "mass" (.num (.fin 1))) "amplitude1").getD (.num .nan))))]
          rw [defaultKey_of_isSome _ "phaseOffset" (.num (.fin 0))
            (getKey_defaultKey_self_isSome (defaultKey (defaultKey r "mass" (.num (.fin 1))) "amplitude2" ((getKey (defaultKey r "mass" (.num (.fin 1))) "amplitude1").getD (.num .nan))) "phaseOffset" (.num (.fin 0)))]
          rfl
/-- The laminar derivation step only writes the three pipe-size keys: key
subset, key uniqueness and key presence all carry over. -/
theorem derive_shape (q d : Params)
    (h : laminar_internal_flow.deriveHydraulicDiameter q = .ok d) :
    (∀ k ∈ keysOf d, k ∈ keysOf q ∨ k = "pipeRadius" ∨ k = "pipeDiameter" ∨
        k = "hydraulicDiameter") ∧
      ((keysOf q).Nodup → (keysOf d).Nodup) ∧
      ∀ k2 : String, (getKey q k2).isSome = true → (getKey d k2).isSome = true := by
  unfold laminar_internal_flow.deriveHydraulicDiameter at h
  split at h
  · split at h
    · injection h with h
      subst h
      refine ⟨fun k hk => ?_, fun hn => nodup_setKey _ _ _ (nodup_setKey _ _ _ hn),
        fun k2 hk2 => getKey_setKey_isSome _ _ _ _ (getKey_setKey_isSome _ _ _ _ hk2)⟩
      rcases keysOf_setKey_subset _ _ _ _ hk with hk | rfl
      · rcases keysOf_setKey_subset _ _ _ _ hk with hk | rfl
        · exact Or.inl hk
        · simp
      · simp
    · split at h
      · injection h with h
        subst h
        refine ⟨fun k hk => ?_, fun hn => nodup_setKey _ _ _ (nodup_setKey _ _ _ hn),
          fun k2 hk2 => getKey_setKey_isSome _ _ _ _ (getKey_setKey_isSome _ _ _ _ hk2)⟩
        rcases keysOf_setKey_subset _ _ _ _ hk with hk | rfl
        · rcases keysOf_setKey_subset _ _ _ _ hk with hk | rfl
          · exact Or.inl hk
          · simp
        · simp
      · split at h
        · injection h with h
          subst h
          refine ⟨fun k hk => ?_, fun hn => nodup_setKey _ _ _ (nodup_setKey _ _ _ hn),
            fun k2 hk2 => getKey_setKey_isSome _ _ _ _ (getKey_setKey_isSome _ _ _ _ hk2)⟩
          rcases keysOf_setKey_subset _ _ _ _ hk with hk | rfl
          · rcases keysOf_setKey_subset _ _ _ _ hk with hk | rfl
            · exact Or.inl hk
            · simp
          · simp
        · cases h
  · split at h
    · split at h
      · injection h with h
        subst h
        refine ⟨fun k hk => ?_, fun hn => nodup_setKey _ _ _ hn,
          fun k2 hk2 => getKey_setKey_isSome _ _ _ _ hk2⟩
        rcases keysOf_setKey_subset _ _ _ _ hk with hk | rfl
        · exact Or.inl hk
        · simp
      · split at h
        · injection h with h
          subst h
          exact ⟨fun k hk => Or.inl hk, id, fun k2 hk2 => hk2⟩
        · cases h
    · split at h
      · split at h
        · injection h with h
          subst h
          refine ⟨fun k hk => ?_, fun hn => nodup_setKey _ _ _ hn,
            fun k2 hk2 => getKey_setKey_isSome _ _ _ _ hk2⟩
          rcases keysOf_setKey_subset _ _ _ _ hk with hk | rfl
          · exact Or.inl hk
          · simp
        · split at h
          · injection h with h
            subst h
            exact ⟨fun k hk => Or.inl hk, id, fun k2 hk2 => hk2⟩
          · cases h
      · split at h
        · split at h
          · injection h with h
            subst h
            refine ⟨fun k hk => ?_, fun hn => nodup_setKey _ _ _ hn,
              fun k2 hk2 => getKey_setKey_isSome _ _ _ _ hk2⟩
            rcases keysOf_setKey_subset _ _ _ _ hk with hk | rfl
            · exact Or.inl hk
            · simp
          · cases h
        · injection h with h
          subst h
          exact ⟨fun k hk => Or.inl hk, id, fun k2 hk2 => hk2⟩

theorem derive_getKey_other (q d : Params) (k : String)
    (h : laminar_internal_flow.deriveHydraulicDiameter q = .ok d)
    (h1 : k ≠ "pipeRadius") (h2 : k ≠ "pipeDiameter") (h3 : k ≠ "hydraulicDiameter") :
    getKey d k = getKey q k := by
  unfold laminar_internal_flow.deriveHydraulicDiameter at h
  split at h
  · split at h
    · injection h with h
      subst h
      rw [getKey_setKey_ne _ _ _ _ h3, getKey_setKey_ne _ _ _ _ h2]
    · split at h
      · injection h with h
        subst h
        rw [getKey_setKey_ne _ _ _ _ h3, getKey_setKey_ne _ _ _ _ h1]
      · split at h
        · injection h with h
          subst h
          rw [getKey_setKey_ne _ _ _ _ h1, getKey_setKey_ne _ _ _ _ h2]
        · cases h
  · split at h
    · split at h
      · injection h with h
        subst h
        rw [getKey_setKey_ne _ _ _ _ h3]
      · split at h
        · injection h with h
          subst h
          rfl
        · cases h
    · split at h
      · split at h
        · injection h with h
          subst h
          rw [getKey_setKey_ne _ _ _ _ h3]
        · split at h
          · injection h with h
            subst h
            rfl
          · cases h
      · split at h
        · split at h
          · injection h with h
            subst h
            rw [getKey_setKey_ne _ _ _ _ h3]
          · cases h
        · injection h with h
          subst h
          rfl
/-- Laminar normalize idempotence: re-normalizing an already canonical (and
structurally valid) laminar parameter set reproduces it unchanged, including
the hydraulic-diameter derivation. -/
theorem laminar_normalize_idem (raw p : List (String × JsVal))
    (h : laminar_internal_flow.normalize raw = .ok p)
    (hzod : zodStrictObject laminar_internal_flow.LaminarInternalFlow p = []) :
    laminar_internal_flow.normalize p = .ok p := by
  have hself : ∀ k ∈ laminar_internal_flow.PARAM_MAP.map Prod.snd,
      lookupMap laminar_internal_flow.PARAM_MAP k = some k := by decide
  unfold laminar_internal_flow.normalize at h ⊢
  cases hra : resolveAliases laminar_internal_flow.PARAM_MAP raw with
  | error e => rw [hra, eb_err] at h; cases h
  | ok r =>
    rw [hra, eb_ok] at h
    dsimp only at h
    cases hq1 : requireKey (defaultKey r "geometryType" (.str "pipe")) "length"
        "Missing required parameter: \"length\" (or alias \"L\")." with
    | error e => rw [hq1, eb_err] at h; cases h
    | ok r1 =>
      obtain ⟨he1, hkL⟩ := requireKey_eq_ok (defaultKey r "geometryType" (.str "pipe")) r1 _ _ hq1
      rw [hq1, eb_ok, he1] at h
      cases hd : laminar_internal_flow.deriveHydraulicDiameter (defaultKey r "geometryType" (.str "pipe")) with
      | error e => rw [hd, eb_err] at h; cases h
      | ok d0 =>
        rw [hd, eb_ok] at h
        cases hq2 : requireKey d0 "density"
            "Missing required parameter: \"density\" (or alias \"rho\")." with
        | error e => rw [hq2, eb_err] at h; cases h
        | ok r2 =>
          obtain ⟨he2, hkD⟩ := requireKey_eq_ok d0 r2 _ _ hq2
          rw [hq2, eb_ok, he2] at h
          cases hq3 : requireKey d0 "dynamicViscosity"
              "Missing required parameter: \"dynamicViscosity\" (or alias \"mu\")." with
          | error e => rw [hq3, eb_err] at h; cases h
          | ok r3 =>
            obtain ⟨he3, hkV⟩ := requireKey_eq_ok d0 r3 _ _ hq3
            rw [hq3, eb_ok, he3] at h
            cases hq4 : requireKey d0 "reynoldsNumber"
                "Missing required parameter: \"reynoldsNumber\" (or alias \"Re\")." with
            | error e => rw [hq4, eb_err] at h; cases h
            | ok r4 =>
              obtain ⟨he4, hkR⟩ := requireKey_eq_ok d0 r4 _ _ hq4
              rw [hq4, eb_ok, he4] at h
              rw [pureE] at h
              injection h with h
              subst h
              obtain ⟨hvals, hnd0⟩ := resolveAliases_ok_keys _ raw r hra
              obtain ⟨hdkeys, hdnodup, hdpres⟩ := derive_shape (defaultKey r "geometryType" (.str "pipe")) d0 hd
              have hPgeo : (getKey (defaultKey (defaultKey d0 "drivingMechanism"
                  (.str "velocity-driven")) "transient" (.bool false)) "geometryType").isSome :=
                getKey_defaultKey_isSome _ "transient" _ _
                  (getKey_defaultKey_isSome _ "drivingMechanism" _ _
                    (hdpres _ (getKey_defaultKey_self_isSome r "geometryType" (.str "pipe"))))
              have hPlen : (getKey (defaultKey (defaultKey d0 "drivingMechanism"
                  (.str "velocity-driven")) "transient" (.bool false)) "length").isSome :=
                getKey_defaultKey_isSome _ "transient" _ _
                  (getKey_defaultKey_isSome _ "drivingMechanism" _ _ (hdpres _ hkL))
              have hPden : (getKey (defaultKey (defaultKey d0 "drivingMechanism"
                  (.str "velocity-driven")) "transient" (.bool false)) "density").isSome :=
                getKey_defaultKey_isSome _ "transient" _ _
                  (getKey_defaultKey_isSome _ "drivingMechanism" _ _ hkD)
              have hPvis : (getKey (defaultKey (defaultKey d0 "drivingMechanism"
                  (.str "velocity-driven")) "transient" (.bool false)) "dynamicViscosity").isSome :=
                getKey_defaultKey_isSome _ "transient" _ _
                  (getKey_defaultKey_isSome _ "drivingMechanism" _ _ hkV)
              have hPre : (getKey (defaultKey (defaultKey d0 "drivingMechanism"
                  (.str "velocity-driven")) "transient" (.bool false)) "reynoldsNumber").isSome :=
                getKey_defaultKey_isSome _ "transient" _ _
                  (getKey_defaultKey_isSome _ "drivingMechanism" _ _ hkR)
              have hPdm : (getKey (defaultKey (defaultKey d0 "drivingMechanism"
                  (.str "velocity-driven")) "transient" (.bool false)) "drivingMechanism").isSome :=
                getKey_defaultKey_isSome _ "transient" _ _
                  (getKey_defaultKey_self_isSome d0 "drivingMechanism" _)
              have hPtr : (getKey (defaultKey (defaultKey d0 "drivingMechanism"
                  (.str "velocity-driven")) "transient" (.bool false)) "transient").isSome :=
                getKey_defaultKey_self_isSome _ "transient" _
              have hkv : ∀ k ∈ keysOf (defaultKey (defaultKey d0 "drivingMechanism"
                  (.str "velocity-driven")) "transient" (.bool false)),
                  lookupMap laminar_internal_flow.PARAM_MAP k = some k := by
                intro k hk
                rcases keysOf_defaultKey_subset _ "transient" k _ hk with hk | rfl
                · rcases keysOf_defaultKey_subset _ "drivingMechanism" k _ hk with hk | rfl
                  · rcases hdkeys k hk with hk | rfl | rfl | rfl
                    · rcases keysOf_defaultKey_subset _ "geometryType" k _ hk with hk | rfl
                      · exact hself k (hvals k hk)
                      · exact hself "geometryType" (by decide)
                    · exact hself "pipeRadius" (by decide)
                    · exact hself "pipeDiameter" (by decide)
                    · exact hself "hydraulicDiameter" (by decide)
                  · exact hself "drivingMechanism" (by decide)
                · exact hself "transient" (by decide)
              have hnd : (keysOf (defaultKey (defaultKey d0 "drivingMechanism"
                  (.str "velocity-driven")) "transient" (.bool false))).Nodup :=
                nodup_defaultKey _ "transient" _ (nodup_defaultKey _ "drivingMechanism" _
                  (hdnodup (nodup_defaultKey _ "geometryType" _ hnd0)))
              have hTd0 : ∀ k2 : String, ¬(k2 = "drivingMechanism") → ¬(k2 = "transient") →
                  getKey (defaultKey (defaultKey d0 "drivingMechanism"
                    (.str "velocity-driven")) "transient" (.bool false)) k2 = getKey d0 k2 := by
                intro k2 hn1 hn2
                rw [getKey_defaultKey_ne _ "transient" _ _ hn2,
                  getKey_defaultKey_ne _ "drivingMechanism" _ _ hn1]
              have hsTG : strField (defaultKey (defaultKey d0 "drivingMechanism"
                  (.str "velocity-driven")) "transient" (.bool false)) "geometryType" =
                  strField (defaultKey r "geometryType" (.str "pipe")) "geometryType" := by
                unfold strField
                rw [hTd0 "geometryType" (by decide) (by decide)]
                rw [derive_getKey_other (defaultKey r "geometryType" (.str "pipe")) d0 _ hd (by decide) (by decide) (by decide)]
              have hfinpd : ∀ v, getKey (defaultKey (defaultKey d0 "drivingMechanism"
                  (.str "velocity-driven")) "transient" (.bool false)) "pipeDiameter" = some v →
                  ∃ x : ℚ, v = .num (.fin x) := by
                intro v hv
                have hchk := (zod_pass _ _ hzod).1 ⟨"pipeDiameter", false, zPositiveFiniteNumber⟩
                  (by simp [laminar_internal_flow.LaminarInternalFlow])
                rw [hv] at hchk
                obtain ⟨x, rfl, _⟩ := zPositiveFiniteNumber_none_elim v hchk
                exact ⟨x, rfl⟩
              have hDT : laminar_internal_flow.deriveHydraulicDiameter
                  (defaultKey (defaultKey d0 "drivingMechanism" (.str "velocity-driven"))
                    "transient" (.bool false)) =
                  .ok (defaultKey (defaultKey d0 "drivingMechanism" (.str "velocity-driven"))
                    "transient" (.bool false)) := by
                unfold laminar_internal_flow.deriveHydraulicDiameter at hd ⊢
                by_cases hgp : strField (defaultKey r "geometryType" (.str "pipe")) "geometryType" = "pipe"
                · rw [if_pos (hsTG.trans hgp)]
                  rw [if_pos hgp] at hd
                  cases hpr : getKey (defaultKey r "geometryType" (.str "pipe")) "pipeRadius" with
                  | some vr =>
                    rw [hpr] at hd
                    dsimp only at hd
                    injection hd with hd
                    subst hd
                    have hTpr : getKey (defaultKey (defaultKey (setKey (setKey (defaultKey r "geometryType" (.str "pipe")) "pipeDiameter" (.num (JsNum.mul (.fin 2) vr.toNum))) "hydraulicDiameter" (.num (JsNum.mul (.fin 2) vr.toNum))) "drivingMechanism" (.str "velocity-driven")) "transient" (.bool false)) "pipeRadius" = some vr := by
                      rw [hTd0 "pipeRadius" (by decide) (by decide)]
                      rw [getKey_setKey_ne _ _ _ _ (by decide),
                        getKey_setKey_ne _ _ _ _ (by decide)]
                      exact hpr
                    rw [hTpr]
                    dsimp only
                    have hTpd : getKey (defaultKey (defaultKey (setKey (setKey (defaultKey r "geometryType" (.str "pipe")) "pipeDiameter" (.num (JsNum.mul (.fin 2) vr.toNum))) "hydraulicDiameter" (.num (JsNum.mul (.fin 2) vr.toNum))) "drivingMechanism" (.str "velocity-driven")) "transient" (.bool false)) "pipeDiameter" = some (.num (JsNum.mul (.fin 2) vr.toNum)) := by
                      rw [hTd0 "pipeDiameter" (by decide) (by decide)]
                      rw [getKey_setKey_ne _ _ _ _ (by decide), getKey_setKey_self]
                    have hThd : getKey (defaultKey (defaultKey (setKey (setKey (defaultKey r "geometryType" (.str "pipe")) "pipeDiameter" (.num (JsNum.mul (.fin 2) vr.toNum))) "hydraulicDiameter" (.num (JsNum.mul (.fin 2) vr.toNum))) "drivingMechanism" (.str "velocity-driven")) "transient" (.bool false)) "hydraulicDiameter" = some (.num (JsNum.mul (.fin 2) vr.toNum)) := by
                      rw [hTd0 "hydraulicDiameter" (by decide) (by decide)]
                      rw [getKey_setKey_self]
                    rw [setKey_of_getKey_some _ _ _ hTpd, setKey_of_getKey_some _ _ _ hThd]
                  | none =>
                    rw [hpr] at hd
                    cases hpd2 : getKey (defaultKey r "geometryType" (.str "pipe")) "pipeDiameter" with
                    | some vd =>
                      rw [hpd2] at hd
                      dsimp only at hd
                      injection hd with hd
                      subst hd
                      have hTpd : getKey (defaultKey (defaultKey (setKey (setKey (defaultKey r "geometryType" (.str "pipe")) "pipeRadius" (.num (JsNum.div vd.toNum (.fin 2)))) "hydraulicDiameter" vd) "drivingMechanism" (.str "velocity-driven")) "transient" (.bool false)) "pipeDiameter" = some vd := by
                        rw [hTd0 "pipeDiameter" (by decide) (by decide)]
                        rw [getKey_setKey_ne _ _ _ _ (by decide),
                          getKey_setKey_ne _ _ _ _ (by decide)]
                        exact hpd2
                      obtain ⟨x, rfl⟩ := hfinpd vd hTpd
                      have hTpr : getKey (defaultKey (defaultKey (setKey (setKey (defaultKey r "geometryType" (.str "pipe")) "pipeRadius" (.num (JsNum.div (JsVal.num (JsNum.fin x)).toNum (.fin 2)))) "hydraulicDiameter" (.num (.fin x))) "drivingMechanism" (.str "velocity-driven")) "transient" (.bool false)) "pipeRadius" = some (.num (JsNum.div (JsVal.num (JsNum.fin x)).toNum (.fin 2))) := by
                        rw [hTd0 "pipeRadius" (by decide) (by decide)]
                        rw [getKey_setKey_ne _ _ _ _ (by decide), getKey_setKey_self]
                      rw [hTpr]
                      dsimp only
                      have hmulx : JsNum.mul (.fin 2)
                          (JsVal.num (JsNum.div (JsVal.num (JsNum.fin x)).toNum
                            (.fin 2))).toNum = .fin x := by
                        show JsNum.mul (.fin 2) (JsNum.div (.fin x) (.fin 2)) = .fin x
                        rw [fin_div x 2 (by norm_num), fin_mul]
                        exact congrArg JsNum.fin (by ring)
                      rw [hmulx]
                      have hThd : getKey (defaultKey (defaultKey (setKey (setKey (defaultKey r "geometryType" (.str "pipe")) "pipeRadius" (.num (JsNum.div (JsVal.num (JsNum.fin x)).toNum (.fin 2)))) "hydraulicDiameter" (.num (.fin x))) "drivingMechanism" (.str "velocity-driven")) "transient" (.bool false)) "hydraulicDiameter" =
                          some (.num (.fin x)) := by
                        rw [hTd0 "hydraulicDiameter" (by decide) (by decide)]
                        rw [getKey_setKey_self]
                      rw [setKey_of_getKey_some _ _ _ hTpd, setKey_of_getKey_some _ _ _ hThd]
                    | none =>
                      rw [hpd2] at hd
                      cases hhd2 : getKey (defaultKey r "geometryType" (.str "pipe")) "hydraulicDiameter" with
                      | some vh =>
                        rw [hhd2] at hd
                        dsimp only at hd
                        injection hd with hd
                        subst hd
                        have hTpd : getKey (defaultKey (defaultKey (setKey (setKey (defaultKey r "geometryType" (.str "pipe")) "pipeDiameter" vh) "pipeRadius" (.num (JsNum.div vh.toNum (.fin 2)))) "drivingMechanism" (.str "velocity-driven")) "transient" (.bool false)) "pipeDiameter" = some vh := by
                          rw [hTd0 "pipeDiameter" (by decide) (by decide)]
                          rw [getKey_setKey_ne _ _ _ _ (by decide), getKey_setKey_self]
                        obtain ⟨x, rfl⟩ := hfinpd vh hTpd
                        have hTpr : getKey (defaultKey (defaultKey (setKey (setKey (defaultKey r "geometryType" (.str "pipe")) "pipeDiameter" (.num (.fin x))) "pipeRadius" (.num (JsNum.div (JsVal.num (JsNum.fin x)).toNum (.fin 2)))) "drivingMechanism" (.str "velocity-driven")) "transient" (.bool false)) "pipeRadius" = some (.num (JsNum.div (JsVal.num (JsNum.fin x)).toNum (.fin 2))) := by
                          rw [hTd0 "pipeRadius" (by decide) (by decide)]
                          rw [getKey_setKey_self]
                        rw [hTpr]
                        dsimp only
                        have hmulx : JsNum.mul (.fin 2)
                            (JsVal.num (JsNum.div (JsVal.num (JsNum.fin x)).toNum
                              (.fin 2))).toNum = .fin x := by
                          show JsNum.mul (.fin 2) (JsNum.div (.fin x) (.fin 2)) = .fin x
                          rw [fin_div x 2 (by norm_num), fin_mul]
                          exact congrArg JsNum.fin (by ring)
                        rw [hmulx]
                        have hThd : getKey (defaultKey (defaultKey (setKey (setKey (defaultKey r "geometryType" (.str "pipe")) "pipeDiameter" (.num (.fin x))) "pipeRadius" (.num (JsNum.div (JsVal.num (JsNum.fin x)).toNum (.fin 2)))) "drivingMechanism" (.str "velocity-driven")) "transient" (.bool false)) "hydraulicDiameter" =
                            some (.num (.fin x)) := by
                          rw [hTd0 "hydraulicDiameter" (by decide) (by decide)]
                          rw [getKey_setKey_ne _ _ _ _ (by decide),
                            getKey_setKey_ne _ _ _ _ (by decide)]
                          exact hhd2
                        rw [setKey_of_getKey_some _ _ _ hTpd, setKey_of_getKey_some _ _ _ hThd]
                      | none =>
                        rw [hhd2] at hd
                        cases hd
                · rw [if_neg fun hc => hgp (hsTG.symm.trans hc)]
                  rw [if_neg hgp] at hd
                  by_cases hga : strField (defaultKey r "geometryType" (.str "pipe")) "geometryType" = "annulus"
                  · rw [if_pos (hsTG.trans hga)]
                    rw [if_pos hga] at hd
                    cases hin : getKey (defaultKey r "geometryType" (.str "pipe")) "annulusInnerDiameter" with
                    | some vi =>
                      cases hout : getKey (defaultKey r "geometryType" (.str "pipe")) "annulusOuterDiameter" with
                      | some vo =>
                        rw [hin, hout] at hd
                        dsimp only at hd
                        injection hd with hd
                        subst hd
                        have hTin : getKey (defaultKey (defaultKey (setKey (defaultKey r "geometryType" (.str "pipe")) "hydraulicDiameter" (.num (JsNum.sub vo.toNum vi.toNum))) "drivingMechanism" (.str "velocity-driven")) "transient" (.bool false)) "annulusInnerDiameter" = some vi := by
                          rw [hTd0 "annulusInnerDiameter" (by decide) (by decide)]
                          rw [getKey_setKey_ne _ _ _ _ (by decide)]
                          exact hin
                        have hTout : getKey (defaultKey (defaultKey (setKey (defaultKey r "geometryType" (.str "pipe")) "hydraulicDiameter" (.num (JsNum.sub vo.toNum vi.toNum))) "drivingMechanism" (.str "velocity-driven")) "transient" (.bool false)) "annulusOuterDiameter" = some vo := by
                          rw [hTd0 "annulusOuterDiameter" (by decide) (by decide)]
                          rw [getKey_setKey_ne _ _ _ _ (by decide)]
                          exact hout
                        rw [hTin, hTout]
                        dsimp only
                        have hThd : getKey (defaultKey (defaultKey (setKey (defaultKey r "geometryType" (.str "pipe")) "hydraulicDiameter" (.num (JsNum.sub vo.toNum vi.toNum))) "drivingMechanism" (.str "velocity-driven")) "transient" (.bool false)) "hydraulicDiameter" = some (.num (JsNum.sub vo.toNum vi.toNum)) := by
                          rw [hTd0 "hydraulicDiameter" (by decide) (by decide)]
                          rw [getKey_setKey_self]
                        rw [setKey_of_getKey_some _ _ _ hThd]
                      | none =>
                        rw [hin, hout] at hd
                        dsimp only at hd
                        by_cases hhg : (getKey (defaultKey r "geometryType" (.str "pipe")) "hydraulicDiameter").isSome = true
                        · rw [if_pos hhg] at hd
                          injection hd with hd
                          subst hd
                          have hTin : getKey (defaultKey (defaultKey (defaultKey r "geometryType" (.str "pipe")) "drivingMechanism" (.str "velocity-driven")) "transient" (.bool false)) "annulusInnerDiameter" = some vi := by
                            rw [hTd0 "annulusInnerDiameter" (by decide) (by decide)]
                            exact hin
                          have hTout : getKey (defaultKey (defaultKey (defaultKey r "geometryType" (.str "pipe")) "drivingMechanism" (.str "velocity-driven")) "transient" (.bool false)) "annulusOuterDiameter" = none := by
                            rw [hTd0 "annulusOuterDiameter" (by decide) (by decide)]
                            exact hout
                          rw [hTin, hTout]
                          dsimp only
                          have hThd : (getKey (defaultKey (defaultKey (defaultKey r "geometryType" (.str "pipe")) "drivingMechanism" (.str "velocity-driven")) "transient" (.bool false)) "hydraulicDiameter").isSome = true := by
                            rw [hTd0 "hydraulicDiameter" (by decide) (by decide)]
                            exact hhg
                          rw [if_pos hThd]
                        · rw [if_neg hhg] at hd
                          cases hd
                    | none =>
                      rw [hin] at hd
                      dsimp only at hd
                      by_cases hhg : (getKey (defaultKey r "geometryType" (.str "pipe")) "hydraulicDiameter").isSome = true
                      · rw [if_pos hhg] at hd
                        injection hd with hd
                        subst hd
                        have hTin : getKey (defaultKey (defaultKey (defaultKey r "geometryType" (.str "pipe")) "drivingMechanism" (.str "velocity-driven")) "transient" (.bool false)) "annulusInnerDiameter" = none := by
                          rw [hTd0 "annulusInnerDiameter" (by decide) (by decide)]
                          exact hin
                        rw [hTin]
                        dsimp only
                        have hThd : (getKey (defaultKey (defaultKey (defaultKey r "geometryType" (.str "pipe")) "drivingMechanism" (.str "velocity-driven")) "transient" (.bool false)) "hydraulicDiameter").isSome = true := by
                          rw [hTd0 "hydraulicDiameter" (by decide) (by decide)]
                          exact hhg
                        rw [if_pos hThd]
                      · rw [if_neg hhg] at hd
                        cases hd
                  · rw [if_neg fun hc => hga (hsTG.symm.trans hc)]
                    rw [if_neg hga] at hd
                    by_cases hgc : strField (defaultKey r "geometryType" (.str "pipe")) "geometryType" = "channel"
                    · rw [if_pos (hsTG.trans hgc)]
                      rw [if_pos hgc] at hd
                      cases hin : getKey (defaultKey r "geometryType" (.str "pipe")) "channelWidth" with
                      | some vw =>
                        cases hout : getKey (defaultKey r "geometryType" (.str "pipe")) "channelHeight" with
                        | some vh =>
                          rw [hin, hout] at hd
                          dsimp only at hd
                          injection hd with hd
                          subst hd
                          have hTin : getKey (defaultKey (defaultKey (setKey (defaultKey r "geometryType" (.str "pipe")) "hydraulicDiameter" (.num (JsNum.div (JsNum.mul (JsNum.mul (.fin 2) vw.toNum) vh.toNum) (JsNum.add vw.toNum vh.toNum)))) "drivingMechanism" (.str "velocity-driven")) "transient" (.bool false)) "channelWidth" = some vw := by
                            rw [hTd0 "channelWidth" (by decide) (by decide)]
                            rw [getKey_setKey_ne _ _ _ _ (by decide)]
                            exact hin
                          have hTout : getKey (defaultKey (defaultKey (setKey (defaultKey r "geometryType" (.str "pipe")) "hydraulicDiameter" (.num (JsNum.div (JsNum.mul (JsNum.mul (.fin 2) vw.toNum) vh.toNum) (JsNum.add vw.toNum vh.toNum)))) "drivingMechanism" (.str "velocity-driven")) "transient" (.bool false)) "channelHeight" = some vh := by
                            rw [hTd0 "channelHeight" (by decide) (by decide)]
                            rw [getKey_setKey_ne _ _ _ _ (by decide)]
                            exact hout
                          rw [hTin, hTout]
                          dsimp only
                          have hThd : getKey (defaultKey (defaultKey (setKey (defaultKey r "geometryType" (.str "pipe")) "hydraulicDiameter" (.num (JsNum.div (JsNum.mul (JsNum.mul (.fin 2) vw.toNum) vh.toNum) (JsNum.add vw.toNum vh.toNum)))) "drivingMechanism" (.str "velocity-driven")) "transient" (.bool false)) "hydraulicDiameter" = some (.num (JsNum.div (JsNum.mul (JsNum.mul (.fin 2) vw.toNum) vh.toNum) (JsNum.add vw.toNum vh.toNum))) := by
                            rw [hTd0 "hydraulicDiameter" (by decide) (by decide)]
                            rw [getKey_setKey_self]
                          rw [setKey_of_getKey_some _ _ _ hThd]
                        | none =>
                          rw [hin, hout] at hd
                          dsimp only at hd
                          by_cases hhg : (getKey (defaultKey r "geometryType" (.str "pipe")) "hydraulicDiameter").isSome = true
                          · rw [if_pos hhg] at hd
                            injection hd with hd
                            subst hd
                            have hTin : getKey (defaultKey (defaultKey (defaultKey r "geometryType" (.str "pipe")) "drivingMechanism" (.str "velocity-driven")) "transient" (.bool false)) "channelWidth" = some vw := by
                              rw [hTd0 "channelWidth" (by decide) (by decide)]
                              exact hin
                            have hTout : getKey (defaultKey (defaultKey (defaultKey r "geometryType" (.str "pipe")) "drivingMechanism" (.str "velocity-driven")) "transient" (.bool false)) "channelHeight" = none := by
                              rw [hTd0 "channelHeight" (by decide) (by decide)]
                              exact hout
                            rw [hTin, hTout]
                            dsimp only
                            have hThd : (getKey (defaultKey (defaultKey (defaultKey r "geometryType" (.str "pipe")) "drivingMechanism" (.str "velocity-driven")) "transient" (.bool false)) "hydraulicDiameter").isSome = true := by
                              rw [hTd0 "hydraulicDiameter" (by decide) (by decide)]
                              exact hhg
                            rw [if_pos hThd]
                          · rw [if_neg hhg] at hd
                            cases hd
                      | none =>
                        rw [hin] at hd
                        dsimp only at hd
                        by_cases hhg : (getKey (defaultKey r "geometryType" (.str "pipe")) "hydraulicDiameter").isSome = true
                        · rw [if_pos hhg] at hd
                          injection hd with hd
                          subst hd
                          have hTin : getKey (defaultKey (defaultKey (defaultKey r "geometryType" (.str "pipe")) "drivingMechanism" (.str "velocity-driven")) "transient" (.bool false)) "channelWidth" = none := by
                            rw [hTd0 "channelWidth" (by decide) (by decide)]
                            exact hin
                          rw [hTin]
                          dsimp only
                          have hThd : (getKey (defaultKey (defaultKey (defaultKey r "geometryType" (.str "pipe")) "drivingMechanism" (.str "velocity-driven")) "transient" (.bool false)) "hydraulicDiameter").isSome = true := by
                            rw [hTd0 "hydraulicDiameter" (by decide) (by decide)]
                            exact hhg
                          rw [if_pos hThd]
                        · rw [if_neg hhg] at hd
                          cases hd
                    · rw [if_neg fun hc => hgc (hsTG.symm.trans hc)]
                      rw [if_neg hgc] at hd
                      by_cases hgr : strField (defaultKey r "geometryType" (.str "pipe")) "geometryType" = "rectangular_duct"
                      · rw [if_pos (hsTG.trans hgr)]
                        rw [if_pos hgr] at hd
                        cases hin : getKey (defaultKey r "geometryType" (.str "pipe")) "rectangularWidth" with
                        | some vw =>
                          cases hout : getKey (defaultKey r "geometryType" (.str "pipe")) "rectangularHeight" with
                          | some vh =>
                            rw [hin, hout] at hd
                            dsimp only at hd
                            injection hd with hd
                            subst hd
                            have hTin : getKey (defaultKey (defaultKey (setKey (defaultKey r "geometryType" (.str "pipe")) "hydraulicDiameter" (.num (JsNum.div (JsNum.mul (JsNum.mul (.fin 2) vw.toNum) vh.toNum) (JsNum.add vw.toNum vh.toNum)))) "drivingMechanism" (.str "velocity-driven")) "transient" (.bool false)) "rectangularWidth" = some vw := by
                              rw [hTd0 "rectangularWidth" (by decide) (by decide)]
                              rw [getKey_setKey_ne _ _ _ _ (by decide)]
                              exact hin
                            have hTout : getKey (defaultKey (defaultKey (setKey (defaultKey r "geometryType" (.str "pipe")) "hydraulicDiameter" (.num (JsNum.div (JsNum.mul (JsNum.mul (.fin 2) vw.toNum) vh.toNum) (JsNum.add vw.toNum vh.toNum)))) "drivingMechanism" (.str "velocity-driven")) "transient" (.bool false)) "rectangularHeight" = some vh := by
                              rw [hTd0 "rectangularHeight" (by decide) (by decide)]
                              rw [getKey_setKey_ne _ _ _ _ (by decide)]
                              exact hout
                            rw [hTin, hTout]
                            dsimp only
                            have hThd : getKey (defaultKey (defaultKey (setKey (defaultKey r "geometryType" (.str "pipe")) "hydraulicDiameter" (.num (JsNum.div (JsNum.mul (JsNum.mul (.fin 2) vw.toNum) vh.toNum) (JsNum.add vw.toNum vh.toNum)))) "drivingMechanism" (.str "velocity-driven")) "transient" (.bool false)) "hydraulicDiameter" =
                                some (.num (JsNum.div (JsNum.mul (JsNum.mul (.fin 2) vw.toNum) vh.toNum) (JsNum.add vw.toNum vh.toNum))) := by
                              rw [hTd0 "hydraulicDiameter" (by decide) (by decide)]
                              rw [getKey_setKey_self]
                            rw [setKey_of_getKey_some _ _ _ hThd]
                          | none =>
                            rw [hin, hout] at hd
                            dsimp only at hd
                            cases hd
                        | none =>
                          rw [hin] at hd
                          dsimp only at hd
                          cases hd
                      · rw [if_neg fun hc => hgr (hsTG.symm.trans hc)]
              rw [resolveAliases_selfmap _ _ hkv hnd, eb_ok]
              dsimp only
              rw [defaultKey_of_isSome _ "geometryType" (.str "pipe") hPgeo]
              rw [requireKey_ok _ _ _ hPlen, eb_ok]
              rw [hDT, eb_ok]
              rw [requireKey_ok _ _ _ hPden, eb_ok]
              rw [requireKey_ok _ _ _ hPvis, eb_ok]
              rw [requireKey_ok _ _ _ hPre, eb_ok]
              rw [defaultKey_of_isSome _ "drivingMechanism" (.str "velocity-driven") hPdm]
              rw [defaultKey_of_isSome _ "transient" (.bool false) hPtr]
              rfl
theorem validateScenePlan_mkScenePlan_noSchema (c v : String)
    (raw : List (String × JsVal)) (hc : ¬(c = "")) (hv : ¬(v = ""))
    (hs : getSchema c v = none) :
    validateScenePlan (mkScenePlan c v raw) =
      { valid := false
        errors := ["No schema registered for concept=\"" ++ c ++
          "\" version=\"" ++ v ++ "\"."]
        canonicalScenePlan := none } := by
  have e1 : truthyStrField [("concept", JsVal.str c), ("schemaVersion", JsVal.str v),
      ("parameters", JsVal.obj raw)] "concept" = some c := by
    unfold truthyStrField
    rw [show getKey [("concept", JsVal.str c), ("schemaVersion", JsVal.str v),
      ("parameters", JsVal.obj raw)] "concept" = some (JsVal.str c) from rfl]
    simp [hc]
  have e2 : truthyStrField [("concept", JsVal.str c), ("schemaVersion", JsVal.str v),
      ("parameters", JsVal.obj raw)] "schemaVersion" = some v := by
    unfold truthyStrField
    rw [show getKey [("concept", JsVal.str c), ("schemaVersion", JsVal.str v),
      ("parameters", JsVal.obj raw)] "schemaVersion" = some (JsVal.str v) from rfl]
    simp [hv]
  unfold validateScenePlan mkScenePlan
  dsimp only
  rw [e1, e2]
  dsimp only
  rw [hs]

/-- C2: feeding an accepted plan's canonical scene plan back into the
validator (its parameters as the raw map) reproduces the result exactly —
`valid: true` with an identical canonical plan — for every registered concept,
including `laminar_internal_flow` with its hydraulic-diameter derivation. -/
theorem C2_idempotent (c v : String) (raw : List (String × JsVal))
    (cp : CanonicalScenePlan)
    (h : (validateScenePlan (mkScenePlan c v raw)).canonicalScenePlan = some cp) :
    (validateScenePlan (mkScenePlan c v raw)).valid = true ∧
      validateScenePlan (mkScenePlan cp.concept cp.schemaVersion cp.parameters) =
        validateScenePlan (mkScenePlan c v raw) := by
  by_cases hc : c = ""
  · exfalso
    subst hc
    unfold validateScenePlan mkScenePlan at h
    simp [truthyStrField, getKey] at h
  · by_cases hv : v = ""
    · exfalso
      subst hv
      unfold validateScenePlan mkScenePlan at h
      simp [truthyStrField, getKey, hc] at h
    · cases hs : getSchema c v with
      | none =>
        exfalso
        rw [validateScenePlan_mkScenePlan_noSchema c v raw hc hv hs] at h
        cases h
      | some schema =>
        rw [validateScenePlan_mkScenePlan c v raw schema hc hv hs] at h ⊢
        cases hn : schema.normalize raw with
        | error e =>
          rw [hn] at h
          dsimp only at h
          cases h
        | ok p =>
          rw [hn] at h
          dsimp only at h ⊢
          cases hst : schema.validateStructure p with
          | cons a l =>
            rw [hst] at h
            dsimp only at h
            cases h
          | nil =>
            rw [hst] at h
            dsimp only at h ⊢
            cases hfm : schema.contracts.filterMap (fun f => f p) with
            | cons a l =>
              rw [hfm] at h
              dsimp only at h
              cases h
            | nil =>
              rw [hfm] at h
              dsimp only at h ⊢
              injection h with h
              subst h
              dsimp only
              refine ⟨rfl, ?_⟩
              obtain ⟨hv1, hcases⟩ := getSchema_eq_some c v schema hs
              subst hv1
              rcases hcases with hcase | hcase | hcase | hcase | hcase | hcase | hcase |
                hcase | hcase
              · obtain ⟨hcc, hss⟩ := hcase
                subst hcc
                subst hss
                have hidem : harmonicOscillatorSchema.normalize p = .ok p := harmonic_normalize_idem raw p hn
                rw [validateScenePlan_mkScenePlan "harmonic_oscillator" "v1" p harmonicOscillatorSchema
                  (by decide) (by decide) rfl]
                rw [hidem]
                dsimp only
                rw [hst]
                dsimp only
                rw [hfm]
              · obtain ⟨hcc, hss⟩ := hcase
                subst hcc
                subst hss
                have hidem : dampedOscillatorSchema.normalize p = .ok p := damped_normalize_idem raw p hn
                rw [validateScenePlan_mkScenePlan "damped_oscillator" "v1" p dampedOscillatorSchema
                  (by decide) (by decide) rfl]
                rw [hidem]
                dsimp only
                rw [hst]
                dsimp only
                rw [hfm]
              · obtain ⟨hcc, hss⟩ := hcase
                subst hcc
                subst hss
                have hidem : drivenOscillatorSchema.normalize p = .ok p := driven_normalize_idem raw p hn
                rw [validateScenePlan_mkScenePlan "driven_oscillator" "v1" p drivenOscillatorSchema
                  (by decide) (by decide) rfl]
                rw [hidem]
                dsimp only
                rw [hst]
                dsimp only
                rw [hfm]
              · obtain ⟨hcc, hss⟩ := hcase
                subst hcc
                subst hss
                have hidem : coupledOscillators2MassSchema.normalize p = .ok p := coupled_normalize_idem raw p hn
                rw [validateScenePlan_mkScenePlan "coupled_oscillators_2mass" "v1" p coupledOscillators2MassSchema
                  (by decide) (by decide) rfl]
                rw [hidem]
                dsimp only
                rw [hst]
                dsimp only
                rw [hfm]
              · obtain ⟨hcc, hss⟩ := hcase
                subst hcc
                subst hss
                have hidem : projectileMotionSchema.normalize p = .ok p := projectile_normalize_idem raw p hn
                rw [validateScenePlan_mkScenePlan "projectile_motion" "v1" p projectileMotionSchema
                  (by decide) (by decide) rfl]
                rw [hidem]
                dsimp only
                rw [hst]
                dsimp only
                rw [hfm]
              · obtain ⟨hcc, hss⟩ := hcase
                subst hcc
                subst hss
                have hidem : uniformCircularMotionSchema.normalize p = .ok p := ucm_normalize_idem raw p hn
                rw [validateScenePlan_mkScenePlan "uniform_circular_motion" "v1" p uniformCircularMotionSchema
                  (by decide) (by decide) rfl]
                rw [hidem]
                dsimp only
                rw [hst]
                dsimp only
                rw [hfm]
              · obtain ⟨hcc, hss⟩ := hcase
                subst hcc
                subst hss
                have hidem : keplerTwoBodyOrbitSchema.normalize p = .ok p := kepler_normalize_idem raw p hn
                rw [validateScenePlan_mkScenePlan "kepler_two_body_orbit" "v1" p keplerTwoBodyOrbitSchema
                  (by decide) (by decide) rfl]
                rw [hidem]
                dsimp only
                rw [hst]
                dsimp only
                rw [hfm]
              · obtain ⟨hcc, hss⟩ := hcase
                subst hcc
                subst hss
                have hidem : laminarInternalFlowSchema.normalize p = .ok p := laminar_normalize_idem raw p hn (laminar_structure_zod p hst)
                rw [validateScenePlan_mkScenePlan "laminar_internal_flow" "v1" p laminarInternalFlowSchema
                  (by decide) (by decide) rfl]
                rw [hidem]
                dsimp only
                rw [hst]
                dsimp only
                rw [hfm]
              · obtain ⟨hcc, hss⟩ := hcase
                subst hcc
                subst hss
                have hidem : fluidSystemSchema.normalize p = .ok p := fluid_normalize_idem raw p hn
                rw [validateScenePlan_mkScenePlan "fluid_system" "v1" p fluidSystemSchema
                  (by decide) (by decide) rfl]
                rw [hidem]
                dsimp only
                rw [hst]
                dsimp only
                rw [hfm]
theorem C2_witness :
    (validateScenePlan (mkScenePlan "harmonic_oscillator" "v1"
        [("amplitude", .num (.fin 1)), ("frequency", .num (.fin 1))])).valid = true ∧
      validateScenePlan (mkScenePlan "harmonic_oscillator" "v1"
        [("amplitude", .num (.fin 1)), ("frequency", .num (.fin 1)),
         ("phase", .num (.fin 0))]) =
        validateScenePlan (mkScenePlan "harmonic_oscillator" "v1"
          [("amplitude", .num (.fin 1)), ("frequency", .num (.fin 1))]) :=
  C2_idempotent "harmonic_oscillator" "v1"
    [("amplitude", .num (.fin 1)), ("frequency", .num (.fin 1))]
    { concept := "harmonic_oscillator", schemaVersion := "v1",
      parameters := [("amplitude", .num (.fin 1)), ("frequency", .num (.fin 1)),
        ("phase", .num (.fin 0))] }
    (by with_unfolding_all rfl)
